import Mathlib

/-!
# Verification of the spooliq Keycloak provisioning scripts

Shallow embedding of the three provisioning scripts
(`scripts/setup_keycloak_multitenant.py`, `scripts/setup_keycloak_groups.py`,
`scripts/fix_keycloak_roles.py`) over an explicit model of the remote
Keycloak admin-API state.

Modelling conventions:
* The remote Keycloak state is a record of resource lists; server-assigned
  ids come from a counter (`nextId`).
* Every HTTP call is recorded in a request trace (`Sys.trace`).
* Transient failures are modelled by a consumable list of faults
  (`Sys.faults`): a request present in the list receives a 500 response
  (status `500`, empty body) once, the occurrence being consumed.  A `500`
  response makes `raise_for_status` raise a `RequestException` in the
  Python code; plain `status_code` checks simply see a non-2xx status.
* JSON bodies of error responses are modelled as empty collections; no
  claim exercises a path where the scripts would decode an error body.
* Request payloads are modelled by the fields the server consults and the
  fields a claim inspects (natural keys, user representations, group
  attributes, role references).  Payload fields that no claim and no
  server decision depends on (redirect URIs, token-lifespan attributes,
  mapper config flags, descriptions of payloads other than roles) are not
  carried in the request trace.
-/

namespace Spooliq

/-- Boolean list-prefix test on characters, used to model Python's
substring operator (`"organization" in name`). -/
def charsPrefix : List Char → List Char → Bool
  | [], _ => true
  | _ :: _, [] => false
  | a :: as, b :: bs => a == b && charsPrefix as bs

/-- Boolean substring test (`needle` occurs somewhere in `hay`). -/
def charsContains : List Char → List Char → Bool
  | needle, [] => charsPrefix needle []
  | needle, b :: bs => charsPrefix needle (b :: bs) || charsContains needle bs

/-- Python's `needle in hay` on strings. -/
def strContains (hay needle : String) : Bool :=
  charsContains needle.data hay.data

/-- Attribute-map lookup (Python `dict.get` on a `str -> list[str]` map,
modelled as an insertion-ordered association list). -/
def getA (attrs : List (String × List String)) (k : String) : Option (List String) :=
  (attrs.find? (fun p => p.1 == k)).map (fun p => p.2)

/-- Attribute-map update (Python `d[k] = v`): overwrites the first binding
of `k` in place, or appends a new binding, as Python dicts do. -/
def setA (attrs : List (String × List String)) (k : String) (v : List String) :
    List (String × List String) :=
  if attrs.any (fun p => p.1 == k) then
    attrs.map (fun p => if p.1 == k then (k, v) else p)
  else attrs ++ [(k, v)]

/-! ## Remote Keycloak state -/

/-- A registered client (`GET /admin/realms/{realm}/clients` element). -/
structure KcClient where
  id : String
  clientId : String
deriving DecidableEq, Repr

/-- A realm role. -/
structure KcRole where
  id : String
  name : String
  description : String
deriving DecidableEq, Repr

/-- A client scope. -/
structure KcScope where
  id : String
  name : String
deriving DecidableEq, Repr

/-- A protocol mapper installed on a client scope. -/
structure KcMapper where
  scopeId : String
  name : String
deriving DecidableEq, Repr

/-- A group, with its attribute map. -/
structure KcGroup where
  id : String
  name : String
  attributes : List (String × List String)
deriving DecidableEq, Repr

/-- A user representation: id, email, attribute map, and the remaining
fields of the JSON representation (kept opaque, for frame reasoning). -/
structure KcUser where
  id : String
  email : String
  attributes : List (String × List String)
  rest : List (String × String)
deriving DecidableEq, Repr

/-- The remote IAM state: every resource collection the scripts touch,
plus the id-allocation counter of the server. -/
structure KcState where
  clients : List KcClient
  roles : List KcRole
  scopes : List KcScope
  mappers : List KcMapper
  groups : List KcGroup
  users : List KcUser
  /-- `(clientUuid, scopeId)` pairs: default client scopes. -/
  defaultScopes : List (String × String)
  /-- `(userId, roleId)` pairs: realm-level role mappings. -/
  roleMappings : List (String × String)
  /-- `(userId, groupId)` pairs: group memberships. -/
  userGroups : List (String × String)
  nextId : Nat
deriving DecidableEq, Repr

/-- Server-assigned id for the next created resource. -/
def freshId (s : KcState) : String := "kc-" ++ toString s.nextId

/-! ## Requests -/

/-- Admin-API requests, carrying the data the server consults and the
data the claims inspect. -/
inductive Req where
  | postToken
  | getClients (clientId : String)
  | postClient (clientId : String)
  | getRole (name : String)
  | postRole (name : String)
  | deleteRole (name : String)
  | getScopes
  | postScope (name : String)
  | getMappers (scopeId : String)
  | postMapper (scopeId : String) (name : String)
  | putDefaultScope (clientUuid : String) (scopeId : String)
  | getUsersByEmail (email : String)
  | getUser (userId : String)
  | putUser (userId : String) (body : KcUser)
  | getRoles
  | getRoleMappings (userId : String)
  | postRoleMappings (userId : String) (roles : List (String × String))
  | deleteRoleMappings (userId : String) (roles : List (String × String))
  | getGroups (search : String)
  | postGroup (name : String) (attributes : List (String × List String))
  | putUserGroup (userId : String) (groupId : String)
deriving DecidableEq, Repr

/-- The system a run acts on: remote state, pending one-shot faults, and
the trace of requests issued so far. -/
structure Sys where
  state : KcState
  faults : List Req
  trace : List Req
deriving DecidableEq, Repr

/-- Record a request in the trace and decide whether a pending fault
fires for it (consuming the fault). -/
def hit (sys : Sys) (r : Req) : Bool × Sys :=
  if sys.faults.contains r then
    (true, { sys with faults := sys.faults.erase r, trace := sys.trace ++ [r] })
  else
    (false, { sys with trace := sys.trace ++ [r] })

/-- `requests.Response.raise_for_status` raises exactly on 4xx/5xx;
status `500` is our modelled transport/server failure. -/
def raiseOk (st : Nat) : Bool := st < 400

/-! ## Server semantics, one definition per endpoint

Each returns the HTTP status, the response body where the scripts read
one, and the updated system. -/

/-- `POST /realms/master/protocol/openid-connect/token`. -/
def httpPostToken (sys : Sys) : Nat × Sys :=
  let (f, sys) := hit sys Req.postToken
  if f then (500, sys) else (200, sys)

/-- `GET /admin/realms/{realm}/clients?clientId=` — exact filter. -/
def httpGetClients (sys : Sys) (cid : String) : Nat × List KcClient × Sys :=
  let (f, sys) := hit sys (Req.getClients cid)
  if f then (500, [], sys)
  else (200, sys.state.clients.filter (fun c => c.clientId == cid), sys)

/-- `POST /admin/realms/{realm}/clients` — 409 if the clientId is taken. -/
def httpPostClient (sys : Sys) (cid : String) : Nat × Sys :=
  let (f, sys) := hit sys (Req.postClient cid)
  if f then (500, sys)
  else if sys.state.clients.any (fun c => c.clientId == cid) then (409, sys)
  else
    (201, { sys with state := { sys.state with
      clients := sys.state.clients ++ [⟨freshId sys.state, cid⟩],
      nextId := sys.state.nextId + 1 } })

/-- `GET /admin/realms/{realm}/roles/{name}`. -/
def httpGetRole (sys : Sys) (name : String) : Nat × Option KcRole × Sys :=
  let (f, sys) := hit sys (Req.getRole name)
  if f then (500, none, sys)
  else match sys.state.roles.find? (fun r => r.name == name) with
    | some r => (200, some r, sys)
    | none => (404, none, sys)

/-- `POST /admin/realms/{realm}/roles` — 409 if the name is taken. -/
def httpPostRole (sys : Sys) (name desc : String) : Nat × Sys :=
  let (f, sys) := hit sys (Req.postRole name)
  if f then (500, sys)
  else if sys.state.roles.any (fun r => r.name == name) then (409, sys)
  else
    (201, { sys with state := { sys.state with
      roles := sys.state.roles ++ [⟨freshId sys.state, name, desc⟩],
      nextId := sys.state.nextId + 1 } })

/-- `DELETE /admin/realms/{realm}/roles/{name}` — deleting a realm role
also removes its mappings from every user (Keycloak cascades). -/
def httpDeleteRole (sys : Sys) (name : String) : Nat × Sys :=
  let (f, sys) := hit sys (Req.deleteRole name)
  if f then (500, sys)
  else match sys.state.roles.find? (fun r => r.name == name) with
    | some r =>
      (204, { sys with state := { sys.state with
        roles := sys.state.roles.filter (fun x => x.id != r.id),
        roleMappings := sys.state.roleMappings.filter (fun p => p.2 != r.id) } })
    | none => (404, sys)

/-- `GET /admin/realms/{realm}/client-scopes`. -/
def httpGetScopes (sys : Sys) : Nat × List KcScope × Sys :=
  let (f, sys) := hit sys Req.getScopes
  if f then (500, [], sys) else (200, sys.state.scopes, sys)

/-- `POST /admin/realms/{realm}/client-scopes` — 409 if the name is taken. -/
def httpPostScope (sys : Sys) (name : String) : Nat × Sys :=
  let (f, sys) := hit sys (Req.postScope name)
  if f then (500, sys)
  else if sys.state.scopes.any (fun s => s.name == name) then (409, sys)
  else
    (201, { sys with state := { sys.state with
      scopes := sys.state.scopes ++ [⟨freshId sys.state, name⟩],
      nextId := sys.state.nextId + 1 } })

/-- `GET .../client-scopes/{id}/protocol-mappers/models`. -/
def httpGetMappers (sys : Sys) (scopeId : String) : Nat × List KcMapper × Sys :=
  let (f, sys) := hit sys (Req.getMappers scopeId)
  if f then (500, [], sys)
  else if sys.state.scopes.any (fun s => s.id == scopeId) then
    (200, sys.state.mappers.filter (fun m => m.scopeId == scopeId), sys)
  else (404, [], sys)

/-- `POST .../client-scopes/{id}/protocol-mappers/models` — 404 for an
unknown scope, 409 for a duplicate mapper name within the scope. -/
def httpPostMapper (sys : Sys) (scopeId name : String) : Nat × Sys :=
  let (f, sys) := hit sys (Req.postMapper scopeId name)
  if f then (500, sys)
  else if !sys.state.scopes.any (fun s => s.id == scopeId) then (404, sys)
  else if sys.state.mappers.any (fun m => m.scopeId == scopeId && m.name == name) then
    (409, sys)
  else
    (201, { sys with state := { sys.state with
      mappers := sys.state.mappers ++ [⟨scopeId, name⟩] } })

/-- `PUT .../clients/{id}/default-client-scopes/{scopeId}` — 204 and
idempotent set-insertion when both ids exist, 404 otherwise. -/
def httpPutDefaultScope (sys : Sys) (clientUuid scopeId : String) : Nat × Sys :=
  let (f, sys) := hit sys (Req.putDefaultScope clientUuid scopeId)
  if f then (500, sys)
  else if sys.state.clients.any (fun c => c.id == clientUuid)
       && sys.state.scopes.any (fun s => s.id == scopeId) then
    (204, { sys with state := { sys.state with
      defaultScopes :=
        if sys.state.defaultScopes.contains (clientUuid, scopeId) then
          sys.state.defaultScopes
        else sys.state.defaultScopes ++ [(clientUuid, scopeId)] } })
  else (404, sys)

/-- `GET /admin/realms/{realm}/users?email=&exact=true`. -/
def httpGetUsersByEmail (sys : Sys) (email : String) : Nat × List KcUser × Sys :=
  let (f, sys) := hit sys (Req.getUsersByEmail email)
  if f then (500, [], sys)
  else (200, sys.state.users.filter (fun u => u.email == email), sys)

/-- `GET /admin/realms/{realm}/users/{id}`. -/
def httpGetUser (sys : Sys) (uid : String) : Nat × Option KcUser × Sys :=
  let (f, sys) := hit sys (Req.getUser uid)
  if f then (500, none, sys)
  else match sys.state.users.find? (fun u => u.id == uid) with
    | some u => (200, some u, sys)
    | none => (404, none, sys)

/-- `PUT /admin/realms/{realm}/users/{id}` — replaces the stored
representation. -/
def httpPutUser (sys : Sys) (uid : String) (body : KcUser) : Nat × Sys :=
  let (f, sys) := hit sys (Req.putUser uid body)
  if f then (500, sys)
  else if sys.state.users.any (fun u => u.id == uid) then
    (204, { sys with state := { sys.state with
      users := sys.state.users.map (fun u => if u.id == uid then body else u) } })
  else (404, sys)

/-- `GET /admin/realms/{realm}/roles`. -/
def httpGetRoles (sys : Sys) : Nat × List KcRole × Sys :=
  let (f, sys) := hit sys Req.getRoles
  if f then (500, [], sys) else (200, sys.state.roles, sys)

/-- `GET .../users/{id}/role-mappings/realm` — the realm roles currently
mapped to the user, as role representations. -/
def httpGetRoleMappings (sys : Sys) (uid : String) : Nat × List KcRole × Sys :=
  let (f, sys) := hit sys (Req.getRoleMappings uid)
  if f then (500, [], sys)
  else
    (200, (sys.state.roleMappings.filter (fun p => p.1 == uid)).filterMap
      (fun p => sys.state.roles.find? (fun r => r.id == p.2)), sys)

/-- `POST .../users/{id}/role-mappings/realm` with a list of
`(id, name)` role references — set-union semantics; 404 when the user or
a referenced role does not exist. -/
def httpPostRoleMappings (sys : Sys) (uid : String) (roles : List (String × String)) :
    Nat × Sys :=
  let (f, sys) := hit sys (Req.postRoleMappings uid roles)
  if f then (500, sys)
  else if sys.state.users.any (fun u => u.id == uid)
       && roles.all (fun rr => sys.state.roles.any (fun r => r.id == rr.1)) then
    (204, { sys with state := { sys.state with
      roleMappings := roles.foldl
        (fun acc rr =>
          if acc.contains (uid, rr.1) then acc else acc ++ [(uid, rr.1)])
        sys.state.roleMappings } })
  else (404, sys)

/-- `DELETE .../users/{id}/role-mappings/realm` with a body of role
references — removes exactly those mappings. -/
def httpDeleteRoleMappings (sys : Sys) (uid : String) (roles : List (String × String)) :
    Nat × Sys :=
  let (f, sys) := hit sys (Req.deleteRoleMappings uid roles)
  if f then (500, sys)
  else if sys.state.users.any (fun u => u.id == uid) then
    (204, { sys with state := { sys.state with
      roleMappings := sys.state.roleMappings.filter
        (fun p => !(p.1 == uid && roles.any (fun rr => rr.1 == p.2))) } })
  else (404, sys)

/-- `GET /admin/realms/{realm}/groups?search=` — substring search on the
group name, as Keycloak implements it. -/
def httpGetGroups (sys : Sys) (search : String) : Nat × List KcGroup × Sys :=
  let (f, sys) := hit sys (Req.getGroups search)
  if f then (500, [], sys)
  else (200, sys.state.groups.filter (fun g => strContains g.name search), sys)

/-- `POST /admin/realms/{realm}/groups` — 201 with the new id surfaced
via the `Location` header, 409 for a duplicate name. -/
def httpPostGroup (sys : Sys) (name : String) (attrs : List (String × List String)) :
    Nat × Option String × Sys :=
  let (f, sys) := hit sys (Req.postGroup name attrs)
  if f then (500, none, sys)
  else if sys.state.groups.any (fun g => g.name == name) then (409, none, sys)
  else
    (201, some (freshId sys.state), { sys with state := { sys.state with
      groups := sys.state.groups ++ [⟨freshId sys.state, name, attrs⟩],
      nextId := sys.state.nextId + 1 } })

/-- `PUT .../users/{id}/groups/{groupId}` — idempotent membership add. -/
def httpPutUserGroup (sys : Sys) (uid gid : String) : Nat × Sys :=
  let (f, sys) := hit sys (Req.putUserGroup uid gid)
  if f then (500, sys)
  else if sys.state.users.any (fun u => u.id == uid)
       && sys.state.groups.any (fun g => g.id == gid) then
    (204, { sys with state := { sys.state with
      userGroups :=
        if sys.state.userGroups.contains (uid, gid) then sys.state.userGroups
        else sys.state.userGroups ++ [(uid, gid)] } })
  else (404, sys)

/-! ## `scripts/setup_keycloak_multitenant.py` — class `KeycloakSetup`

The `organization_uuid` minted once in `__init__` (`str(uuid_lib.uuid4())`)
and the environment-supplied `ADMIN_EMAIL` are parameters of the run. -/

/-- Module constant `CLIENT_ID = "spooliq"`. -/
def CLIENT_ID : String := "spooliq"

namespace KeycloakSetup

/-- `get_admin_token`: password-grant POST to the master-realm token
endpoint; `raise_for_status` failures are caught and yield `False`. -/
def get_admin_token (sys : Sys) : Bool × Sys :=
  let (st, sys) := httpPostToken sys
  if raiseOk st then (true, sys) else (false, sys)

/-- The creation fall-through block of `create_client` (reached both when
the existence lookup raised — warning only — and when it returned an
empty list).  After a successful POST the client's UUID is recovered by
re-running the lookup; an empty re-lookup result would raise an uncaught
`IndexError` in the source, modelled as the aborting `none`. -/
def create_client_create (sys : Sys) : Option String × Sys :=
  let (st, sys) := httpPostClient sys CLIENT_ID
  if raiseOk st then
    let (st2, clients, sys) := httpGetClients sys CLIENT_ID
    if raiseOk st2 then
      match clients with
      | c :: _ => (some c.id, sys)
      | [] => (none, sys)
    else (none, sys)
  else (none, sys)

/-- `create_client`: lookup by `clientId`, return the existing client's
id when found, otherwise create. -/
def create_client (sys : Sys) : Option String × Sys :=
  let (st, clients, sys) := httpGetClients sys CLIENT_ID
  if raiseOk st then
    match clients with
    | c :: _ => (some c.id, sys)
    | [] => create_client_create sys
  else create_client_create sys

/-- `roles = ["PlatformAdmin", "OrgAdmin", "User"]` in `create_roles`. -/
def rolesList : List String := ["PlatformAdmin", "OrgAdmin", "User"]

/-- The loop body of `create_roles`: per role, direct GET by name
(`status_code == 200` means it exists, any other outcome falls through
to creation), then POST; a failed POST (`raise_for_status`, which a 409
triggers) sets the overall `success` flag to `False` but the loop
continues with the remaining roles. -/
def create_roles_go : List String → Bool → Sys → Bool × Sys
  | [], success, sys => (success, sys)
  | role_name :: rest, success, sys =>
    let (st, _r, sys) := httpGetRole sys role_name
    if st == 200 then create_roles_go rest success sys
    else
      let (st2, sys) := httpPostRole sys role_name
        (role_name ++ " role for Spooliq multi-tenant system")
      if raiseOk st2 then create_roles_go rest success sys
      else create_roles_go rest false sys

/-- `create_roles`. -/
def create_roles (sys : Sys) : Bool × Sys :=
  create_roles_go rolesList true sys

/-- The creation fall-through block of `create_client_scope`: POST the
scope, then recover its id by re-listing all scopes; falling off the end
of the Python function returns `None`. -/
def create_client_scope_create (sys : Sys) : Option String × Sys :=
  let (st, sys) := httpPostScope sys "organization"
  if raiseOk st then
    let (st2, scopes, sys) := httpGetScopes sys
    if raiseOk st2 then
      match scopes.find? (fun s => s.name == "organization") with
      | some sc => (some sc.id, sys)
      | none => (none, sys)
    else (none, sys)
  else (none, sys)

/-- `create_client_scope`: scan the scope collection for the name
`"organization"`; lookup errors are swallowed (`except: pass`) and fall
through to creation. -/
def create_client_scope (sys : Sys) : Option String × Sys :=
  let (st, scopes, sys) := httpGetScopes sys
  if raiseOk st then
    match scopes.find? (fun s => s.name == "organization") with
    | some sc => (some sc.id, sys)
    | none => create_client_scope_create sys
  else create_client_scope_create sys

/-- `create_protocol_mapper`: scan the scope's mappers for
`"organization-id-mapper"` (lookup errors swallowed), else POST; a 409
on creation is explicitly treated as success (`e.response.status_code ==
409` → `return True`). -/
def create_protocol_mapper (scope_id : String) (sys : Sys) : Bool × Sys :=
  let (st, mappers, sys) := httpGetMappers sys scope_id
  if raiseOk st && mappers.any (fun m => m.name == "organization-id-mapper") then
    (true, sys)
  else
    let (st2, sys) := httpPostMapper sys scope_id "organization-id-mapper"
    if raiseOk st2 then (true, sys)
    else if st2 == 409 then (true, sys)
    else (false, sys)

/-- `assign_scope_to_client`: PUT the default-client-scope link;
`raise_for_status` makes every 4xx/5xx (including 404) a failure. -/
def assign_scope_to_client (client_uuid scope_id : String) (sys : Sys) : Bool × Sys :=
  let (st, sys) := httpPutDefaultScope sys client_uuid scope_id
  if raiseOk st then (true, sys) else (false, sys)

/-- `find_user_by_email`: exact-match lookup; an empty result or a
lookup error both yield `None` (no creation fallback exists). -/
def find_user_by_email (email : String) (sys : Sys) : Option String × Sys :=
  let (st, users, sys) := httpGetUsersByEmail sys email
  if raiseOk st then
    match users with
    | u :: _ => (some u.id, sys)
    | [] => (none, sys)
  else (none, sys)

/-- `set_user_attribute`: GET the full user representation, overwrite
only `attributes["organization_id"]`, PUT the result back. -/
def set_user_attribute (organization_uuid user_id : String) (sys : Sys) : Bool × Sys :=
  let (st, u, sys) := httpGetUser sys user_id
  if raiseOk st then
    match u with
    | some user_data =>
      let body := { user_data with
        attributes := setA user_data.attributes "organization_id" [organization_uuid] }
      let (st2, sys) := httpPutUser sys user_id body
      if raiseOk st2 then (true, sys) else (false, sys)
    | none => (false, sys)
  else (false, sys)

/-- The role-object collection loop of `assign_roles_to_user`: for each
requested name, the first realm role with that name contributes an
`{id, name}` reference; missing names are skipped. -/
def buildRoleObjects : List String → List KcRole → List (String × String)
  | [], _ => []
  | n :: ns, all_roles =>
    match all_roles.find? (fun r => r.name == n) with
    | some r => (r.id, r.name) :: buildRoleObjects ns all_roles
    | none => buildRoleObjects ns all_roles

/-- `assign_roles_to_user`: list all realm roles, build the references
for `rolesList`, fail if any is missing, then POST the batch to the
user's realm role-mappings endpoint. -/
def assign_roles_to_user (user_id : String) (sys : Sys) : Bool × Sys :=
  let (st, all_roles, sys) := httpGetRoles sys
  if raiseOk st then
    let role_objects := buildRoleObjects rolesList all_roles
    if role_objects.length == rolesList.length then
      let (st2, sys) := httpPostRoleMappings sys user_id role_objects
      if raiseOk st2 then (true, sys) else (false, sys)
    else (false, sys)
  else (false, sys)

/-- `run`: the fixed step order, each `False`/`None` result returning
`False` immediately. -/
def run (adminEmail organization_uuid : String) (sys : Sys) : Bool × Sys :=
  let (authOk, sys) := get_admin_token sys
  if authOk then
    match create_client sys with
    | (some client_uuid, sys) =>
      let (rolesOk, sys) := create_roles sys
      if rolesOk then
        match create_client_scope sys with
        | (some scope_id, sys) =>
          let (mapperOk, sys) := create_protocol_mapper scope_id sys
          if mapperOk then
            let (assignOk, sys) := assign_scope_to_client client_uuid scope_id sys
            if assignOk then
              match find_user_by_email adminEmail sys with
              | (some user_id, sys) =>
                let (attrOk, sys) := set_user_attribute organization_uuid user_id sys
                if attrOk then
                  let (rolesAssigned, sys) := assign_roles_to_user user_id sys
                  if rolesAssigned then (true, sys) else (false, sys)
                else (false, sys)
              | (none, sys) => (false, sys)
            else (false, sys)
          else (false, sys)
        | (none, sys) => (false, sys)
      else (false, sys)
    | (none, sys) => (false, sys)
  else (false, sys)

/-- `main`: `sys.exit(0 if success else 1)`. -/
def mainExit (adminEmail organization_uuid : String) (sys : Sys) : Nat :=
  if (run adminEmail organization_uuid sys).1 then 0 else 1

end KeycloakSetup

/-! ## `scripts/setup_keycloak_groups.py` — straight-line module

Requests at module level have no surrounding `try`; the bodies of error
responses are modelled as empty collections (see the header note). -/

/-- The email hardcoded in the groups script's configuration block. -/
def GROUPS_ADMIN_EMAIL : String := "dev@rodolfodebonis.com.br"

/-- Step 2: ensure the `spooliq` client, aborting (`sys.exit(1)`) when
creation does not answer 201; an empty re-lookup after creation would be
an uncaught `IndexError`, modelled as the aborting `none`. -/
def groupsEnsureClient (sys : Sys) : Option String × Sys :=
  let (_st, existing_clients, sys) := httpGetClients sys "spooliq"
  match existing_clients with
  | c :: _ => (some c.id, sys)
  | [] =>
    let (st2, sys) := httpPostClient sys "spooliq"
    if st2 == 201 then
      let (_st3, clients2, sys) := httpGetClients sys "spooliq"
      match clients2 with
      | c :: _ => (some c.id, sys)
      | [] => (none, sys)
    else (none, sys)

/-- `roles = ["PlatformAdmin", "OrgAdmin", "Owner", "User"]` (groups and
fix-roles scripts). -/
def groupsRolesList : List String := ["PlatformAdmin", "OrgAdmin", "Owner", "User"]

/-- Step 3: per role, GET by name; on any non-200 create it; a non-201
creation response only prints a warning and the loop continues.  The
returned flag records whether every role ended in the existing/created
outcome (the printed ✅ vs ⚠️). -/
def groupsCreateRoles : List String → Bool → Sys → Bool × Sys
  | [], ok, sys => (ok, sys)
  | role :: rest, ok, sys =>
    let (st, _r, sys) := httpGetRole sys role
    if st == 200 then groupsCreateRoles rest ok sys
    else
      let (st2, sys) := httpPostRole sys role (role ++ " role for Spooliq SaaS platform")
      if st2 == 201 then groupsCreateRoles rest ok sys
      else groupsCreateRoles rest false sys

/-- Step 4: ensure the `organization` client scope; non-201 creation
aborts (`sys.exit(1)`); an empty re-listing after creation would be an
uncaught `IndexError`, modelled as the aborting `none`. -/
def groupsEnsureScope (sys : Sys) : Option String × Sys :=
  let (_st, scopes, sys) := httpGetScopes sys
  match scopes.filter (fun s => s.name == "organization") with
  | sc :: _ => (some sc.id, sys)
  | [] =>
    let (st2, sys) := httpPostScope sys "organization"
    if st2 == 201 then
      let (_st3, scopes2, sys) := httpGetScopes sys
      match scopes2.filter (fun s => s.name == "organization") with
      | sc :: _ => (some sc.id, sys)
      | [] => (none, sys)
    else (none, sys)

/-- Step 5: if no installed mapper name contains `"organization"`
(lower-cased), POST the group-membership mapper (201/409/other only
drive prints); then POST the custom `organization-id-from-group` mapper
unconditionally (201 and 409 print success, anything else is silent). -/
def groupsEnsureMappers (scope_id : String) (sys : Sys) : Sys :=
  let (_st, existing_mappers, sys) := httpGetMappers sys scope_id
  let sys :=
    if existing_mappers.any (fun m => strContains m.name.toLower "organization") then sys
    else (httpPostMapper sys scope_id "organization-group-mapper").2
  (httpPostMapper sys scope_id "organization-id-from-group").2

/-- Step 6: PUT the default-scope link; `status_code in [204, 404]`
prints success, any other status prints a warning — either way the
module continues.  The returned flag is the printed success indicator. -/
def groupsAssignScope (client_id scope_id : String) (sys : Sys) : Bool × Sys :=
  let (st, sys) := httpPutDefaultScope sys client_id scope_id
  (st == 204 || st == 404, sys)

/-- Step 7: ensure the `spooliq-platform` group, whose attributes carry
the generated organization UUID; non-201 creation aborts
(`sys.exit(1)`); on 201 the id is parsed from the `Location` header. -/
def groupsEnsureGroup (orgUuid : String) (sys : Sys) : Option String × Sys :=
  let (_st, existing_groups, sys) := httpGetGroups sys "spooliq-platform"
  match existing_groups with
  | g :: _ => (some g.id, sys)
  | [] =>
    let (st2, gid, sys) := httpPostGroup sys "spooliq-platform"
      [("organization_id", [orgUuid]), ("company_name", ["Spooliq Platform"])]
    if st2 == 201 then (gid, sys)
    else (none, sys)

/-- Step 8: exact-match user lookup; an empty result aborts
(`sys.exit(1)`). -/
def groupsFindUser (email : String) (sys : Sys) : Option String × Sys :=
  let (_st, users, sys) := httpGetUsersByEmail sys email
  match users with
  | u :: _ => (some u.id, sys)
  | [] => (none, sys)

/-- Step 9a: PUT the group membership; the status only drives a print. -/
def groupsAddUserToGroup (user_id group_id : String) (sys : Sys) : Sys :=
  (httpPutUserGroup sys user_id group_id).2

/-- Step 9b: read the user, overwrite only
`attributes["organization_id"]`, write the representation back (status
204 only drives a print).  A decode failure of the GET body would crash
the source; modelled as skipping the write. -/
def groupsSetUserAttr (orgUuid user_id : String) (sys : Sys) : Sys :=
  let (_st, u, sys) := httpGetUser sys user_id
  match u with
  | some user_data =>
    let body := { user_data with
      attributes := setA user_data.attributes "organization_id" [orgUuid] }
    (httpPutUser sys user_id body).2
  | none => sys

/-- The availability loop shared by step 10 of the groups script and
step 4 of the fix-roles script: GET each role by name and keep the
representations answered with 200. -/
def collectAvailableRoles : List String → List (String × String) → Sys →
    List (String × String) × Sys
  | [], acc, sys => (acc, sys)
  | role :: rest, acc, sys =>
    let (st, r, sys) := httpGetRole sys role
    match r with
    | some rr =>
      if st == 200 then collectAvailableRoles rest (acc ++ [(rr.id, rr.name)]) sys
      else collectAvailableRoles rest acc sys
    | none => collectAvailableRoles rest acc sys

/-- Step 10: collect the available roles and POST the batch; 204 or 409
prints success, anything else a warning — the module continues. -/
def groupsAssignRoles (user_id : String) (sys : Sys) : Bool × Sys :=
  let (avail, sys) := collectAvailableRoles groupsRolesList [] sys
  let (st, sys) := httpPostRoleMappings sys user_id avail
  (st == 204 || st == 409, sys)

/-- Observable outcome of a groups-script run: the process exit code and
the printed ✅/⚠️ indicators of the non-aborting steps. -/
structure GroupsReport where
  exitCode : Nat
  rolesOk : Bool
  scopeAssignOk : Bool
  assignRolesOk : Bool
deriving DecidableEq, Repr

/-- The whole groups script (steps 1–10 in module order).  Only
authentication, client creation, scope creation, group creation and the
user lookup abort; every other failure is a printed warning. -/
def groupsRun (orgUuid : String) (sys : Sys) : GroupsReport × Sys :=
  let (st, sys) := httpPostToken sys
  if raiseOk st then
    match groupsEnsureClient sys with
    | (some client_id, sys) =>
      let (rolesOk, sys) := groupsCreateRoles groupsRolesList true sys
      match groupsEnsureScope sys with
      | (some scope_id, sys) =>
        let sys := groupsEnsureMappers scope_id sys
        let (scopeAssignOk, sys) := groupsAssignScope client_id scope_id sys
        match groupsEnsureGroup orgUuid sys with
        | (some group_id, sys) =>
          match groupsFindUser GROUPS_ADMIN_EMAIL sys with
          | (some user_id, sys) =>
            let sys := groupsAddUserToGroup user_id group_id sys
            let sys := groupsSetUserAttr orgUuid user_id sys
            let (assignRolesOk, sys) := groupsAssignRoles user_id sys
            (⟨0, rolesOk, scopeAssignOk, assignRolesOk⟩, sys)
          | (none, sys) => (⟨1, rolesOk, scopeAssignOk, true⟩, sys)
        | (none, sys) => (⟨1, rolesOk, scopeAssignOk, true⟩, sys)
      | (none, sys) => (⟨1, rolesOk, true, true⟩, sys)
    | (none, sys) => (⟨1, true, true, true⟩, sys)
  else (⟨1, true, true, true⟩, sys)

/-! ## `scripts/fix_keycloak_roles.py` — straight-line module -/

/-- `old_roles = ["user", "adm", "User"]`. -/
def fixOldRoles : List String := ["user", "adm", "User"]

/-- Step 2: DELETE each old realm role; every status outcome only
prints. -/
def fixDeleteOldRoles : List String → Sys → Sys
  | [], sys => sys
  | role :: rest, sys => fixDeleteOldRoles rest (httpDeleteRole sys role).2

/-- Step 3: ensure each of the four correct roles; creation failures
only print warnings. -/
def fixCreateRoles : List String → Sys → Sys
  | [], sys => sys
  | role :: rest, sys =>
    let (st, _r, sys) := httpGetRole sys role
    if st == 200 then fixCreateRoles rest sys
    else fixCreateRoles rest
      (httpPostRole sys role (role ++ " role for Spooliq SaaS platform")).2

/-- Step 4 of the fix-roles script (`Update User Roles`): find the user
by email (missing user → `sys.exit(1)`), read the current realm-role
mappings, delete them all when the list is non-empty, then collect the
available correct roles and assign the batch (both trailing statuses
only drive prints). -/
def fixUpdateUserRoles (adminEmail : String) (sys : Sys) : Nat × Sys :=
  let (_stU, users, sys) := httpGetUsersByEmail sys adminEmail
  match users with
  | [] => (1, sys)
  | u :: _ =>
    let user_id := u.id
    let (_stM, current_roles, sys) := httpGetRoleMappings sys user_id
    let sys :=
      if current_roles.isEmpty then sys
      else (httpDeleteRoleMappings sys user_id
        (current_roles.map (fun r => (r.id, r.name)))).2
    let (available_roles, sys) := collectAvailableRoles groupsRolesList [] sys
    let sys :=
      if available_roles.isEmpty then sys
      else (httpPostRoleMappings sys user_id available_roles).2
    (0, sys)

/-- The whole fix-roles script: authenticate, delete the old realm
roles, ensure the correct ones, then update the target user's realm-role
mappings (step 4).  Exit code 1 only on authentication failure or a
missing user. -/
def fixRolesRun (adminEmail : String) (sys : Sys) : Nat × Sys :=
  let (st, sys) := httpPostToken sys
  if raiseOk st then
    let sys := fixDeleteOldRoles fixOldRoles sys
    let sys := fixCreateRoles groupsRolesList sys
    fixUpdateUserRoles adminEmail sys
  else (1, sys)

/-! ## Auxiliary definitions used by the statements -/

/-- A fresh system over a given remote state: no pending faults, empty
request trace. -/
def initSys (s : KcState) : Sys := ⟨s, [], []⟩

/-- Is the request a role-mapping assignment (`POST
.../role-mappings/realm`)? -/
def isPostRoleMappings : Req → Bool
  | Req.postRoleMappings _ _ => true
  | _ => false

/-- Is the request a user update (`PUT .../users/{id}`)? -/
def isPutUser : Req → Bool
  | Req.putUser _ _ => true
  | _ => false

/-- Is the request a resource creation (POST of a client, role, scope,
mapper or group)? -/
def isCreation : Req → Bool
  | Req.postClient _ => true
  | Req.postRole _ => true
  | Req.postScope _ => true
  | Req.postMapper _ _ => true
  | Req.postGroup _ _ => true
  | _ => false

/-- The request kinds the multitenant run can issue before its user
lookup (steps 1–6: token, client, roles, scope, mappers, default-scope
assignment). -/
def isPreUserReq : Req → Bool
  | Req.postToken => true
  | Req.getClients _ => true
  | Req.postClient _ => true
  | Req.getRole _ => true
  | Req.postRole _ => true
  | Req.getScopes => true
  | Req.postScope _ => true
  | Req.getMappers _ => true
  | Req.postMapper _ _ => true
  | Req.putDefaultScope _ _ => true
  | _ => false

/-- Does the request assign the given role reference to some user (a
role-mapping POST whose payload contains the `(id, name)` pair)? -/
def payloadHasRole (rid rname : String) : Req → Bool
  | Req.postRoleMappings _ rs => rs.contains (rid, rname)
  | _ => false

/-- The organization identifiers a request carries: the
`organization_id` attribute of a user-update body or of a group-creation
payload. -/
def orgIdsOfReq : Req → List String
  | Req.putUser _ body => (getA body.attributes "organization_id").getD []
  | Req.postGroup _ attrs => (getA attrs "organization_id").getD []
  | _ => []

/-- Every organization identifier in the trace is the given one. -/
def OrgOnly (u : String) (tr : List Req) : Prop :=
  ∀ r ∈ tr, ∀ v ∈ orgIdsOfReq r, v = u

/-- The ids of the realm roles bearing the given names (first match per
name), as the scripts' availability loops retrieve them. -/
def realmRoleIdsFor (s : KcState) (names : List String) : List String :=
  names.filterMap (fun n => (s.roles.find? (fun r => r.name == n)).map (fun r => r.id))

/-- Well-formedness of the mapping table: every realm role mapping
references an existing realm role (Keycloak maintains this by
cascading role deletion). -/
def MappingsWF (s : KcState) : Prop :=
  ∀ p ∈ s.roleMappings, ∃ r ∈ s.roles, r.id = p.2

/-- Well-formedness of the user table: server-assigned user ids are
unique. -/
def UsersWF (s : KcState) : Prop :=
  (s.users.map (fun u => u.id)).Nodup

/-- Overwrite the `organization_id` attribute of the first user carrying
the given email (the net remote effect of the user-attribute step). -/
def stateAttrSet (email u : String) (s : KcState) : KcState :=
  match (s.users.filter (fun x => x.email == email)).head? with
  | some u0 =>
    { s with users := s.users.map (fun x =>
        if x.id == u0.id then
          { u0 with attributes := setA u0.attributes "organization_id" [u] }
        else x) }
  | none => s

/-- The remote state is fully provisioned for the multitenant workflow:
the client, the three roles, the scope with its mapper, the
default-scope link, the admin user and its role mappings all exist,
keyed exactly as the script's lookups retrieve them. -/
def Provisioned (email : String) (s : KcState) : Prop :=
  ∃ c u0 sc,
    (s.clients.filter (fun x => x.clientId == CLIENT_ID)).head? = some c ∧
    (∀ n ∈ KeycloakSetup.rolesList, (s.roles.find? (fun r => r.name == n)).isSome) ∧
    s.scopes.find? (fun x => x.name == "organization") = some sc ∧
    (s.mappers.filter (fun m => m.scopeId == sc.id)).any
      (fun m => m.name == "organization-id-mapper") ∧
    (s.defaultScopes.contains (c.id, sc.id)) = true ∧
    (s.users.filter (fun x => x.email == email)).head? = some u0 ∧
    ∀ rr ∈ KeycloakSetup.buildRoleObjects KeycloakSetup.rolesList s.roles,
      (u0.id, rr.1) ∈ s.roleMappings

/-! ## Concrete states for witnesses and counterexamples -/

/-- A demonstration admin user. -/
def demoUser : KcUser :=
  ⟨"u-1", "admin@example.com", [("locale", ["en"])], [("firstName", "Ada")]⟩

/-- A demonstration admin user carrying the groups script's hardcoded
email. -/
def demoGroupsUser : KcUser := ⟨"u-1", GROUPS_ADMIN_EMAIL, [], []⟩

/-- An empty realm containing only the demonstration admin user. -/
def demoState : KcState := ⟨[], [], [], [], [], [demoUser], [], [], [], 0⟩

/-- An empty realm containing only the groups script's admin user. -/
def demoGroupsState : KcState := ⟨[], [], [], [], [], [demoGroupsUser], [], [], [], 0⟩

/-- A pre-existing `User` realm role. -/
def demoUserRole : KcRole := ⟨"r-u", "User", "demo"⟩

/-- A realm where the `User` role already exists, together with the
demonstration admin user. -/
def demoStateWithUserRole : KcState :=
  ⟨[], [demoUserRole], [], [], [], [demoUser], [], [], [], 0⟩

/-- Same, for the groups script's admin user. -/
def demoGroupsStateWithUserRole : KcState :=
  ⟨[], [demoUserRole], [], [], [], [demoGroupsUser], [], [], [], 0⟩

/-- A stale realm for the fix-roles script: an old `adm` role, an
unrelated role, and the admin user still mapped to both. -/
def demoFixState : KcState :=
  ⟨[], [⟨"r-old", "adm", "demo"⟩, ⟨"r-x", "SomethingElse", "demo"⟩, demoUserRole],
    [], [], [], [demoUser], [], [("u-1", "r-old"), ("u-1", "r-x")], [], 0⟩

/-- A fully provisioned realm (the final state of a first multitenant
run over `demoState` with organization uuid `"org-A"`). -/
def demoProvisioned : KcState :=
  (KeycloakSetup.run "admin@example.com" "org-A" (initSys demoState)).2.state

/-- An empty realm with no users at all (the target user is absent). -/
def demoNoUserState : KcState := ⟨[], [], [], [], [], [], [], [], [], 0⟩

/-- A demonstration tenant group as the groups script creates it. -/
def demoGroup : KcGroup :=
  ⟨"g-1", "spooliq-platform",
    [("organization_id", ["org-A"]), ("company_name", ["Spooliq Platform"])]⟩

/-- The provisioned demo realm together with the tenant group. -/
def demoFullState : KcState := { demoProvisioned with groups := [demoGroup] }

/-! # Theorems -/

/-! ## Attribute-map lemmas -/

theorem find?_map_set_same (attrs : List (String × List String)) (k : String)
    (v : List String) (h : attrs.any (fun p => p.1 == k) = true) :
    (attrs.map (fun p => if p.1 == k then (k, v) else p)).find? (fun p => p.1 == k) =
      some (k, v) := by
  induction attrs with
  | nil => simp at h
  | cons e ps ih =>
    by_cases hp : (e.1 == k) = true
    · simp only [List.map_cons, if_pos hp]
      exact List.find?_cons_of_pos (p := fun q : String × List String => q.1 == k) _ (by simp)
    · have h' : ps.any (fun p => p.1 == k) = true := by
        simp only [List.any_cons, Bool.or_eq_true] at h
        exact h.resolve_left hp
      simp only [List.map_cons, if_neg hp]
      rw [List.find?_cons_of_neg (p := fun q : String × List String => q.1 == k) _ hp]
      exact ih h'

theorem find?_map_set_other (attrs : List (String × List String)) (k k' : String)
    (v : List String) (hne : (k == k') = false) :
    (attrs.map (fun p => if p.1 == k then (k, v) else p)).find? (fun p => p.1 == k') =
      attrs.find? (fun p => p.1 == k') := by
  induction attrs with
  | nil => simp
  | cons e ps ih =>
    by_cases hp : (e.1 == k) = true
    · have hp1 : e.1 = k := by simpa using hp
      have hpk : ¬ ((e.1 == k') = true) := by rw [hp1]; simp [hne]
      simp only [List.map_cons, if_pos hp]
      rw [List.find?_cons_of_neg (p := fun q : String × List String => q.1 == k') _
          (show ¬ (((k, v) : String × List String).1 == k') = true by simp [hne]),
        List.find?_cons_of_neg (p := fun q : String × List String => q.1 == k') _ hpk]
      exact ih
    · simp only [List.map_cons, if_neg hp]
      by_cases hpk : (e.1 == k') = true
      · rw [List.find?_cons_of_pos (p := fun q : String × List String => q.1 == k') _ hpk,
          List.find?_cons_of_pos (p := fun q : String × List String => q.1 == k') _ hpk]
      · rw [List.find?_cons_of_neg (p := fun q : String × List String => q.1 == k') _ hpk,
          List.find?_cons_of_neg (p := fun q : String × List String => q.1 == k') _ hpk]
        exact ih

theorem find?_eq_none_of_not_any (attrs : List (String × List String)) (k : String)
    (h : attrs.any (fun p => p.1 == k) = false) :
    attrs.find? (fun p => p.1 == k) = none := by
  induction attrs with
  | nil => rfl
  | cons e ps ih =>
    simp only [List.any_cons, Bool.or_eq_false_iff] at h
    rw [List.find?_cons_of_neg (p := fun q : String × List String => q.1 == k) _
      (fun hc => by simp [h.1] at hc)]
    exact ih h.2

theorem getA_setA_same (attrs : List (String × List String)) (k : String)
    (v : List String) :
    getA (setA attrs k v) k = some v := by
  unfold getA setA
  by_cases h : attrs.any (fun p => p.1 == k) = true
  · rw [if_pos h, find?_map_set_same attrs k v h]
    rfl
  · have hfalse : attrs.any (fun p => p.1 == k) = false := by
      cases hb : attrs.any (fun p => p.1 == k)
      · rfl
      · exact absurd hb h
    rw [if_neg h, List.find?_append, find?_eq_none_of_not_any attrs k hfalse]
    simp

theorem getA_setA_other (attrs : List (String × List String)) (k k' : String)
    (v : List String) (hne : k' ≠ k) :
    getA (setA attrs k v) k' = getA attrs k' := by
  have hb : (k == k') = false := by
    simp only [beq_eq_false_iff_ne, ne_eq]
    exact fun h => hne h.symm
  unfold getA setA
  by_cases h : attrs.any (fun p => p.1 == k) = true
  · rw [if_pos h, find?_map_set_other attrs k k' v hb]
  · rw [if_neg h, List.find?_append]
    cases hfind : attrs.find? (fun p => p.1 == k') with
    | some x => simp [hfind]
    | none => simp [hfind, List.find?, hb]

theorem any_key_of_mem_set (attrs : List (String × List String)) (k : String)
    (v : List String) :
    (setA attrs k v).any (fun p => p.1 == k) = true := by
  unfold setA
  by_cases h : attrs.any (fun p => p.1 == k) = true
  · rw [if_pos h]
    rw [List.any_eq_true] at h ⊢
    obtain ⟨x, hx, hbeq⟩ := h
    exact ⟨(k, v), List.mem_map.2 ⟨x, hx, by simp [hbeq]⟩, by simp⟩
  · rw [if_neg h]
    rw [List.any_eq_true]
    exact ⟨(k, v), by simp, by simp⟩

theorem map_set_id_of_not_any (attrs : List (String × List String)) (k : String)
    (v : List String) (h : attrs.any (fun p => p.1 == k) = false) :
    attrs.map (fun p => if p.1 == k then (k, v) else p) = attrs := by
  induction attrs with
  | nil => rfl
  | cons e ps ih =>
    simp only [List.any_cons, Bool.or_eq_false_iff] at h
    have hne : ¬ ((e.1 == k) = true) := by rw [h.1]; simp
    simp only [List.map_cons, if_neg hne, ih h.2]

theorem setA_setA (attrs : List (String × List String)) (k : String)
    (v w : List String) :
    setA (setA attrs k v) k w = setA attrs k w := by
  by_cases h : attrs.any (fun p => p.1 == k) = true
  · unfold setA
    rw [if_pos h, if_pos h]
    have hany : (attrs.map (fun p => if p.1 == k then (k, v) else p)).any
        (fun p => p.1 == k) = true := by
      rw [List.any_eq_true] at h ⊢
      obtain ⟨x, hx, hbeq⟩ := h
      exact ⟨(k, v), List.mem_map.2 ⟨x, hx, by simp [hbeq]⟩, by simp⟩
    rw [if_pos hany, List.map_map]
    congr 1
    funext p
    by_cases hp : (p.1 == k) = true
    · simp [Function.comp, hp]
    · simp [Function.comp, hp]
  · unfold setA
    rw [if_neg h, if_neg h]
    have hany : (attrs ++ [(k, v)]).any (fun p => p.1 == k) = true := by
      rw [List.any_eq_true]
      exact ⟨(k, v), by simp, by simp⟩
    have hfalse : attrs.any (fun p => p.1 == k) = false := by
      cases hb : attrs.any (fun p => p.1 == k)
      · rfl
      · exact absurd hb h
    rw [if_pos hany, List.map_append]
    congr 1
    · exact map_set_id_of_not_any attrs k w hfalse
    · simp

/-! ## Generic list lemmas -/

theorem map_replace_self {α : Type} (l : List α) (p : α → Bool) (b : α)
    (h : ∀ x ∈ l, p x = true → x = b) :
    l.map (fun x => if p x then b else x) = l := by
  induction l with
  | nil => rfl
  | cons a as ih =>
    simp only [List.map_cons]
    have h1 : (if p a then b else a) = a := by
      by_cases hp : p a = true
      · rw [if_pos hp]; exact (h a (List.mem_cons_self a as) hp).symm
      · rw [if_neg hp]
    rw [h1, ih (fun x hx => h x (List.mem_cons_of_mem a hx))]

theorem foldl_addPairs_id (uid : String) (rs : List (String × String))
    (acc : List (String × String))
    (h : ∀ rr ∈ rs, acc.contains (uid, rr.1) = true) :
    rs.foldl
      (fun acc rr => if acc.contains (uid, rr.1) then acc else acc ++ [(uid, rr.1)])
      acc = acc := by
  induction rs with
  | nil => rfl
  | cons r rest ih =>
    rw [List.foldl_cons, if_pos (h r (List.mem_cons_self r rest))]
    exact ih (fun rr hrr => h rr (List.mem_cons_of_mem r hrr))

theorem any_filter_eq_any_and {α : Type} (l : List α) (p q : α → Bool) :
    (l.filter p).any q = l.any (fun x => p x && q x) := by
  induction l with
  | nil => rfl
  | cons a as ih =>
    by_cases hp : p a = true
    · rw [List.filter_cons_of_pos hp, List.any_cons, List.any_cons, hp, ih]
      simp
    · rw [List.filter_cons_of_neg hp, List.any_cons, ih]
      have : p a = false := by
        cases hb : p a
        · rfl
        · exact absurd hb hp
      rw [this]
      simp

theorem find?_id_of_nodup (users : List KcUser) (u0 : KcUser)
    (hnd : (users.map (fun u => u.id)).Nodup) (hmem : u0 ∈ users) :
    users.find? (fun x => x.id == u0.id) = some u0 := by
  induction users with
  | nil => cases hmem
  | cons u us ih =>
    rcases List.mem_cons.1 hmem with h | h
    · subst h
      exact List.find?_cons_of_pos (p := fun x : KcUser => x.id == u0.id) _ (by simp)
    · have hne : ¬ ((u.id == u0.id) = true) := by
        simp only [List.map_cons, List.nodup_cons] at hnd
        intro hc
        have : u.id = u0.id := by simpa using hc
        exact hnd.1 (this ▸ List.mem_map_of_mem (fun x => x.id) h)
      rw [List.find?_cons_of_neg (p := fun x : KcUser => x.id == u0.id) _ hne]
      have hnd' : (us.map (fun u => u.id)).Nodup := by
        simp only [List.map_cons, List.nodup_cons] at hnd
        exact hnd.2
      exact ih hnd' h

theorem foldl_addPairs_supset (uid : String) (rs : List (String × String))
    (acc : List (String × String)) (x : String × String) (hx : x ∈ acc) :
    x ∈ rs.foldl
      (fun acc rr => if acc.contains (uid, rr.1) then acc else acc ++ [(uid, rr.1)])
      acc := by
  induction rs generalizing acc with
  | nil => exact hx
  | cons r rest ih =>
    rw [List.foldl_cons]
    by_cases hc : acc.contains (uid, r.1) = true
    · rw [if_pos hc]; exact ih acc hx
    · rw [if_neg hc]; exact ih _ (List.mem_append_left _ hx)

theorem mem_foldl_addPairs (uid : String) (rs : List (String × String))
    (acc : List (String × String)) :
    ∀ rr ∈ rs, (uid, rr.1) ∈ rs.foldl
      (fun acc rr => if acc.contains (uid, rr.1) then acc else acc ++ [(uid, rr.1)])
      acc := by
  induction rs generalizing acc with
  | nil => intro rr h; cases h
  | cons r rest ih =>
    intro rr hrr
    rw [List.foldl_cons]
    rcases List.mem_cons.1 hrr with h | h
    · subst h
      by_cases hc : acc.contains (uid, rr.1) = true
      · rw [if_pos hc]
        have hmem : (uid, rr.1) ∈ acc := by simpa using hc
        exact foldl_addPairs_supset _ _ _ _ hmem
      · rw [if_neg hc]
        exact foldl_addPairs_supset _ _ _ _ (by simp)
    · by_cases hc : acc.contains (uid, r.1) = true
      · rw [if_pos hc]; exact ih acc rr h
      · rw [if_neg hc]; exact ih _ rr h

/-! ## Found-case lemmas: a successful lookup issues no creation -/

theorem create_client_found (sys : Sys) (c : KcClient) (cs : List KcClient)
    (hf : sys.faults = [])
    (hc : sys.state.clients.filter (fun x => x.clientId == CLIENT_ID) = c :: cs) :
    KeycloakSetup.create_client sys =
      (some c.id, { sys with trace := sys.trace ++ [Req.getClients CLIENT_ID] }) := by
  unfold KeycloakSetup.create_client httpGetClients hit
  simp [hf, hc, raiseOk]

theorem create_roles_found (sys : Sys) (r1 r2 r3 : KcRole)
    (hf : sys.faults = [])
    (h1 : sys.state.roles.find? (fun r => r.name == "PlatformAdmin") = some r1)
    (h2 : sys.state.roles.find? (fun r => r.name == "OrgAdmin") = some r2)
    (h3 : sys.state.roles.find? (fun r => r.name == "User") = some r3) :
    KeycloakSetup.create_roles sys =
      (true, { sys with trace := sys.trace ++
        [Req.getRole "PlatformAdmin", Req.getRole "OrgAdmin", Req.getRole "User"] }) := by
  simp [KeycloakSetup.create_roles, KeycloakSetup.rolesList,
    KeycloakSetup.create_roles_go, httpGetRole, hit, hf, h1, h2, h3]

theorem create_client_scope_found (sys : Sys) (sc : KcScope)
    (hf : sys.faults = [])
    (hs : sys.state.scopes.find? (fun x => x.name == "organization") = some sc) :
    KeycloakSetup.create_client_scope sys =
      (some sc.id, { sys with trace := sys.trace ++ [Req.getScopes] }) := by
  unfold KeycloakSetup.create_client_scope httpGetScopes hit
  simp [hf, hs, raiseOk]

theorem create_protocol_mapper_found (sys : Sys) (sid : String)
    (hf : sys.faults = [])
    (hscope : sys.state.scopes.any (fun s => s.id == sid) = true)
    (hm : (sys.state.mappers.filter (fun m => m.scopeId == sid)).any
      (fun m => m.name == "organization-id-mapper") = true) :
    KeycloakSetup.create_protocol_mapper sid sys =
      (true, { sys with trace := sys.trace ++ [Req.getMappers sid] }) := by
  unfold KeycloakSetup.create_protocol_mapper httpGetMappers hit
  simp [hf, hscope, hm, raiseOk]

theorem groupsEnsureGroup_found (sys : Sys) (orgUuid : String) (g : KcGroup)
    (gs : List KcGroup)
    (hg : sys.state.groups.filter (fun x => strContains x.name "spooliq-platform") =
      g :: gs)
    (hf : sys.faults = []) :
    groupsEnsureGroup orgUuid sys =
      (some g.id, { sys with trace := sys.trace ++ [Req.getGroups "spooliq-platform"] }) := by
  unfold groupsEnsureGroup httpGetGroups hit
  simp [hf, hg]

/-! ## No-fault execution lemmas, one per step of the multitenant run -/

theorem get_admin_token_noFault (sys : Sys) (hf : sys.faults = []) :
    KeycloakSetup.get_admin_token sys =
      (true, { sys with trace := sys.trace ++ [Req.postToken] }) := by
  unfold KeycloakSetup.get_admin_token httpPostToken hit
  simp [hf, raiseOk]

theorem create_client_noFault (sys : Sys) (hf : sys.faults = []) :
    (∃ c cs, sys.state.clients.filter (fun x => x.clientId == CLIENT_ID) = c :: cs ∧
      KeycloakSetup.create_client sys =
        (some c.id, { sys with trace := sys.trace ++ [Req.getClients CLIENT_ID] })) ∨
    (sys.state.clients.filter (fun x => x.clientId == CLIENT_ID) = [] ∧
      KeycloakSetup.create_client sys =
        (some (freshId sys.state),
         { sys with
           state := { sys.state with
             clients := sys.state.clients ++ [⟨freshId sys.state, CLIENT_ID⟩],
             nextId := sys.state.nextId + 1 },
           trace := sys.trace ++ [Req.getClients CLIENT_ID, Req.postClient CLIENT_ID,
             Req.getClients CLIENT_ID] })) := by
  cases hc : sys.state.clients.filter (fun x => x.clientId == CLIENT_ID) with
  | cons c cs => exact Or.inl ⟨c, cs, rfl, create_client_found sys c cs hf hc⟩
  | nil =>
    refine Or.inr ⟨rfl, ?_⟩
    have hany : sys.state.clients.any (fun c => c.clientId == CLIENT_ID) = false := by
      rw [List.any_eq_false]
      intro x hx hbx
      have : x ∈ sys.state.clients.filter (fun x => x.clientId == CLIENT_ID) :=
        List.mem_filter.2 ⟨hx, hbx⟩
      rw [hc] at this
      cases this
    unfold KeycloakSetup.create_client KeycloakSetup.create_client_create
      httpGetClients httpPostClient hit
    simp [hf, hc, hany, raiseOk, List.filter_append]

theorem create_roles_go_noFault (names : List String) (sys : Sys) (hf : sys.faults = []) :
    ∃ added δ,
      KeycloakSetup.create_roles_go names true sys =
        (true, { sys with
          state := { sys.state with
            roles := sys.state.roles ++ added,
            nextId := sys.state.nextId + added.length },
          trace := sys.trace ++ δ }) ∧
      (∀ n ∈ names, ((sys.state.roles ++ added).find? (fun r => r.name == n)).isSome) ∧
      (∀ r ∈ δ, (∃ n, r = Req.getRole n) ∨ ∃ n, r = Req.postRole n) := by
  induction names generalizing sys with
  | nil =>
    refine ⟨[], [], ?_, by simp, by simp⟩
    simp [KeycloakSetup.create_roles_go]
  | cons n rest ih =>
    cases hr : sys.state.roles.find? (fun r => r.name == n) with
    | some r =>
      obtain ⟨added, δ, heq, hall, hshape⟩ :=
        ih ⟨sys.state, [], sys.trace ++ [Req.getRole n]⟩ rfl
      refine ⟨added, Req.getRole n :: δ, ?_, ?_, ?_⟩
      · have hstep : KeycloakSetup.create_roles_go (n :: rest) true sys =
            KeycloakSetup.create_roles_go rest true
              ⟨sys.state, [], sys.trace ++ [Req.getRole n]⟩ := by
          simp only [KeycloakSetup.create_roles_go]
          simp [httpGetRole, hit, hf, hr]
        rw [hstep, heq]
        simp [hf]
      · intro m hm
        rcases List.mem_cons.1 hm with h | h
        · subst h
          rw [List.find?_append, hr]
          simp
        · simpa using hall m h
      · intro r hrδ
        rcases List.mem_cons.1 hrδ with h | h
        · exact Or.inl ⟨n, h⟩
        · exact hshape r h
    | none =>
      have hany : sys.state.roles.any (fun x => x.name == n) = false := by
        rw [List.any_eq_false]
        exact fun x hx => List.find?_eq_none.1 hr x hx
      obtain ⟨added, δ, heq, hall, hshape⟩ :=
        ih ⟨⟨sys.state.clients,
             sys.state.roles ++
               [⟨freshId sys.state, n, n ++ " role for Spooliq multi-tenant system"⟩],
             sys.state.scopes, sys.state.mappers, sys.state.groups, sys.state.users,
             sys.state.defaultScopes, sys.state.roleMappings, sys.state.userGroups,
             sys.state.nextId + 1⟩,
            [], sys.trace ++ [Req.getRole n, Req.postRole n]⟩ rfl
      refine ⟨⟨freshId sys.state, n, n ++ " role for Spooliq multi-tenant system"⟩ :: added,
        Req.getRole n :: Req.postRole n :: δ, ?_, ?_, ?_⟩
      · have hstep : KeycloakSetup.create_roles_go (n :: rest) true sys =
            KeycloakSetup.create_roles_go rest true
              ⟨⟨sys.state.clients,
                sys.state.roles ++
                  [⟨freshId sys.state, n, n ++ " role for Spooliq multi-tenant system"⟩],
                sys.state.scopes, sys.state.mappers, sys.state.groups, sys.state.users,
                sys.state.defaultScopes, sys.state.roleMappings, sys.state.userGroups,
                sys.state.nextId + 1⟩,
               [], sys.trace ++ [Req.getRole n, Req.postRole n]⟩ := by
          simp only [KeycloakSetup.create_roles_go]
          simp [httpGetRole, httpPostRole, hit, hf, hr, hany, raiseOk]
        rw [hstep, heq]
        simp [hf, List.append_assoc, Nat.add_comm, Nat.add_assoc, Nat.add_left_comm]
      · intro m hm
        rcases List.mem_cons.1 hm with h | h
        · subst h
          rw [show sys.state.roles ++
              (⟨freshId sys.state, m, m ++ " role for Spooliq multi-tenant system"⟩ : KcRole)
                :: added =
              (sys.state.roles ++
                [⟨freshId sys.state, m, m ++ " role for Spooliq multi-tenant system"⟩])
                ++ added from by simp]
          rw [List.find?_append, List.find?_append, hr]
          simp
        · have := hall m h
          simp only at this
          simpa [List.append_assoc] using this
      · intro r hrδ
        rcases List.mem_cons.1 hrδ with h | h
        · exact Or.inl ⟨n, h⟩
        · rcases List.mem_cons.1 h with h2 | h2
          · exact Or.inr ⟨n, h2⟩
          · exact hshape r h2

theorem create_client_scope_noFault (sys : Sys) (hf : sys.faults = []) :
    (∃ sc, sys.state.scopes.find? (fun x => x.name == "organization") = some sc ∧
      KeycloakSetup.create_client_scope sys =
        (some sc.id, { sys with trace := sys.trace ++ [Req.getScopes] })) ∨
    (sys.state.scopes.find? (fun x => x.name == "organization") = none ∧
      KeycloakSetup.create_client_scope sys =
        (some (freshId sys.state),
         { sys with
           state := { sys.state with
             scopes := sys.state.scopes ++ [⟨freshId sys.state, "organization"⟩],
             nextId := sys.state.nextId + 1 },
           trace := sys.trace ++ [Req.getScopes, Req.postScope "organization",
             Req.getScopes] })) := by
  cases hs : sys.state.scopes.find? (fun x => x.name == "organization") with
  | some sc => exact Or.inl ⟨sc, rfl, create_client_scope_found sys sc hf hs⟩
  | none =>
    refine Or.inr ⟨rfl, ?_⟩
    have hany : sys.state.scopes.any (fun s => s.name == "organization") = false := by
      rw [List.any_eq_false]
      exact fun x hx => List.find?_eq_none.1 hs x hx
    unfold KeycloakSetup.create_client_scope KeycloakSetup.create_client_scope_create
      httpGetScopes httpPostScope hit
    simp [hf, hs, hany, raiseOk, List.find?_append]

theorem create_protocol_mapper_noFault (sys : Sys) (sid : String) (hf : sys.faults = [])
    (hscope : sys.state.scopes.any (fun s => s.id == sid) = true) :
    ((sys.state.mappers.filter (fun m => m.scopeId == sid)).any
        (fun m => m.name == "organization-id-mapper") = true ∧
      KeycloakSetup.create_protocol_mapper sid sys =
        (true, { sys with trace := sys.trace ++ [Req.getMappers sid] })) ∨
    ((sys.state.mappers.filter (fun m => m.scopeId == sid)).any
        (fun m => m.name == "organization-id-mapper") = false ∧
      KeycloakSetup.create_protocol_mapper sid sys =
        (true, { sys with
          state := { sys.state with
            mappers := sys.state.mappers ++ [⟨sid, "organization-id-mapper"⟩] },
          trace := sys.trace ++
            [Req.getMappers sid, Req.postMapper sid "organization-id-mapper"] })) := by
  cases hm : (sys.state.mappers.filter (fun m => m.scopeId == sid)).any
      (fun m => m.name == "organization-id-mapper") with
  | true =>
    exact Or.inl ⟨rfl, create_protocol_mapper_found sys sid hf hscope hm⟩
  | false =>
    refine Or.inr ⟨rfl, ?_⟩
    have hdup : sys.state.mappers.any
        (fun m => m.scopeId == sid && m.name == "organization-id-mapper") = false := by
      rw [← any_filter_eq_any_and]
      exact hm
    unfold KeycloakSetup.create_protocol_mapper httpGetMappers httpPostMapper hit
    simp [hf, hscope, hm, hdup, raiseOk]

theorem assign_scope_noFault (sys : Sys) (cu sid : String) (hf : sys.faults = [])
    (hc : sys.state.clients.any (fun c => c.id == cu) = true)
    (hs : sys.state.scopes.any (fun s => s.id == sid) = true) :
    KeycloakSetup.assign_scope_to_client cu sid sys =
      (true, { sys with
        state := { sys.state with
          defaultScopes :=
            if sys.state.defaultScopes.contains (cu, sid) then sys.state.defaultScopes
            else sys.state.defaultScopes ++ [(cu, sid)] },
        trace := sys.trace ++ [Req.putDefaultScope cu sid] }) := by
  unfold KeycloakSetup.assign_scope_to_client httpPutDefaultScope hit
  simp [hf, hc, hs, raiseOk]

theorem find_user_found (sys : Sys) (email : String) (u : KcUser) (us : List KcUser)
    (hf : sys.faults = [])
    (hu : sys.state.users.filter (fun x => x.email == email) = u :: us) :
    KeycloakSetup.find_user_by_email email sys =
      (some u.id, { sys with trace := sys.trace ++ [Req.getUsersByEmail email] }) := by
  unfold KeycloakSetup.find_user_by_email httpGetUsersByEmail hit
  simp [hf, hu, raiseOk]

theorem find_user_empty (sys : Sys) (email : String) (hf : sys.faults = [])
    (hu : sys.state.users.filter (fun x => x.email == email) = []) :
    KeycloakSetup.find_user_by_email email sys =
      (none, { sys with trace := sys.trace ++ [Req.getUsersByEmail email] }) := by
  unfold KeycloakSetup.find_user_by_email httpGetUsersByEmail hit
  simp [hf, hu, raiseOk]

theorem buildRoleObjects_eq (roles : List KcRole) (r1 r2 r3 : KcRole)
    (h1 : roles.find? (fun r => r.name == "PlatformAdmin") = some r1)
    (h2 : roles.find? (fun r => r.name == "OrgAdmin") = some r2)
    (h3 : roles.find? (fun r => r.name == "User") = some r3) :
    KeycloakSetup.buildRoleObjects KeycloakSetup.rolesList roles =
      [(r1.id, r1.name), (r2.id, r2.name), (r3.id, r3.name)] := by
  simp [KeycloakSetup.buildRoleObjects, KeycloakSetup.rolesList, h1, h2, h3]

theorem assign_roles_noFault (sys : Sys) (uid : String) (r1 r2 r3 : KcRole)
    (hf : sys.faults = [])
    (h1 : sys.state.roles.find? (fun r => r.name == "PlatformAdmin") = some r1)
    (h2 : sys.state.roles.find? (fun r => r.name == "OrgAdmin") = some r2)
    (h3 : sys.state.roles.find? (fun r => r.name == "User") = some r3)
    (hu : sys.state.users.any (fun x => x.id == uid) = true) :
    KeycloakSetup.assign_roles_to_user uid sys =
      (true, { sys with
        state := { sys.state with
          roleMappings :=
            [(r1.id, r1.name), (r2.id, r2.name), (r3.id, r3.name)].foldl
              (fun acc rr =>
                if acc.contains (uid, rr.1) then acc else acc ++ [(uid, rr.1)])
              sys.state.roleMappings },
        trace := sys.trace ++ [Req.getRoles,
          Req.postRoleMappings uid
            [(r1.id, r1.name), (r2.id, r2.name), (r3.id, r3.name)]] }) := by
  have hm1 : r1 ∈ sys.state.roles := List.mem_of_find?_eq_some h1
  have hm2 : r2 ∈ sys.state.roles := List.mem_of_find?_eq_some h2
  have hm3 : r3 ∈ sys.state.roles := List.mem_of_find?_eq_some h3
  have hall : ([(r1.id, r1.name), (r2.id, r2.name), (r3.id, r3.name)]).all
      (fun rr => sys.state.roles.any (fun r => r.id == rr.1)) = true := by
    simp only [List.all_cons, List.all_nil, Bool.and_eq_true, and_true]
    refine ⟨?_, ?_, ?_⟩ <;> rw [List.any_eq_true]
    · exact ⟨r1, hm1, by simp⟩
    · exact ⟨r2, hm2, by simp⟩
    · exact ⟨r3, hm3, by simp⟩
  have hobj := buildRoleObjects_eq sys.state.roles r1 r2 r3 h1 h2 h3
  have hobj2 : KeycloakSetup.buildRoleObjects ["PlatformAdmin", "OrgAdmin", "User"]
      sys.state.roles = [(r1.id, r1.name), (r2.id, r2.name), (r3.id, r3.name)] := by
    simpa [KeycloakSetup.rolesList] using hobj
  unfold KeycloakSetup.assign_roles_to_user httpGetRoles httpPostRoleMappings hit
  simp [hf, hobj2, hu, hall, raiseOk, KeycloakSetup.rolesList]

theorem isPreUserReq_not_user (r : Req) (h : isPreUserReq r = true) :
    isPutUser r = false ∧ isPostRoleMappings r = false := by
  cases r <;> simp_all [isPreUserReq, isPutUser, isPostRoleMappings]

/-! ## Existential packaging of the no-fault step lemmas

Each lemma runs one step on a system with an explicit empty fault list,
and exports exactly the facts later steps and the idempotence argument
need. -/

theorem create_client_noFault_exists (st : KcState) (tr : List Req) :
    ∃ (cu : String) (clients' : List KcClient) (n' : Nat) (δ : List Req),
      KeycloakSetup.create_client ⟨st, [], tr⟩ =
        (some cu, ⟨⟨clients', st.roles, st.scopes, st.mappers, st.groups, st.users,
          st.defaultScopes, st.roleMappings, st.userGroups, n'⟩, [], tr ++ δ⟩) ∧
      (∃ c, (clients'.filter (fun x => x.clientId == CLIENT_ID)).head? = some c ∧
        c.id = cu) ∧
      (∀ r ∈ δ, isPreUserReq r = true) := by
  rcases create_client_noFault ⟨st, [], tr⟩ rfl with ⟨c, cs, hc, e⟩ | ⟨hc, e⟩
  · refine ⟨c.id, st.clients, st.nextId, [Req.getClients CLIENT_ID], ?_, ⟨c, ?_, rfl⟩, ?_⟩
    · exact e
    · simp only at hc
      rw [hc]
      rfl
    · intro r hr
      simp only [List.mem_singleton] at hr
      subst hr
      rfl
  · refine ⟨freshId st, st.clients ++ [⟨freshId st, CLIENT_ID⟩], st.nextId + 1,
      [Req.getClients CLIENT_ID, Req.postClient CLIENT_ID, Req.getClients CLIENT_ID],
      ?_, ⟨⟨freshId st, CLIENT_ID⟩, ?_, rfl⟩, ?_⟩
    · exact e
    · simp only at hc
      rw [List.filter_append, hc]
      simp
    · intro r hr
      simp only [List.mem_cons, List.not_mem_nil, or_false] at hr
      rcases hr with rfl | rfl | rfl <;> rfl

theorem create_roles_noFault_exists (st : KcState) (tr : List Req) :
    ∃ (roles' : List KcRole) (n' : Nat) (δ : List Req) (r1 r2 r3 : KcRole),
      KeycloakSetup.create_roles ⟨st, [], tr⟩ =
        (true, ⟨⟨st.clients, roles', st.scopes, st.mappers, st.groups, st.users,
          st.defaultScopes, st.roleMappings, st.userGroups, n'⟩, [], tr ++ δ⟩) ∧
      roles'.find? (fun r => r.name == "PlatformAdmin") = some r1 ∧
      roles'.find? (fun r => r.name == "OrgAdmin") = some r2 ∧
      roles'.find? (fun r => r.name == "User") = some r3 ∧
      (∀ r ∈ δ, isPreUserReq r = true) := by
  obtain ⟨added, δ, heq, hall, hshape⟩ :=
    create_roles_go_noFault KeycloakSetup.rolesList ⟨st, [], tr⟩ rfl
  have hPA := hall "PlatformAdmin" (by simp [KeycloakSetup.rolesList])
  have hOA := hall "OrgAdmin" (by simp [KeycloakSetup.rolesList])
  have hU := hall "User" (by simp [KeycloakSetup.rolesList])
  simp only at hPA hOA hU heq
  rw [Option.isSome_iff_exists] at hPA hOA hU
  obtain ⟨r1, h1⟩ := hPA
  obtain ⟨r2, h2⟩ := hOA
  obtain ⟨r3, h3⟩ := hU
  refine ⟨st.roles ++ added, st.nextId + added.length, δ, r1, r2, r3, ?_, h1, h2, h3,
    fun r hr => ?_⟩
  · exact heq
  · rcases hshape r hr with ⟨n, rfl⟩ | ⟨n, rfl⟩ <;> rfl

theorem create_scope_noFault_exists (st : KcState) (tr : List Req) :
    ∃ (sid : String) (scopes' : List KcScope) (n' : Nat) (δ : List Req) (sc : KcScope),
      KeycloakSetup.create_client_scope ⟨st, [], tr⟩ =
        (some sid, ⟨⟨st.clients, st.roles, scopes', st.mappers, st.groups, st.users,
          st.defaultScopes, st.roleMappings, st.userGroups, n'⟩, [], tr ++ δ⟩) ∧
      scopes'.find? (fun x => x.name == "organization") = some sc ∧ sc.id = sid ∧
      (∀ r ∈ δ, isPreUserReq r = true) := by
  rcases create_client_scope_noFault ⟨st, [], tr⟩ rfl with ⟨sc, hs, e⟩ | ⟨hs, e⟩
  · refine ⟨sc.id, st.scopes, st.nextId, [Req.getScopes], sc, e, ?_, rfl, ?_⟩
    · simpa using hs
    · intro r hr
      simp only [List.mem_singleton] at hr
      subst hr
      rfl
  · refine ⟨freshId st, st.scopes ++ [⟨freshId st, "organization"⟩], st.nextId + 1,
      [Req.getScopes, Req.postScope "organization", Req.getScopes],
      ⟨freshId st, "organization"⟩, e, ?_, rfl, ?_⟩
    · simp only at hs
      rw [List.find?_append, hs]
      simp
    · intro r hr
      simp only [List.mem_cons, List.not_mem_nil, or_false] at hr
      rcases hr with rfl | rfl | rfl <;> rfl

theorem create_mapper_noFault_exists (st : KcState) (tr : List Req) (sid : String)
    (hscope : st.scopes.any (fun s => s.id == sid) = true) :
    ∃ (mappers' : List KcMapper) (δ : List Req),
      KeycloakSetup.create_protocol_mapper sid ⟨st, [], tr⟩ =
        (true, ⟨⟨st.clients, st.roles, st.scopes, mappers', st.groups, st.users,
          st.defaultScopes, st.roleMappings, st.userGroups, st.nextId⟩, [], tr ++ δ⟩) ∧
      (mappers'.filter (fun m => m.scopeId == sid)).any
        (fun m => m.name == "organization-id-mapper") = true ∧
      (∀ r ∈ δ, isPreUserReq r = true) := by
  rcases create_protocol_mapper_noFault ⟨st, [], tr⟩ sid rfl hscope with ⟨hm, e⟩ | ⟨hm, e⟩
  · refine ⟨st.mappers, [Req.getMappers sid], e, by simpa using hm, ?_⟩
    intro r hr
    simp only [List.mem_singleton] at hr
    subst hr
    rfl
  · refine ⟨st.mappers ++ [⟨sid, "organization-id-mapper"⟩],
      [Req.getMappers sid, Req.postMapper sid "organization-id-mapper"], e, ?_, ?_⟩
    · rw [List.filter_append]
      simp
    · intro r hr
      simp only [List.mem_cons, List.not_mem_nil, or_false] at hr
      rcases hr with rfl | rfl <;> rfl

theorem assign_scope_noFault_exists (st : KcState) (tr : List Req) (cu sid : String)
    (hc : st.clients.any (fun c => c.id == cu) = true)
    (hs : st.scopes.any (fun s => s.id == sid) = true) :
    ∃ ds' : List (String × String),
      KeycloakSetup.assign_scope_to_client cu sid ⟨st, [], tr⟩ =
        (true, ⟨⟨st.clients, st.roles, st.scopes, st.mappers, st.groups, st.users,
          ds', st.roleMappings, st.userGroups, st.nextId⟩, [],
          tr ++ [Req.putDefaultScope cu sid]⟩) ∧
      ds'.contains (cu, sid) = true := by
  have e := assign_scope_noFault ⟨st, [], tr⟩ cu sid rfl hc hs
  refine ⟨if st.defaultScopes.contains (cu, sid) then st.defaultScopes
    else st.defaultScopes ++ [(cu, sid)], ?_, ?_⟩
  · simpa using e
  · by_cases hin : st.defaultScopes.contains (cu, sid) = true
    · rw [if_pos hin]
      exact hin
    · rw [if_neg hin]
      simp

theorem mem_foldl_addPairs_iff (uid : String) (rs : List (String × String))
    (acc : List (String × String)) (x : String × String) :
    x ∈ rs.foldl
      (fun acc rr => if acc.contains (uid, rr.1) then acc else acc ++ [(uid, rr.1)])
      acc ↔ x ∈ acc ∨ ∃ rr ∈ rs, x = (uid, rr.1) := by
  induction rs generalizing acc with
  | nil => simp
  | cons r rest ih =>
    rw [List.foldl_cons]
    by_cases hc : acc.contains (uid, r.1) = true
    · rw [if_pos hc, ih]
      constructor
      · rintro (h | ⟨rr, hrr, rfl⟩)
        · exact Or.inl h
        · exact Or.inr ⟨rr, List.mem_cons_of_mem r hrr, rfl⟩
      · rintro (h | ⟨rr, hrr, rfl⟩)
        · exact Or.inl h
        · rcases List.mem_cons.1 hrr with rfl | hrr
          · exact Or.inl (by simpa using hc)
          · exact Or.inr ⟨rr, hrr, rfl⟩
    · rw [if_neg hc, ih]
      constructor
      · rintro (h | ⟨rr, hrr, rfl⟩)
        · rcases List.mem_append.1 h with h | h
          · exact Or.inl h
          · simp only [List.mem_singleton] at h
            exact Or.inr ⟨r, List.mem_cons_self r rest, h⟩
        · exact Or.inr ⟨rr, List.mem_cons_of_mem r hrr, rfl⟩
      · rintro (h | ⟨rr, hrr, rfl⟩)
        · exact Or.inl (List.mem_append_left _ h)
        · rcases List.mem_cons.1 hrr with rfl | hrr
          · exact Or.inl (List.mem_append_right _ (by simp))
          · exact Or.inr ⟨rr, hrr, rfl⟩

/-! ## No-fault lemmas for the fix-roles script -/

theorem httpDeleteRole_noFault (st : KcState) (tr : List Req) (name : String) :
    ∃ (roles' : List KcRole) (rm' : List (String × String)),
      (httpDeleteRole ⟨st, [], tr⟩ name).2 =
        ⟨⟨st.clients, roles', st.scopes, st.mappers, st.groups, st.users,
          st.defaultScopes, rm', st.userGroups, st.nextId⟩, [],
          tr ++ [Req.deleteRole name]⟩ ∧
      ((∀ p ∈ st.roleMappings, ∃ r ∈ st.roles, r.id = p.2) →
        ∀ p ∈ rm', ∃ r ∈ roles', r.id = p.2) := by
  cases hr : st.roles.find? (fun r => r.name == name) with
  | some r =>
    refine ⟨st.roles.filter (fun x => x.id != r.id),
      st.roleMappings.filter (fun p => p.2 != r.id), ?_, ?_⟩
    · unfold httpDeleteRole hit
      simp [hr]
    · intro hwf p hp
      have hp0 : p ∈ st.roleMappings := List.mem_of_mem_filter hp
      have hpne : (p.2 != r.id) = true :=
        List.of_mem_filter (p := fun q : String × String => q.2 != r.id) hp
      obtain ⟨r0, hr0, hr0id⟩ := hwf p hp0
      refine ⟨r0, List.mem_filter.2 ⟨hr0, ?_⟩, hr0id⟩
      rw [hr0id]
      exact hpne
  | none =>
    refine ⟨st.roles, st.roleMappings, ?_, fun h => h⟩
    unfold httpDeleteRole hit
    simp [hr]

theorem fixDeleteOldRoles_noFault (names : List String) (st : KcState) (tr : List Req) :
    ∃ (roles' : List KcRole) (rm' : List (String × String)) (δ : List Req),
      fixDeleteOldRoles names ⟨st, [], tr⟩ =
        ⟨⟨st.clients, roles', st.scopes, st.mappers, st.groups, st.users,
          st.defaultScopes, rm', st.userGroups, st.nextId⟩, [], tr ++ δ⟩ ∧
      ((∀ p ∈ st.roleMappings, ∃ r ∈ st.roles, r.id = p.2) →
        ∀ p ∈ rm', ∃ r ∈ roles', r.id = p.2) := by
  induction names generalizing st tr with
  | nil =>
    refine ⟨st.roles, st.roleMappings, [], ?_, fun h => h⟩
    simp [fixDeleteOldRoles]
  | cons n rest ih =>
    obtain ⟨roles1, rm1, e1, hwf1⟩ := httpDeleteRole_noFault st tr n
    obtain ⟨roles2, rm2, δ2, e2, hwf2⟩ :=
      ih ⟨st.clients, roles1, st.scopes, st.mappers, st.groups, st.users,
        st.defaultScopes, rm1, st.userGroups, st.nextId⟩ (tr ++ [Req.deleteRole n])
    refine ⟨roles2, rm2, Req.deleteRole n :: δ2, ?_, ?_⟩
    · show fixDeleteOldRoles rest ((httpDeleteRole ⟨st, [], tr⟩ n).2) = _
      rw [e1, e2]
      simp
    · intro hwf
      exact hwf2 (hwf1 hwf)

theorem fixCreateRoles_noFault (names : List String) (st : KcState) (tr : List Req) :
    ∃ (added : List KcRole) (δ : List Req),
      fixCreateRoles names ⟨st, [], tr⟩ =
        ⟨⟨st.clients, st.roles ++ added, st.scopes, st.mappers, st.groups, st.users,
          st.defaultScopes, st.roleMappings, st.userGroups,
          st.nextId + added.length⟩, [], tr ++ δ⟩ ∧
      (∀ n ∈ names, ((st.roles ++ added).find? (fun r => r.name == n)).isSome) := by
  induction names generalizing st tr with
  | nil =>
    refine ⟨[], [], ?_, by simp⟩
    simp [fixCreateRoles]
  | cons n rest ih =>
    cases hr : st.roles.find? (fun r => r.name == n) with
    | some r =>
      obtain ⟨added, δ, heq, hall⟩ := ih st (tr ++ [Req.getRole n])
      refine ⟨added, Req.getRole n :: δ, ?_, ?_⟩
      · have hstep : fixCreateRoles (n :: rest) ⟨st, [], tr⟩ =
            fixCreateRoles rest ⟨st, [], tr ++ [Req.getRole n]⟩ := by
          simp only [fixCreateRoles]
          simp [httpGetRole, hit, hr]
        rw [hstep, heq]
        simp
      · intro m hm
        rcases List.mem_cons.1 hm with h | h
        · subst h
          rw [List.find?_append, hr]
          simp
        · exact hall m h
    | none =>
      have hany : st.roles.any (fun x => x.name == n) = false := by
        rw [List.any_eq_false]
        exact fun x hx => List.find?_eq_none.1 hr x hx
      obtain ⟨added, δ, heq, hall⟩ :=
        ih ⟨st.clients,
            st.roles ++ [⟨freshId st, n, n ++ " role for Spooliq SaaS platform"⟩],
            st.scopes, st.mappers, st.groups, st.users, st.defaultScopes,
            st.roleMappings, st.userGroups, st.nextId + 1⟩
          (tr ++ [Req.getRole n, Req.postRole n])
      refine ⟨⟨freshId st, n, n ++ " role for Spooliq SaaS platform"⟩ :: added,
        Req.getRole n :: Req.postRole n :: δ, ?_, ?_⟩
      · have hstep : fixCreateRoles (n :: rest) ⟨st, [], tr⟩ =
            fixCreateRoles rest
              ⟨⟨st.clients,
                st.roles ++ [⟨freshId st, n, n ++ " role for Spooliq SaaS platform"⟩],
                st.scopes, st.mappers, st.groups, st.users, st.defaultScopes,
                st.roleMappings, st.userGroups, st.nextId + 1⟩,
               [], tr ++ [Req.getRole n, Req.postRole n]⟩ := by
          simp only [fixCreateRoles]
          simp [httpGetRole, httpPostRole, hit, hr, hany]
        rw [hstep, heq]
        simp [List.append_assoc, Nat.add_comm, Nat.add_assoc, Nat.add_left_comm]
      · intro m hm
        rcases List.mem_cons.1 hm with h | h
        · subst h
          rw [show st.roles ++
              (⟨freshId st, m, m ++ " role for Spooliq SaaS platform"⟩ : KcRole)
                :: added =
              (st.roles ++
                [⟨freshId st, m, m ++ " role for Spooliq SaaS platform"⟩]) ++ added
              from by simp]
          rw [List.find?_append, List.find?_append, hr]
          simp
        · have := hall m h
          simp only at this
          simpa [List.append_assoc] using this

theorem httpPostRoleMappings_ok (st : KcState) (tr : List Req) (uid : String)
    (rs : List (String × String))
    (hu : st.users.any (fun x => x.id == uid) = true)
    (hall : rs.all (fun rr => st.roles.any (fun r => r.id == rr.1)) = true) :
    httpPostRoleMappings ⟨st, [], tr⟩ uid rs =
      (204, ⟨⟨st.clients, st.roles, st.scopes, st.mappers, st.groups, st.users,
        st.defaultScopes,
        rs.foldl
          (fun acc rr =>
            if acc.contains (uid, rr.1) then acc else acc ++ [(uid, rr.1)])
          st.roleMappings,
        st.userGroups, st.nextId⟩, [], tr ++ [Req.postRoleMappings uid rs]⟩) := by
  unfold httpPostRoleMappings hit
  simp [hu, hall]

theorem collectAvailableRoles_eq (st : KcState) (tr : List Req)
    (r1 r2 r3 r4 : KcRole)
    (h1 : st.roles.find? (fun r => r.name == "PlatformAdmin") = some r1)
    (h2 : st.roles.find? (fun r => r.name == "OrgAdmin") = some r2)
    (h3 : st.roles.find? (fun r => r.name == "Owner") = some r3)
    (h4 : st.roles.find? (fun r => r.name == "User") = some r4) :
    collectAvailableRoles groupsRolesList [] ⟨st, [], tr⟩ =
      ([(r1.id, r1.name), (r2.id, r2.name), (r3.id, r3.name), (r4.id, r4.name)],
       ⟨st, [], tr ++ [Req.getRole "PlatformAdmin", Req.getRole "OrgAdmin",
         Req.getRole "Owner", Req.getRole "User"]⟩) := by
  simp [collectAvailableRoles, groupsRolesList, httpGetRole, hit, h1, h2, h3, h4]

/-- Composition of steps 1–6 of the multitenant run under a fault-free
server: they always succeed, touch only the client/role/scope/mapper/
default-scope components, issue only pre-user-lookup requests, and leave
the run at its user-lookup step. -/
theorem run_through_assign_noFault (adminEmail orgUuid : String) (s : KcState) :
    ∃ (st6 : KcState) (tr6 : List Req) (cu sid : String) (c : KcClient)
      (sc : KcScope) (r1 r2 r3 : KcRole),
      st6.users = s.users ∧
      st6.roleMappings = s.roleMappings ∧
      st6.groups = s.groups ∧
      st6.userGroups = s.userGroups ∧
      (st6.clients.filter (fun x => x.clientId == CLIENT_ID)).head? = some c ∧
      c.id = cu ∧
      st6.roles.find? (fun r => r.name == "PlatformAdmin") = some r1 ∧
      st6.roles.find? (fun r => r.name == "OrgAdmin") = some r2 ∧
      st6.roles.find? (fun r => r.name == "User") = some r3 ∧
      st6.scopes.find? (fun x => x.name == "organization") = some sc ∧
      sc.id = sid ∧
      (st6.mappers.filter (fun m => m.scopeId == sid)).any
        (fun m => m.name == "organization-id-mapper") = true ∧
      st6.defaultScopes.contains (cu, sid) = true ∧
      (∀ r ∈ tr6, isPreUserReq r = true) ∧
      KeycloakSetup.run adminEmail orgUuid (initSys s) =
        (match KeycloakSetup.find_user_by_email adminEmail ⟨st6, [], tr6⟩ with
         | (some user_id, sys) =>
           (match KeycloakSetup.set_user_attribute orgUuid user_id sys with
            | (attrOk, sys) =>
              if attrOk = true then
                match KeycloakSetup.assign_roles_to_user user_id sys with
                | (rolesAssigned, sys) =>
                  if rolesAssigned = true then (true, sys) else (false, sys)
              else (false, sys))
         | (none, sys) => (false, sys)) := by
  obtain ⟨cu, clients2, n2, δ2, e2, ⟨c, hhead, hcid⟩, hδ2⟩ :=
    create_client_noFault_exists s [Req.postToken]
  obtain ⟨roles3, n3, δ3, r1, r2, r3, e3, h1, h2, h3, hδ3⟩ :=
    create_roles_noFault_exists
      ⟨clients2, s.roles, s.scopes, s.mappers, s.groups, s.users,
        s.defaultScopes, s.roleMappings, s.userGroups, n2⟩
      ([Req.postToken] ++ δ2)
  obtain ⟨sid, scopes4, n4, δ4, sc, e4, hsc, hscid, hδ4⟩ :=
    create_scope_noFault_exists
      ⟨clients2, roles3, s.scopes, s.mappers, s.groups, s.users,
        s.defaultScopes, s.roleMappings, s.userGroups, n3⟩
      (([Req.postToken] ++ δ2) ++ δ3)
  have hscope4 : scopes4.any (fun x => x.id == sid) = true := by
    rw [List.any_eq_true]
    exact ⟨sc, List.mem_of_find?_eq_some hsc, by simp [hscid]⟩
  obtain ⟨mappers5, δ5, e5, hm5, hδ5⟩ :=
    create_mapper_noFault_exists
      ⟨clients2, roles3, scopes4, s.mappers, s.groups, s.users,
        s.defaultScopes, s.roleMappings, s.userGroups, n4⟩
      ((([Req.postToken] ++ δ2) ++ δ3) ++ δ4) sid hscope4
  have hcany : clients2.any (fun x => x.id == cu) = true := by
    have hcmem : c ∈ clients2.filter (fun x => x.clientId == CLIENT_ID) :=
      List.mem_of_mem_head? (Option.mem_def.2 hhead)
    rw [List.any_eq_true]
    exact ⟨c, List.mem_of_mem_filter hcmem, by simp [hcid]⟩
  obtain ⟨ds6, e6, hds6⟩ :=
    assign_scope_noFault_exists
      ⟨clients2, roles3, scopes4, mappers5, s.groups, s.users,
        s.defaultScopes, s.roleMappings, s.userGroups, n4⟩
      (((([Req.postToken] ++ δ2) ++ δ3) ++ δ4) ++ δ5) cu sid hcany hscope4
  refine ⟨⟨clients2, roles3, scopes4, mappers5, s.groups, s.users,
      ds6, s.roleMappings, s.userGroups, n4⟩,
    (((([Req.postToken] ++ δ2) ++ δ3) ++ δ4) ++ δ5) ++ [Req.putDefaultScope cu sid],
    cu, sid, c, sc, r1, r2, r3,
    rfl, rfl, rfl, rfl, hhead, hcid, h1, h2, h3, hsc, hscid, hm5, hds6, ?_, ?_⟩
  · intro r hr
    simp only [List.mem_append, List.mem_singleton] at hr
    rcases hr with ((((rfl | hr) | hr) | hr) | hr) | rfl
    · rfl
    · exact hδ2 r hr
    · exact hδ3 r hr
    · exact hδ4 r hr
    · exact hδ5 r hr
    · rfl
  · have e1 : KeycloakSetup.get_admin_token (initSys s) =
        (true, ⟨s, [], [Req.postToken]⟩) := by
      simpa [initSys] using get_admin_token_noFault (initSys s) rfl
    unfold KeycloakSetup.run
    rw [e1]
    simp only [e2, e3, e4, e5, e6, if_true]

set_option maxHeartbeats 2000000 in
/-- C10: the fix-roles script deletes every realm role currently mapped
to the target user (when the mapping list is non-empty) before assigning
the new set, so regardless of the user's previous realm roles the final
mapping is exactly the set of ids of the realm roles named PlatformAdmin,
OrgAdmin, Owner and User — all four of which exist after the run — and
the process exits 0. -/
theorem C10_fix_roles_resets_mappings (adminEmail : String) (s : KcState)
    (u0 : KcUser) (us : List KcUser)
    (hwf : MappingsWF s)
    (hu : s.users.filter (fun x => x.email == adminEmail) = u0 :: us) :
    (fixRolesRun adminEmail (initSys s)).1 = 0 ∧
    (∀ n ∈ groupsRolesList,
      ∃ r ∈ (fixRolesRun adminEmail (initSys s)).2.state.roles, r.name = n) ∧
    (∀ rid, ((u0.id, rid) ∈ (fixRolesRun adminEmail (initSys s)).2.state.roleMappings ↔
      rid ∈ realmRoleIdsFor (fixRolesRun adminEmail (initSys s)).2.state
        groupsRolesList)) := by
  have humem : u0 ∈ s.users := by
    have : u0 ∈ s.users.filter (fun x => x.email == adminEmail) := by
      rw [hu]; exact List.mem_cons_self u0 us
    exact List.mem_of_mem_filter this
  have huany : s.users.any (fun x => x.id == u0.id) = true := by
    rw [List.any_eq_true]; exact ⟨u0, humem, by simp⟩
  -- step 1: token
  have e1 : httpPostToken (initSys s) = (200, ⟨s, [], [Req.postToken]⟩) := by
    unfold httpPostToken hit initSys
    simp
  -- step 2: delete old roles
  obtain ⟨roles1, rm1, δ1, e2, hwf1⟩ :=
    fixDeleteOldRoles_noFault fixOldRoles s [Req.postToken]
  -- step 3: ensure correct roles
  obtain ⟨added, δ2, e3, hall3⟩ :=
    fixCreateRoles_noFault groupsRolesList
      ⟨s.clients, roles1, s.scopes, s.mappers, s.groups, s.users,
        s.defaultScopes, rm1, s.userGroups, s.nextId⟩
      ([Req.postToken] ++ δ1)
  simp only at e3 hall3
  have hPA := hall3 "PlatformAdmin" (by simp [groupsRolesList])
  have hOA := hall3 "OrgAdmin" (by simp [groupsRolesList])
  have hOw := hall3 "Owner" (by simp [groupsRolesList])
  have hUs := hall3 "User" (by simp [groupsRolesList])
  rw [Option.isSome_iff_exists] at hPA hOA hOw hUs
  obtain ⟨r1, h1⟩ := hPA
  obtain ⟨r2, h2⟩ := hOA
  obtain ⟨r3, h3⟩ := hOw
  obtain ⟨r4, h4⟩ := hUs
  have hwf3 : ∀ p ∈ rm1, ∃ r ∈ roles1 ++ added, r.id = p.2 := by
    intro p hp
    obtain ⟨r, hr, hrid⟩ := hwf1 hwf p hp
    exact ⟨r, List.mem_append_left _ hr, hrid⟩
  -- the common tail after the mapping wipe: collect the four roles and
  -- assign them
  have tail : ∀ (rm4 : List (String × String)) (tr5 : List Req),
      (∀ rid, (u0.id, rid) ∉ rm4) →
      ∃ final : Sys,
        (let (available_roles, sys) :=
          collectAvailableRoles groupsRolesList []
            ⟨⟨s.clients, roles1 ++ added, s.scopes, s.mappers, s.groups, s.users,
              s.defaultScopes, rm4, s.userGroups, s.nextId + added.length⟩, [], tr5⟩
         let sys :=
          if available_roles.isEmpty then sys
          else (httpPostRoleMappings sys u0.id available_roles).2
         ((0 : Nat), sys)) = (0, final) ∧
        (∀ n ∈ groupsRolesList, ∃ r ∈ final.state.roles, r.name = n) ∧
        (∀ rid, ((u0.id, rid) ∈ final.state.roleMappings ↔
          rid ∈ realmRoleIdsFor final.state groupsRolesList)) := by
    intro rm4 tr5 hwipe
    have hcol := collectAvailableRoles_eq
      ⟨s.clients, roles1 ++ added, s.scopes, s.mappers, s.groups, s.users,
        s.defaultScopes, rm4, s.userGroups, s.nextId + added.length⟩ tr5
      r1 r2 r3 r4 h1 h2 h3 h4
    have hallroles : ([(r1.id, r1.name), (r2.id, r2.name), (r3.id, r3.name),
        (r4.id, r4.name)]).all
        (fun rr => (roles1 ++ added).any (fun r => r.id == rr.1)) = true := by
      simp only [List.all_cons, List.all_nil, Bool.and_eq_true, and_true]
      refine ⟨?_, ?_, ?_, ?_⟩ <;> rw [List.any_eq_true]
      · exact ⟨r1, List.mem_of_find?_eq_some h1, by simp⟩
      · exact ⟨r2, List.mem_of_find?_eq_some h2, by simp⟩
      · exact ⟨r3, List.mem_of_find?_eq_some h3, by simp⟩
      · exact ⟨r4, List.mem_of_find?_eq_some h4, by simp⟩
    refine ⟨⟨⟨s.clients, roles1 ++ added, s.scopes, s.mappers, s.groups, s.users,
        s.defaultScopes,
        [(r1.id, r1.name), (r2.id, r2.name), (r3.id, r3.name),
          (r4.id, r4.name)].foldl
          (fun acc rr =>
            if acc.contains (u0.id, rr.1) then acc else acc ++ [(u0.id, rr.1)])
          rm4,
        s.userGroups, s.nextId + added.length⟩, [],
        (tr5 ++ [Req.getRole "PlatformAdmin", Req.getRole "OrgAdmin",
          Req.getRole "Owner", Req.getRole "User"]) ++
          [Req.postRoleMappings u0.id
            [(r1.id, r1.name), (r2.id, r2.name), (r3.id, r3.name),
              (r4.id, r4.name)]]⟩, ?_, ?_, ?_⟩
    · have epost := httpPostRoleMappings_ok
        ⟨s.clients, roles1 ++ added, s.scopes, s.mappers, s.groups, s.users,
          s.defaultScopes, rm4, s.userGroups, s.nextId + added.length⟩
        (tr5 ++ [Req.getRole "PlatformAdmin", Req.getRole "OrgAdmin",
          Req.getRole "Owner", Req.getRole "User"])
        u0.id
        [(r1.id, r1.name), (r2.id, r2.name), (r3.id, r3.name), (r4.id, r4.name)]
        huany hallroles
      rw [hcol]
      simp only [epost, List.isEmpty_cons, Bool.false_eq_true, if_false]
    · intro n hn
      simp only [groupsRolesList, List.mem_cons, List.not_mem_nil, or_false] at hn
      rcases hn with rfl | rfl | rfl | rfl
      · exact ⟨r1, by
          simp only [hcol]
          exact ⟨List.mem_of_find?_eq_some h1, by
            have := List.find?_some (p := fun r : KcRole => r.name == "PlatformAdmin") h1
            simpa using this⟩⟩
      · exact ⟨r2, by
          simp only [hcol]
          exact ⟨List.mem_of_find?_eq_some h2, by
            have := List.find?_some (p := fun r : KcRole => r.name == "OrgAdmin") h2
            simpa using this⟩⟩
      · exact ⟨r3, by
          simp only [hcol]
          exact ⟨List.mem_of_find?_eq_some h3, by
            have := List.find?_some (p := fun r : KcRole => r.name == "Owner") h3
            simpa using this⟩⟩
      · exact ⟨r4, by
          simp only [hcol]
          exact ⟨List.mem_of_find?_eq_some h4, by
            have := List.find?_some (p := fun r : KcRole => r.name == "User") h4
            simpa using this⟩⟩
    · intro rid
      simp only [hcol]
      rw [mem_foldl_addPairs_iff]
      constructor
      · rintro (h | ⟨rr, hrr, heq⟩)
        · exact absurd h (hwipe rid)
        · have hrid : rid = rr.1 := by
            have := congrArg Prod.snd heq
            simpa using this
          subst hrid
          simp only [realmRoleIdsFor, groupsRolesList]
          simp only [List.filterMap_cons, List.filterMap_nil, h1, h2, h3, h4,
            Option.map_some']
          simp only [List.mem_cons, List.not_mem_nil, or_false] at hrr ⊢
          rcases hrr with rfl | rfl | rfl | rfl
          · simp
          · simp
          · simp
          · simp
      · intro h
        simp only [realmRoleIdsFor, groupsRolesList, List.filterMap_cons,
          List.filterMap_nil, h1, h2, h3, h4, Option.map_some',
          List.mem_cons, List.not_mem_nil, or_false] at h
        rcases h with rfl | rfl | rfl | rfl
        · exact Or.inr ⟨(r1.id, r1.name), by simp, rfl⟩
        · exact Or.inr ⟨(r2.id, r2.name), by simp, rfl⟩
        · exact Or.inr ⟨(r3.id, r3.name), by simp, rfl⟩
        · exact Or.inr ⟨(r4.id, r4.name), by simp, rfl⟩
  -- the user lookup and mapping read
  have egetu : httpGetUsersByEmail
      ⟨⟨s.clients, roles1 ++ added, s.scopes, s.mappers, s.groups, s.users,
        s.defaultScopes, rm1, s.userGroups, s.nextId + added.length⟩, [],
        ([Req.postToken] ++ δ1) ++ δ2⟩ adminEmail =
      (200, u0 :: us,
       ⟨⟨s.clients, roles1 ++ added, s.scopes, s.mappers, s.groups, s.users,
         s.defaultScopes, rm1, s.userGroups, s.nextId + added.length⟩, [],
         (([Req.postToken] ++ δ1) ++ δ2) ++ [Req.getUsersByEmail adminEmail]⟩) := by
    unfold httpGetUsersByEmail hit
    simp [hu]
  have egetm : httpGetRoleMappings
      ⟨⟨s.clients, roles1 ++ added, s.scopes, s.mappers, s.groups, s.users,
        s.defaultScopes, rm1, s.userGroups, s.nextId + added.length⟩, [],
        ((([Req.postToken] ++ δ1) ++ δ2) ++ [Req.getUsersByEmail adminEmail])⟩ u0.id =
      (200,
       (rm1.filter (fun p => p.1 == u0.id)).filterMap
         (fun p => (roles1 ++ added).find? (fun r => r.id == p.2)),
       ⟨⟨s.clients, roles1 ++ added, s.scopes, s.mappers, s.groups, s.users,
         s.defaultScopes, rm1, s.userGroups, s.nextId + added.length⟩, [],
         (((([Req.postToken] ++ δ1) ++ δ2) ++ [Req.getUsersByEmail adminEmail]) ++
           [Req.getRoleMappings u0.id])⟩) := by
    unfold httpGetRoleMappings hit
    simp
  cases hemp : ((rm1.filter (fun p => p.1 == u0.id)).filterMap
      (fun p => (roles1 ++ added).find? (fun r => r.id == p.2))).isEmpty with
  | true =>
    have hnil : (rm1.filter (fun p => p.1 == u0.id)).filterMap
        (fun p => (roles1 ++ added).find? (fun r => r.id == p.2)) = [] := by
      rwa [List.isEmpty_iff] at hemp
    have hwipeA : ∀ rid, (u0.id, rid) ∉ rm1 := by
      intro rid hmem
      have hpfil : ((u0.id, rid) : String × String) ∈
          rm1.filter (fun p => p.1 == u0.id) :=
        List.mem_filter.2 ⟨hmem, by simp⟩
      have hnone := List.filterMap_eq_nil_iff.1 hnil _ hpfil
      obtain ⟨r, hr, hrid⟩ := hwf3 (u0.id, rid) hmem
      have : ((roles1 ++ added).find? (fun x => x.id == (u0.id, rid).2)).isSome := by
        rw [List.find?_isSome]
        exact ⟨r, hr, by simp [hrid]⟩
      rw [hnone] at this
      cases this
    obtain ⟨final, etail, c2, c3⟩ := tail rm1
      ((((([Req.postToken] ++ δ1) ++ δ2) ++ [Req.getUsersByEmail adminEmail]) ++
        [Req.getRoleMappings u0.id]))
      hwipeA
    have hro : raiseOk 200 = true := by decide
    have hstep4 : fixUpdateUserRoles adminEmail
        ⟨⟨s.clients, roles1 ++ added, s.scopes, s.mappers, s.groups, s.users,
          s.defaultScopes, rm1, s.userGroups, s.nextId + added.length⟩, [],
          ([Req.postToken] ++ δ1) ++ δ2⟩ = (0, final) := by
      unfold fixUpdateUserRoles
      rw [egetu]
      simp only [egetm, hemp, if_true]
      exact etail
    have hrun : fixRolesRun adminEmail (initSys s) = (0, final) := by
      unfold fixRolesRun
      rw [e1]
      simp only [hro, if_true, e2, e3]
      exact hstep4
    refine ⟨by rw [hrun], ?_, ?_⟩
    · rw [hrun]
      exact c2
    · rw [hrun]
      exact c3
  | false =>
    have hbody : ∀ p ∈ rm1, p.1 = u0.id →
        (((rm1.filter (fun p => p.1 == u0.id)).filterMap
          (fun p => (roles1 ++ added).find? (fun r => r.id == p.2))).map
            (fun r => (r.id, r.name))).any (fun rr => rr.1 == p.2) = true := by
      intro p hp hp1
      obtain ⟨r0, hr0, hr0id⟩ := hwf3 p hp
      have hfsome : ((roles1 ++ added).find? (fun x => x.id == p.2)).isSome := by
        rw [List.find?_isSome]
        exact ⟨r0, hr0, by simp [hr0id]⟩
      rw [Option.isSome_iff_exists] at hfsome
      obtain ⟨rp, hrp⟩ := hfsome
      have hrpid : rp.id = p.2 := by
        have := List.find?_some (p := fun x : KcRole => x.id == p.2) hrp
        simpa using this
      have hrpmem : rp ∈ (rm1.filter (fun q => q.1 == u0.id)).filterMap
          (fun q => (roles1 ++ added).find? (fun r => r.id == q.2)) := by
        rw [List.mem_filterMap]
        exact ⟨p, List.mem_filter.2 ⟨hp, by simp [hp1]⟩, hrp⟩
      rw [List.any_eq_true]
      exact ⟨(rp.id, rp.name), List.mem_map_of_mem _ hrpmem, by simp [hrpid]⟩
    have edel : httpDeleteRoleMappings
        ⟨⟨s.clients, roles1 ++ added, s.scopes, s.mappers, s.groups, s.users,
          s.defaultScopes, rm1, s.userGroups, s.nextId + added.length⟩, [],
          (((([Req.postToken] ++ δ1) ++ δ2) ++ [Req.getUsersByEmail adminEmail]) ++
            [Req.getRoleMappings u0.id])⟩ u0.id
        (((rm1.filter (fun p => p.1 == u0.id)).filterMap
          (fun p => (roles1 ++ added).find? (fun r => r.id == p.2))).map
            (fun r => (r.id, r.name))) =
        (204,
         ⟨⟨s.clients, roles1 ++ added, s.scopes, s.mappers, s.groups, s.users,
           s.defaultScopes,
           rm1.filter (fun p => !(p.1 == u0.id &&
             (((rm1.filter (fun p => p.1 == u0.id)).filterMap
               (fun p => (roles1 ++ added).find? (fun r => r.id == p.2))).map
                 (fun r => (r.id, r.name))).any (fun rr => rr.1 == p.2))),
           s.userGroups, s.nextId + added.length⟩, [],
           ((((([Req.postToken] ++ δ1) ++ δ2) ++ [Req.getUsersByEmail adminEmail]) ++
             [Req.getRoleMappings u0.id]) ++
             [Req.deleteRoleMappings u0.id
               (((rm1.filter (fun p => p.1 == u0.id)).filterMap
                 (fun p => (roles1 ++ added).find? (fun r => r.id == p.2))).map
                   (fun r => (r.id, r.name)))])⟩) := by
      unfold httpDeleteRoleMappings hit
      simp [huany]
    have hwipeB : ∀ rid, ((u0.id, rid) : String × String) ∉
        rm1.filter (fun p => !(p.1 == u0.id &&
          (((rm1.filter (fun p => p.1 == u0.id)).filterMap
            (fun p => (roles1 ++ added).find? (fun r => r.id == p.2))).map
              (fun r => (r.id, r.name))).any (fun rr => rr.1 == p.2))) := by
      intro rid hmem
      have hp0 : ((u0.id, rid) : String × String) ∈ rm1 := List.mem_of_mem_filter hmem
      have hcond := List.of_mem_filter
        (p := fun p : String × String => !(p.1 == u0.id &&
          (((rm1.filter (fun p => p.1 == u0.id)).filterMap
            (fun p => (roles1 ++ added).find? (fun r => r.id == p.2))).map
              (fun r => (r.id, r.name))).any (fun rr => rr.1 == p.2))) hmem
      have hB := hbody (u0.id, rid) hp0 rfl
      simp only [hB] at hcond
      simp at hcond
    obtain ⟨final, etail, c2, c3⟩ := tail
      (rm1.filter (fun p => !(p.1 == u0.id &&
        (((rm1.filter (fun p => p.1 == u0.id)).filterMap
          (fun p => (roles1 ++ added).find? (fun r => r.id == p.2))).map
            (fun r => (r.id, r.name))).any (fun rr => rr.1 == p.2))))
      (((((([Req.postToken] ++ δ1) ++ δ2) ++ [Req.getUsersByEmail adminEmail]) ++
        [Req.getRoleMappings u0.id]) ++
        [Req.deleteRoleMappings u0.id
          (((rm1.filter (fun p => p.1 == u0.id)).filterMap
            (fun p => (roles1 ++ added).find? (fun r => r.id == p.2))).map
              (fun r => (r.id, r.name)))]))
      hwipeB
    have hro : raiseOk 200 = true := by decide
    have hstep4 : fixUpdateUserRoles adminEmail
        ⟨⟨s.clients, roles1 ++ added, s.scopes, s.mappers, s.groups, s.users,
          s.defaultScopes, rm1, s.userGroups, s.nextId + added.length⟩, [],
          ([Req.postToken] ++ δ1) ++ δ2⟩ = (0, final) := by
      unfold fixUpdateUserRoles
      rw [egetu]
      simp only [egetm, hemp, Bool.false_eq_true, if_false, edel]
      exact etail
    have hrun : fixRolesRun adminEmail (initSys s) = (0, final) := by
      unfold fixRolesRun
      rw [e1]
      simp only [hro, if_true, e2, e3]
      exact hstep4
    refine ⟨by rw [hrun], ?_, ?_⟩
    · rw [hrun]
      exact c2
    · rw [hrun]
      exact c3

/-- Witness for C10 on a stale realm: the run exits 0 and the user's
pre-existing mapping to the unrelated role `r-x` is gone. -/
theorem C10_fix_roles_resets_mappings_witness :
    (fixRolesRun "admin@example.com" (initSys demoFixState)).1 = 0 ∧
    ("u-1", "r-x") ∉
      (fixRolesRun "admin@example.com" (initSys demoFixState)).2.state.roleMappings := by
  have h := C10_fix_roles_resets_mappings "admin@example.com" demoFixState demoUser []
    (by unfold MappingsWF; decide) (by decide)
  refine ⟨h.1, fun hmem => ?_⟩
  have h2 := (h.2.2 "r-x").1 hmem
  exact absurd h2 (by decide)

/-! ## Trace-shape lemmas for the tenant-identifier invariant

Every endpoint records exactly its own request; the only requests that
carry an organization identifier are the user update and the group
creation. -/

theorem hit_trace (sys : Sys) (r : Req) : (hit sys r).2.trace = sys.trace ++ [r] := by
  unfold hit
  split <;> rfl

theorem httpPostToken_trace (sys : Sys) :
    (httpPostToken sys).2.trace = sys.trace ++ [Req.postToken] := by
  unfold httpPostToken
  split
  rename_i f s heq
  have h := hit_trace sys (Req.postToken)
  rw [heq] at h
  repeat (first | exact h | split)

theorem httpGetClients_trace (sys : Sys) (cid : String) :
    (httpGetClients sys cid).2.2.trace = sys.trace ++ [Req.getClients cid] := by
  unfold httpGetClients
  split
  rename_i f s heq
  have h := hit_trace sys (Req.getClients cid)
  rw [heq] at h
  repeat (first | exact h | split)

theorem httpPostClient_trace (sys : Sys) (cid : String) :
    (httpPostClient sys cid).2.trace = sys.trace ++ [Req.postClient cid] := by
  unfold httpPostClient
  split
  rename_i f s heq
  have h := hit_trace sys (Req.postClient cid)
  rw [heq] at h
  repeat (first | exact h | split)

theorem httpGetRole_trace (sys : Sys) (name : String) :
    (httpGetRole sys name).2.2.trace = sys.trace ++ [Req.getRole name] := by
  unfold httpGetRole
  split
  rename_i f s heq
  have h := hit_trace sys (Req.getRole name)
  rw [heq] at h
  repeat (first | exact h | split)

theorem httpPostRole_trace (sys : Sys) (name desc : String) :
    (httpPostRole sys name desc).2.trace = sys.trace ++ [Req.postRole name] := by
  unfold httpPostRole
  split
  rename_i f s heq
  have h := hit_trace sys (Req.postRole name)
  rw [heq] at h
  repeat (first | exact h | split)

theorem httpGetScopes_trace (sys : Sys) :
    (httpGetScopes sys).2.2.trace = sys.trace ++ [Req.getScopes] := by
  unfold httpGetScopes
  split
  rename_i f s heq
  have h := hit_trace sys (Req.getScopes)
  rw [heq] at h
  repeat (first | exact h | split)

theorem httpPostScope_trace (sys : Sys) (name : String) :
    (httpPostScope sys name).2.trace = sys.trace ++ [Req.postScope name] := by
  unfold httpPostScope
  split
  rename_i f s heq
  have h := hit_trace sys (Req.postScope name)
  rw [heq] at h
  repeat (first | exact h | split)

theorem httpGetMappers_trace (sys : Sys) (sid : String) :
    (httpGetMappers sys sid).2.2.trace = sys.trace ++ [Req.getMappers sid] := by
  unfold httpGetMappers
  split
  rename_i f s heq
  have h := hit_trace sys (Req.getMappers sid)
  rw [heq] at h
  repeat (first | exact h | split)

theorem httpPostMapper_trace (sys : Sys) (sid name : String) :
    (httpPostMapper sys sid name).2.trace = sys.trace ++ [Req.postMapper sid name] := by
  unfold httpPostMapper
  split
  rename_i f s heq
  have h := hit_trace sys (Req.postMapper sid name)
  rw [heq] at h
  repeat (first | exact h | split)

theorem httpPutDefaultScope_trace (sys : Sys) (cu sid : String) :
    (httpPutDefaultScope sys cu sid).2.trace =
      sys.trace ++ [Req.putDefaultScope cu sid] := by
  unfold httpPutDefaultScope
  split
  rename_i f s heq
  have h := hit_trace sys (Req.putDefaultScope cu sid)
  rw [heq] at h
  repeat (first | exact h | split)

theorem httpGetUsersByEmail_trace (sys : Sys) (email : String) :
    (httpGetUsersByEmail sys email).2.2.trace =
      sys.trace ++ [Req.getUsersByEmail email] := by
  unfold httpGetUsersByEmail
  split
  rename_i f s heq
  have h := hit_trace sys (Req.getUsersByEmail email)
  rw [heq] at h
  repeat (first | exact h | split)

theorem httpGetUser_trace (sys : Sys) (uid : String) :
    (httpGetUser sys uid).2.2.trace = sys.trace ++ [Req.getUser uid] := by
  unfold httpGetUser
  split
  rename_i f s heq
  have h := hit_trace sys (Req.getUser uid)
  rw [heq] at h
  repeat (first | exact h | split)

theorem httpPutUser_trace (sys : Sys) (uid : String) (body : KcUser) :
    (httpPutUser sys uid body).2.trace = sys.trace ++ [Req.putUser uid body] := by
  unfold httpPutUser
  split
  rename_i f s heq
  have h := hit_trace sys (Req.putUser uid body)
  rw [heq] at h
  repeat (first | exact h | split)

theorem httpGetRoles_trace (sys : Sys) :
    (httpGetRoles sys).2.2.trace = sys.trace ++ [Req.getRoles] := by
  unfold httpGetRoles
  split
  rename_i f s heq
  have h := hit_trace sys (Req.getRoles)
  rw [heq] at h
  repeat (first | exact h | split)

theorem httpPostRoleMappings_trace (sys : Sys) (uid : String)
    (rs : List (String × String)) :
    (httpPostRoleMappings sys uid rs).2.trace =
      sys.trace ++ [Req.postRoleMappings uid rs] := by
  unfold httpPostRoleMappings
  split
  rename_i f s heq
  have h := hit_trace sys (Req.postRoleMappings uid rs)
  rw [heq] at h
  repeat (first | exact h | split)

theorem httpGetGroups_trace (sys : Sys) (search : String) :
    (httpGetGroups sys search).2.2.trace = sys.trace ++ [Req.getGroups search] := by
  unfold httpGetGroups
  split
  rename_i f s heq
  have h := hit_trace sys (Req.getGroups search)
  rw [heq] at h
  repeat (first | exact h | split)

theorem httpPostGroup_trace (sys : Sys) (name : String)
    (attrs : List (String × List String)) :
    (httpPostGroup sys name attrs).2.2.trace =
      sys.trace ++ [Req.postGroup name attrs] := by
  unfold httpPostGroup
  split
  rename_i f s heq
  have h := hit_trace sys (Req.postGroup name attrs)
  rw [heq] at h
  repeat (first | exact h | split)

theorem httpPutUserGroup_trace (sys : Sys) (uid gid : String) :
    (httpPutUserGroup sys uid gid).2.trace =
      sys.trace ++ [Req.putUserGroup uid gid] := by
  unfold httpPutUserGroup
  split
  rename_i f s heq
  have h := hit_trace sys (Req.putUserGroup uid gid)
  rw [heq] at h
  repeat (first | exact h | split)

/-- Appending one request whose organization identifiers are all `u`
preserves the tenant invariant. -/
theorem orgOnly_append (u : String) (tr : List Req) (r : Req)
    (h : OrgOnly u tr) (hr : ∀ v ∈ orgIdsOfReq r, v = u) :
    OrgOnly u (tr ++ [r]) := by
  intro q hq
  rcases List.mem_append.1 hq with hq | hq
  · exact h q hq
  · have e : q = r := List.mem_singleton.1 hq
    subst e
    exact hr

theorem postToken_org (u : String) (sys : Sys) (h : OrgOnly u sys.trace) :
    OrgOnly u (httpPostToken sys).2.trace := by
  rw [httpPostToken_trace]
  exact orgOnly_append u sys.trace _ h (fun v hv => by simp [orgIdsOfReq] at hv)

theorem getClients_org (u : String) (sys : Sys) (cid : String)
    (h : OrgOnly u sys.trace) : OrgOnly u (httpGetClients sys cid).2.2.trace := by
  rw [httpGetClients_trace]
  exact orgOnly_append u sys.trace _ h (fun v hv => by simp [orgIdsOfReq] at hv)

theorem postClient_org (u : String) (sys : Sys) (cid : String)
    (h : OrgOnly u sys.trace) : OrgOnly u (httpPostClient sys cid).2.trace := by
  rw [httpPostClient_trace]
  exact orgOnly_append u sys.trace _ h (fun v hv => by simp [orgIdsOfReq] at hv)

theorem getRole_org (u : String) (sys : Sys) (name : String)
    (h : OrgOnly u sys.trace) : OrgOnly u (httpGetRole sys name).2.2.trace := by
  rw [httpGetRole_trace]
  exact orgOnly_append u sys.trace _ h (fun v hv => by simp [orgIdsOfReq] at hv)

theorem postRole_org (u : String) (sys : Sys) (name desc : String)
    (h : OrgOnly u sys.trace) : OrgOnly u (httpPostRole sys name desc).2.trace := by
  rw [httpPostRole_trace]
  exact orgOnly_append u sys.trace _ h (fun v hv => by simp [orgIdsOfReq] at hv)

theorem getScopes_org (u : String) (sys : Sys)
    (h : OrgOnly u sys.trace) : OrgOnly u (httpGetScopes sys).2.2.trace := by
  rw [httpGetScopes_trace]
  exact orgOnly_append u sys.trace _ h (fun v hv => by simp [orgIdsOfReq] at hv)

theorem postScope_org (u : String) (sys : Sys) (name : String)
    (h : OrgOnly u sys.trace) : OrgOnly u (httpPostScope sys name).2.trace := by
  rw [httpPostScope_trace]
  exact orgOnly_append u sys.trace _ h (fun v hv => by simp [orgIdsOfReq] at hv)

theorem getMappers_org (u : String) (sys : Sys) (sid : String)
    (h : OrgOnly u sys.trace) : OrgOnly u (httpGetMappers sys sid).2.2.trace := by
  rw [httpGetMappers_trace]
  exact orgOnly_append u sys.trace _ h (fun v hv => by simp [orgIdsOfReq] at hv)

theorem postMapper_org (u : String) (sys : Sys) (sid name : String)
    (h : OrgOnly u sys.trace) : OrgOnly u (httpPostMapper sys sid name).2.trace := by
  rw [httpPostMapper_trace]
  exact orgOnly_append u sys.trace _ h (fun v hv => by simp [orgIdsOfReq] at hv)

theorem putDefaultScope_org (u : String) (sys : Sys) (cu sid : String)
    (h : OrgOnly u sys.trace) : OrgOnly u (httpPutDefaultScope sys cu sid).2.trace := by
  rw [httpPutDefaultScope_trace]
  exact orgOnly_append u sys.trace _ h (fun v hv => by simp [orgIdsOfReq] at hv)

theorem getUsersByEmail_org (u : String) (sys : Sys) (email : String)
    (h : OrgOnly u sys.trace) :
    OrgOnly u (httpGetUsersByEmail sys email).2.2.trace := by
  rw [httpGetUsersByEmail_trace]
  exact orgOnly_append u sys.trace _ h (fun v hv => by simp [orgIdsOfReq] at hv)

theorem getUser_org (u : String) (sys : Sys) (uid : String)
    (h : OrgOnly u sys.trace) : OrgOnly u (httpGetUser sys uid).2.2.trace := by
  rw [httpGetUser_trace]
  exact orgOnly_append u sys.trace _ h (fun v hv => by simp [orgIdsOfReq] at hv)

/-- The one user-facing write: its body may carry organization
identifiers, so the invariant asks them all to be the minted value. -/
theorem putUser_org (u : String) (sys : Sys) (uid : String) (body : KcUser)
    (hb : ∀ v ∈ (getA body.attributes "organization_id").getD [], v = u)
    (h : OrgOnly u sys.trace) : OrgOnly u (httpPutUser sys uid body).2.trace := by
  rw [httpPutUser_trace]
  exact orgOnly_append u sys.trace _ h hb

theorem getRoles_org (u : String) (sys : Sys)
    (h : OrgOnly u sys.trace) : OrgOnly u (httpGetRoles sys).2.2.trace := by
  rw [httpGetRoles_trace]
  exact orgOnly_append u sys.trace _ h (fun v hv => by simp [orgIdsOfReq] at hv)

theorem postRoleMappings_org (u : String) (sys : Sys) (uid : String)
    (rs : List (String × String)) (h : OrgOnly u sys.trace) :
    OrgOnly u (httpPostRoleMappings sys uid rs).2.trace := by
  rw [httpPostRoleMappings_trace]
  exact orgOnly_append u sys.trace _ h (fun v hv => by simp [orgIdsOfReq] at hv)

theorem getGroups_org (u : String) (sys : Sys) (search : String)
    (h : OrgOnly u sys.trace) : OrgOnly u (httpGetGroups sys search).2.2.trace := by
  rw [httpGetGroups_trace]
  exact orgOnly_append u sys.trace _ h (fun v hv => by simp [orgIdsOfReq] at hv)

/-- The group-creation write: its attribute payload may carry
organization identifiers. -/
theorem postGroup_org (u : String) (sys : Sys) (name : String)
    (attrs : List (String × List String))
    (hb : ∀ v ∈ (getA attrs "organization_id").getD [], v = u)
    (h : OrgOnly u sys.trace) : OrgOnly u (httpPostGroup sys name attrs).2.2.trace := by
  rw [httpPostGroup_trace]
  exact orgOnly_append u sys.trace _ h hb

theorem putUserGroup_org (u : String) (sys : Sys) (uid gid : String)
    (h : OrgOnly u sys.trace) : OrgOnly u (httpPutUserGroup sys uid gid).2.trace := by
  rw [httpPutUserGroup_trace]
  exact orgOnly_append u sys.trace _ h (fun v hv => by simp [orgIdsOfReq] at hv)

/-! ### The invariant through the multitenant steps -/

theorem get_admin_token_org (u : String) (sys : Sys) (h : OrgOnly u sys.trace) :
    OrgOnly u (KeycloakSetup.get_admin_token sys).2.trace := by
  unfold KeycloakSetup.get_admin_token
  split
  rename_i st s1 heq
  have h1 := postToken_org u sys h
  rw [heq] at h1
  split <;> exact h1

theorem create_client_create_org (u : String) (sys : Sys) (h : OrgOnly u sys.trace) :
    OrgOnly u (KeycloakSetup.create_client_create sys).2.trace := by
  unfold KeycloakSetup.create_client_create
  split
  rename_i st s1 heq
  have h1 := postClient_org u sys CLIENT_ID h
  rw [heq] at h1
  split
  · split
    rename_i st2 cls s2 heq2
    have h2 := getClients_org u s1 CLIENT_ID h1
    rw [heq2] at h2
    split
    · split <;> exact h2
    · exact h2
  · exact h1

theorem create_client_org (u : String) (sys : Sys) (h : OrgOnly u sys.trace) :
    OrgOnly u (KeycloakSetup.create_client sys).2.trace := by
  unfold KeycloakSetup.create_client
  split
  rename_i st cls s1 heq
  have h1 := getClients_org u sys CLIENT_ID h
  rw [heq] at h1
  split
  · split
    · exact h1
    · exact create_client_create_org u s1 h1
  · exact create_client_create_org u s1 h1

theorem create_roles_go_org (u : String) (l : List String) :
    ∀ (b : Bool) (sys : Sys), OrgOnly u sys.trace →
      OrgOnly u (KeycloakSetup.create_roles_go l b sys).2.trace := by
  induction l with
  | nil =>
    intro b sys h
    simp only [KeycloakSetup.create_roles_go]
    exact h
  | cons n rest ih =>
    intro b sys h
    unfold KeycloakSetup.create_roles_go
    split
    rename_i st r s1 heq
    have h1 := getRole_org u sys n h
    rw [heq] at h1
    split
    · exact ih _ _ h1
    · split
      rename_i st2 s2 heq2
      have h2 := postRole_org u s1 n (n ++ " role for Spooliq multi-tenant system") h1
      rw [heq2] at h2
      split
      · exact ih _ _ h2
      · exact ih _ _ h2

theorem create_roles_org (u : String) (sys : Sys) (h : OrgOnly u sys.trace) :
    OrgOnly u (KeycloakSetup.create_roles sys).2.trace :=
  create_roles_go_org u KeycloakSetup.rolesList true sys h

theorem create_client_scope_create_org (u : String) (sys : Sys)
    (h : OrgOnly u sys.trace) :
    OrgOnly u (KeycloakSetup.create_client_scope_create sys).2.trace := by
  unfold KeycloakSetup.create_client_scope_create
  split
  rename_i st s1 heq
  have h1 := postScope_org u sys "organization" h
  rw [heq] at h1
  split
  · split
    rename_i st2 scs s2 heq2
    have h2 := getScopes_org u s1 h1
    rw [heq2] at h2
    split
    · split <;> exact h2
    · exact h2
  · exact h1

theorem create_client_scope_org (u : String) (sys : Sys) (h : OrgOnly u sys.trace) :
    OrgOnly u (KeycloakSetup.create_client_scope sys).2.trace := by
  unfold KeycloakSetup.create_client_scope
  split
  rename_i st scs s1 heq
  have h1 := getScopes_org u sys h
  rw [heq] at h1
  split
  · split
    · exact h1
    · exact create_client_scope_create_org u s1 h1
  · exact create_client_scope_create_org u s1 h1

theorem create_protocol_mapper_org (u : String) (sid : String) (sys : Sys)
    (h : OrgOnly u sys.trace) :
    OrgOnly u (KeycloakSetup.create_protocol_mapper sid sys).2.trace := by
  unfold KeycloakSetup.create_protocol_mapper
  split
  rename_i st ms s1 heq
  have h1 := getMappers_org u sys sid h
  rw [heq] at h1
  split
  · exact h1
  · split
    rename_i st2 s2 heq2
    have h2 := postMapper_org u s1 sid "organization-id-mapper" h1
    rw [heq2] at h2
    split
    · exact h2
    · split <;> exact h2

theorem assign_scope_to_client_org (u : String) (cu sid : String) (sys : Sys)
    (h : OrgOnly u sys.trace) :
    OrgOnly u (KeycloakSetup.assign_scope_to_client cu sid sys).2.trace := by
  unfold KeycloakSetup.assign_scope_to_client
  split
  rename_i st s1 heq
  have h1 := putDefaultScope_org u sys cu sid h
  rw [heq] at h1
  split <;> exact h1

theorem find_user_by_email_org (u : String) (email : String) (sys : Sys)
    (h : OrgOnly u sys.trace) :
    OrgOnly u (KeycloakSetup.find_user_by_email email sys).2.trace := by
  unfold KeycloakSetup.find_user_by_email
  split
  rename_i st us s1 heq
  have h1 := getUsersByEmail_org u sys email h
  rw [heq] at h1
  split
  · split <;> exact h1
  · exact h1

theorem set_user_attribute_org (u uid : String) (sys : Sys)
    (h : OrgOnly u sys.trace) :
    OrgOnly u (KeycloakSetup.set_user_attribute u uid sys).2.trace := by
  unfold KeycloakSetup.set_user_attribute
  split
  rename_i st r s1 heq
  have h1 := getUser_org u sys uid h
  rw [heq] at h1
  split
  · split
    · rename_i user_data
      dsimp only
      have h2 := putUser_org u s1 uid
        { user_data with
          attributes := setA user_data.attributes "organization_id" [u] }
        (by
          intro v hv
          simp only [getA_setA_same, Option.getD_some, List.mem_singleton] at hv
          exact hv)
        h1
      split <;> exact h2
    · exact h1
  · exact h1

theorem assign_roles_to_user_org (u uid : String) (sys : Sys)
    (h : OrgOnly u sys.trace) :
    OrgOnly u (KeycloakSetup.assign_roles_to_user uid sys).2.trace := by
  unfold KeycloakSetup.assign_roles_to_user
  split
  rename_i st all_roles s1 heq
  have h1 := getRoles_org u sys h
  rw [heq] at h1
  split
  · dsimp only
    split
    · have h2 := postRoleMappings_org u s1 uid
        (KeycloakSetup.buildRoleObjects KeycloakSetup.rolesList all_roles) h1
      split <;> exact h2
    · exact h1
  · exact h1

theorem run_org (adminEmail u : String) (sys : Sys) (h : OrgOnly u sys.trace) :
    OrgOnly u (KeycloakSetup.run adminEmail u sys).2.trace := by
  unfold KeycloakSetup.run
  split
  rename_i authOk s1 heq1
  have h1 := get_admin_token_org u sys h
  rw [heq1] at h1
  split
  · split
    · rename_i cu s2 heq2
      have h2 := create_client_org u s1 h1
      rw [heq2] at h2
      split
      rename_i rolesOk s3 heq3
      have h3 := create_roles_org u s2 h2
      rw [heq3] at h3
      split
      · split
        · rename_i sid s4 heq4
          have h4 := create_client_scope_org u s3 h3
          rw [heq4] at h4
          split
          rename_i mOk s5 heq5
          have h5 := create_protocol_mapper_org u sid s4 h4
          rw [heq5] at h5
          split
          · split
            rename_i aOk s6 heq6
            have h6 := assign_scope_to_client_org u cu sid s5 h5
            rw [heq6] at h6
            split
            · split
              · rename_i uid s7 heq7
                have h7 := find_user_by_email_org u adminEmail s6 h6
                rw [heq7] at h7
                split
                rename_i attrOk s8 heq8
                have h8 := set_user_attribute_org u uid s7 h7
                rw [heq8] at h8
                split
                · split
                  rename_i ra s9 heq9
                  have h9 := assign_roles_to_user_org u uid s8 h8
                  rw [heq9] at h9
                  split <;> exact h9
                · exact h8
              · rename_i s7 heq7
                have h7 := find_user_by_email_org u adminEmail s6 h6
                rw [heq7] at h7
                exact h7
            · exact h6
          · exact h5
        · rename_i s4 heq4
          have h4 := create_client_scope_org u s3 h3
          rw [heq4] at h4
          exact h4
      · exact h3
    · rename_i s2 heq2
      have h2 := create_client_org u s1 h1
      rw [heq2] at h2
      exact h2
  · exact h1

/-! ### The invariant through the groups steps -/

theorem groupsEnsureClient_org (u : String) (sys : Sys) (h : OrgOnly u sys.trace) :
    OrgOnly u (groupsEnsureClient sys).2.trace := by
  unfold groupsEnsureClient
  split
  rename_i st cls s1 heq
  have h1 := getClients_org u sys "spooliq" h
  rw [heq] at h1
  split
  · exact h1
  · split
    rename_i st2 s2 heq2
    have h2 := postClient_org u s1 "spooliq" h1
    rw [heq2] at h2
    split
    · split
      rename_i st3 cls2 s3 heq3
      have h3 := getClients_org u s2 "spooliq" h2
      rw [heq3] at h3
      split <;> exact h3
    · exact h2

theorem groupsCreateRoles_org (u : String) (l : List String) :
    ∀ (b : Bool) (sys : Sys), OrgOnly u sys.trace →
      OrgOnly u (groupsCreateRoles l b sys).2.trace := by
  induction l with
  | nil =>
    intro b sys h
    simp only [groupsCreateRoles]
    exact h
  | cons n rest ih =>
    intro b sys h
    unfold groupsCreateRoles
    split
    rename_i st r s1 heq
    have h1 := getRole_org u sys n h
    rw [heq] at h1
    split
    · exact ih _ _ h1
    · split
      rename_i st2 s2 heq2
      have h2 := postRole_org u s1 n (n ++ " role for Spooliq SaaS platform") h1
      rw [heq2] at h2
      split
      · exact ih _ _ h2
      · exact ih _ _ h2

theorem groupsEnsureScope_org (u : String) (sys : Sys) (h : OrgOnly u sys.trace) :
    OrgOnly u (groupsEnsureScope sys).2.trace := by
  unfold groupsEnsureScope
  split
  rename_i st scs s1 heq
  have h1 := getScopes_org u sys h
  rw [heq] at h1
  split
  · exact h1
  · split
    rename_i st2 s2 heq2
    have h2 := postScope_org u s1 "organization" h1
    rw [heq2] at h2
    split
    · split
      rename_i st3 scs2 s3 heq3
      have h3 := getScopes_org u s2 h2
      rw [heq3] at h3
      split <;> exact h3
    · exact h2

theorem groupsEnsureMappers_org (u : String) (sid : String) (sys : Sys)
    (h : OrgOnly u sys.trace) :
    OrgOnly u (groupsEnsureMappers sid sys).trace := by
  unfold groupsEnsureMappers
  split
  rename_i st ms s1 heq
  have h1 := getMappers_org u sys sid h
  rw [heq] at h1
  refine postMapper_org u _ sid "organization-id-from-group" ?_
  split
  · exact h1
  · exact postMapper_org u s1 sid "organization-group-mapper" h1

theorem groupsAssignScope_org (u : String) (cid sid : String) (sys : Sys)
    (h : OrgOnly u sys.trace) :
    OrgOnly u (groupsAssignScope cid sid sys).2.trace := by
  unfold groupsAssignScope
  split
  rename_i st s1 heq
  have h1 := putDefaultScope_org u sys cid sid h
  rw [heq] at h1
  exact h1

theorem groupsEnsureGroup_org (u : String) (sys : Sys) (h : OrgOnly u sys.trace) :
    OrgOnly u (groupsEnsureGroup u sys).2.trace := by
  unfold groupsEnsureGroup
  split
  rename_i st gs s1 heq
  have h1 := getGroups_org u sys "spooliq-platform" h
  rw [heq] at h1
  split
  · exact h1
  · split
    rename_i st2 gid s2 heq2
    have h2 := postGroup_org u s1 "spooliq-platform"
      [("organization_id", [u]), ("company_name", ["Spooliq Platform"])]
      (by
        intro v hv
        simp only [getA, List.find?, List.mem_singleton] at hv
        simpa using hv)
      h1
    rw [heq2] at h2
    split <;> exact h2

theorem groupsFindUser_org (u : String) (email : String) (sys : Sys)
    (h : OrgOnly u sys.trace) :
    OrgOnly u (groupsFindUser email sys).2.trace := by
  unfold groupsFindUser
  split
  rename_i st us s1 heq
  have h1 := getUsersByEmail_org u sys email h
  rw [heq] at h1
  split <;> exact h1

theorem groupsAddUserToGroup_org (u : String) (uid gid : String) (sys : Sys)
    (h : OrgOnly u sys.trace) :
    OrgOnly u (groupsAddUserToGroup uid gid sys).trace := by
  unfold groupsAddUserToGroup
  exact putUserGroup_org u sys uid gid h

theorem groupsSetUserAttr_org (u : String) (uid : String) (sys : Sys)
    (h : OrgOnly u sys.trace) :
    OrgOnly u (groupsSetUserAttr u uid sys).trace := by
  unfold groupsSetUserAttr
  split
  rename_i st r s1 heq
  have h1 := getUser_org u sys uid h
  rw [heq] at h1
  split
  · rename_i user_data
    exact putUser_org u s1 uid
      { user_data with
        attributes := setA user_data.attributes "organization_id" [u] }
      (by
        intro v hv
        simp only [getA_setA_same, Option.getD_some, List.mem_singleton] at hv
        exact hv)
      h1
  · exact h1

theorem collectAvailableRoles_org (u : String) (l : List String) :
    ∀ (acc : List (String × String)) (sys : Sys), OrgOnly u sys.trace →
      OrgOnly u (collectAvailableRoles l acc sys).2.trace := by
  induction l with
  | nil =>
    intro acc sys h
    simp only [collectAvailableRoles]
    exact h
  | cons n rest ih =>
    intro acc sys h
    unfold collectAvailableRoles
    split
    rename_i st r s1 heq
    have h1 := getRole_org u sys n h
    rw [heq] at h1
    split
    · split
      · exact ih _ _ h1
      · exact ih _ _ h1
    · exact ih _ _ h1

theorem groupsAssignRoles_org (u : String) (uid : String) (sys : Sys)
    (h : OrgOnly u sys.trace) :
    OrgOnly u (groupsAssignRoles uid sys).2.trace := by
  unfold groupsAssignRoles
  split
  rename_i avail s1 heq
  have h1 := collectAvailableRoles_org u groupsRolesList [] sys h
  rw [heq] at h1
  split
  rename_i st2 s2 heq2
  have h2 := postRoleMappings_org u s1 uid avail h1
  rw [heq2] at h2
  exact h2

theorem groupsRun_org (u : String) (sys : Sys) (h : OrgOnly u sys.trace) :
    OrgOnly u (groupsRun u sys).2.trace := by
  unfold groupsRun
  split
  rename_i st s1 heq1
  have h1 := postToken_org u sys h
  rw [heq1] at h1
  split
  · split
    · rename_i cid s2 heq2
      have h2 := groupsEnsureClient_org u s1 h1
      rw [heq2] at h2
      split
      rename_i rolesOk s3 heq3
      have h3 := groupsCreateRoles_org u groupsRolesList true s2 h2
      rw [heq3] at h3
      split
      · rename_i sid s4 heq4
        have h4 := groupsEnsureScope_org u s3 h3
        rw [heq4] at h4
        have h6 := groupsAssignScope_org u cid sid (groupsEnsureMappers sid s4)
          (groupsEnsureMappers_org u sid s4 h4)
        dsimp only
        split
        · rename_i gid s7 heq7
          have h7 := groupsEnsureGroup_org u
            (groupsAssignScope cid sid (groupsEnsureMappers sid s4)).2 h6
          rw [heq7] at h7
          split
          · rename_i uid s8 heq8
            have h8 := groupsFindUser_org u GROUPS_ADMIN_EMAIL s7 h7
            rw [heq8] at h8
            have h10 := groupsSetUserAttr_org u uid (groupsAddUserToGroup uid gid s8)
              (groupsAddUserToGroup_org u uid gid s8 h8)
            exact groupsAssignRoles_org u uid
              (groupsSetUserAttr u uid (groupsAddUserToGroup uid gid s8)) h10
          · rename_i s8 heq8
            have h8 := groupsFindUser_org u GROUPS_ADMIN_EMAIL s7 h7
            rw [heq8] at h8
            exact h8
        · rename_i s7 heq7
          have h7 := groupsEnsureGroup_org u
            (groupsAssignScope cid sid (groupsEnsureMappers sid s4)).2 h6
          rw [heq7] at h7
          exact h7
      · rename_i s4 heq4
        have h4 := groupsEnsureScope_org u s3 h3
        rw [heq4] at h4
        exact h4
    · rename_i s2 heq2
      have h2 := groupsEnsureClient_org u s1 h1
      rw [heq2] at h2
      exact h2
  · exact h1

/-! ## Lemmas for the idempotence analysis -/

/-- `set_user_attribute` under a unique user id: the exact equation (GET
the representation, overwrite one attribute, PUT it back). -/
theorem set_user_attribute_ok (sys : Sys) (uuid uid : String) (u0 : KcUser)
    (hf : sys.faults = [])
    (hu : sys.state.users.find? (fun x => x.id == uid) = some u0) :
    KeycloakSetup.set_user_attribute uuid uid sys =
      (true, { sys with
        state := { sys.state with users := sys.state.users.map (fun x =>
          if x.id == uid then
            { u0 with attributes := setA u0.attributes "organization_id" [uuid] }
          else x) },
        trace := sys.trace ++ [Req.getUser uid,
          Req.putUser uid
            { u0 with attributes := setA u0.attributes "organization_id" [uuid] }] }) := by
  have hmem : u0 ∈ sys.state.users := List.mem_of_find?_eq_some hu
  have hbeq : (u0.id == uid) = true :=
    List.find?_some (p := fun x : KcUser => x.id == uid) hu
  have hany : sys.state.users.any (fun x => x.id == uid) = true :=
    List.any_eq_true.2 ⟨u0, hmem, hbeq⟩
  unfold KeycloakSetup.set_user_attribute httpGetUser httpPutUser hit
  simp [hf, hu, hany, raiseOk]

/-- Filtering after mapping, when the map preserves the predicate
pointwise: the first match of the mapped list is the image of the first
match. -/
theorem filter_head_map {α : Type} (l : List α) (f : α → α) (p : α → Bool)
    (h : ∀ x ∈ l, p (f x) = p x) :
    ((l.map f).filter p).head? = ((l.filter p).head?).map f := by
  induction l with
  | nil => rfl
  | cons a as ih =>
    simp only [List.map_cons]
    by_cases hp : p a = true
    · rw [List.filter_cons_of_pos (by rw [h a (List.mem_cons_self a as)]; exact hp),
        List.filter_cons_of_pos hp]
      rfl
    · have hpf : ¬ p (f a) = true := by
        rw [h a (List.mem_cons_self a as)]; exact hp
      rw [List.filter_cons_of_neg hpf, List.filter_cons_of_neg hp]
      exact ih (fun x hx => h x (List.mem_cons_of_mem a hx))

/-- Under unique server-assigned ids, an id match identifies the user. -/
theorem eq_of_id_of_nodup (users : List KcUser)
    (hnd : (users.map (fun u => u.id)).Nodup) (u0 : KcUser) (hu0 : u0 ∈ users) :
    ∀ x ∈ users, (x.id == u0.id) = true → x = u0 := by
  induction users with
  | nil => intro x hx; cases hx
  | cons u us ih =>
    simp only [List.map_cons, List.nodup_cons] at hnd
    intro x hx hbeq
    have hxid : x.id = u0.id := eq_of_beq hbeq
    rcases List.mem_cons.1 hx with hxu | hxus
    · rcases List.mem_cons.1 hu0 with hu | hus
      · rw [hxu, hu]
      · have h1 : u0.id ∈ us.map (fun y => y.id) :=
          List.mem_map_of_mem (fun y => y.id) hus
        rw [← hxid, hxu] at h1
        exact absurd h1 hnd.1
    · rcases List.mem_cons.1 hu0 with hu | hus
      · have h1 : x.id ∈ us.map (fun y => y.id) :=
          List.mem_map_of_mem (fun y => y.id) hxus
        rw [hxid, hu] at h1
        exact absurd h1 hnd.1
      · exact ih hnd.2 hus x hxus hbeq

/-- A state whose first matching user already carries the attribute is a
fixpoint of the attribute step's net effect. -/
theorem stateAttrSet_fix (e u : String) (s : KcState) (u0 : KcUser)
    (hu : (s.users.filter (fun x => x.email == e)).head? = some u0)
    (hid : ∀ x ∈ s.users, (x.id == u0.id) = true → x = u0)
    (hattr : setA u0.attributes "organization_id" [u] = u0.attributes) :
    stateAttrSet e u s = s := by
  unfold stateAttrSet
  rw [hu]
  have h1 : ({ u0 with attributes := setA u0.attributes "organization_id" [u] } :
      KcUser) = u0 := by
    rw [hattr]
  simp only [h1]
  rw [map_replace_self s.users (fun x => x.id == u0.id) u0 hid]

/-- The attribute step's net effect never touches a non-user
collection. -/
theorem stateAttrSet_frame (e u : String) (s : KcState) :
    (stateAttrSet e u s).clients = s.clients ∧
    (stateAttrSet e u s).roles = s.roles ∧
    (stateAttrSet e u s).scopes = s.scopes ∧
    (stateAttrSet e u s).mappers = s.mappers ∧
    (stateAttrSet e u s).groups = s.groups ∧
    (stateAttrSet e u s).defaultScopes = s.defaultScopes ∧
    (stateAttrSet e u s).roleMappings = s.roleMappings ∧
    (stateAttrSet e u s).userGroups = s.userGroups ∧
    (stateAttrSet e u s).nextId = s.nextId := by
  unfold stateAttrSet
  split <;> exact ⟨rfl, rfl, rfl, rfl, rfl, rfl, rfl, rfl, rfl⟩

/-- A fault-free run against a provisioned state with unique user ids
succeeds, and its only net state change is the user-attribute
overwrite. -/
theorem run_provisioned (adminEmail u : String) (s : KcState)
    (hwf : UsersWF s) (hp : Provisioned adminEmail s) :
    (KeycloakSetup.run adminEmail u (initSys s)).1 = true ∧
    (KeycloakSetup.run adminEmail u (initSys s)).2.state =
      stateAttrSet adminEmail u s := by
  obtain ⟨c, u0h, sc, hc, hroles, hsco, hm, hds, hu, hrm⟩ := hp
  obtain ⟨r1, h1⟩ := Option.isSome_iff_exists.1
    (hroles "PlatformAdmin" (by simp [KeycloakSetup.rolesList]))
  obtain ⟨r2, h2⟩ := Option.isSome_iff_exists.1
    (hroles "OrgAdmin" (by simp [KeycloakSetup.rolesList]))
  obtain ⟨r3, h3⟩ := Option.isSome_iff_exists.1
    (hroles "User" (by simp [KeycloakSetup.rolesList]))
  rcases hcl : s.clients.filter (fun x => x.clientId == CLIENT_ID) with _ | ⟨c0, cs⟩
  · rw [hcl] at hc; cases hc
  rcases hus : s.users.filter (fun x => x.email == adminEmail) with _ | ⟨u0, uss⟩
  · rw [hus] at hu; cases hu
  rw [hcl] at hc
  simp only [List.head?_cons, Option.some.injEq] at hc
  rw [← hc] at hds
  rw [hus] at hu
  simp only [List.head?_cons, Option.some.injEq] at hu
  rw [← hu] at hrm
  have hcmem : c0 ∈ s.clients :=
    List.mem_of_mem_filter (by rw [hcl]; exact List.mem_cons_self c0 cs)
  have hcany : s.clients.any (fun x => x.id == c0.id) = true :=
    List.any_eq_true.2 ⟨c0, hcmem, by simp⟩
  have hscany : s.scopes.any (fun x => x.id == sc.id) = true :=
    List.any_eq_true.2 ⟨sc, List.mem_of_find?_eq_some hsco, by simp⟩
  have humem : u0 ∈ s.users :=
    List.mem_of_mem_filter (by rw [hus]; exact List.mem_cons_self u0 uss)
  have hfind : s.users.find? (fun x => x.id == u0.id) = some u0 :=
    find?_id_of_nodup s.users u0 hwf humem
  have e1 : KeycloakSetup.get_admin_token (initSys s) =
      (true, ⟨s, [], [Req.postToken]⟩) :=
    get_admin_token_noFault (initSys s) rfl
  have e2 : KeycloakSetup.create_client ⟨s, [], [Req.postToken]⟩ =
      (some c0.id, ⟨s, [], [Req.postToken, Req.getClients CLIENT_ID]⟩) :=
    create_client_found ⟨s, [], [Req.postToken]⟩ c0 cs rfl hcl
  have e3 : KeycloakSetup.create_roles
        ⟨s, [], [Req.postToken, Req.getClients CLIENT_ID]⟩ =
      (true, ⟨s, [], [Req.postToken, Req.getClients CLIENT_ID,
        Req.getRole "PlatformAdmin", Req.getRole "OrgAdmin", Req.getRole "User"]⟩) :=
    create_roles_found _ r1 r2 r3 rfl h1 h2 h3
  have e4 : KeycloakSetup.create_client_scope
        ⟨s, [], [Req.postToken, Req.getClients CLIENT_ID,
          Req.getRole "PlatformAdmin", Req.getRole "OrgAdmin", Req.getRole "User"]⟩ =
      (some sc.id, ⟨s, [], [Req.postToken, Req.getClients CLIENT_ID,
        Req.getRole "PlatformAdmin", Req.getRole "OrgAdmin", Req.getRole "User",
        Req.getScopes]⟩) :=
    create_client_scope_found _ sc rfl hsco
  have e5 : KeycloakSetup.create_protocol_mapper sc.id
        ⟨s, [], [Req.postToken, Req.getClients CLIENT_ID,
          Req.getRole "PlatformAdmin", Req.getRole "OrgAdmin", Req.getRole "User",
          Req.getScopes]⟩ =
      (true, ⟨s, [], [Req.postToken, Req.getClients CLIENT_ID,
        Req.getRole "PlatformAdmin", Req.getRole "OrgAdmin", Req.getRole "User",
        Req.getScopes, Req.getMappers sc.id]⟩) :=
    create_protocol_mapper_found _ sc.id rfl hscany hm
  have e6 : KeycloakSetup.assign_scope_to_client c0.id sc.id
        ⟨s, [], [Req.postToken, Req.getClients CLIENT_ID,
          Req.getRole "PlatformAdmin", Req.getRole "OrgAdmin", Req.getRole "User",
          Req.getScopes, Req.getMappers sc.id]⟩ =
      (true, ⟨s, [], [Req.postToken, Req.getClients CLIENT_ID,
        Req.getRole "PlatformAdmin", Req.getRole "OrgAdmin", Req.getRole "User",
        Req.getScopes, Req.getMappers sc.id,
        Req.putDefaultScope c0.id sc.id]⟩) := by
    rw [assign_scope_noFault _ c0.id sc.id rfl hcany hscany]
    have hmem : (c0.id, sc.id) ∈ s.defaultScopes := by simpa using hds
    simp [hds, hmem]
  have e7 : KeycloakSetup.find_user_by_email adminEmail
        ⟨s, [], [Req.postToken, Req.getClients CLIENT_ID,
          Req.getRole "PlatformAdmin", Req.getRole "OrgAdmin", Req.getRole "User",
          Req.getScopes, Req.getMappers sc.id,
          Req.putDefaultScope c0.id sc.id]⟩ =
      (some u0.id, ⟨s, [], [Req.postToken, Req.getClients CLIENT_ID,
        Req.getRole "PlatformAdmin", Req.getRole "OrgAdmin", Req.getRole "User",
        Req.getScopes, Req.getMappers sc.id, Req.putDefaultScope c0.id sc.id,
        Req.getUsersByEmail adminEmail]⟩) :=
    find_user_found _ adminEmail u0 uss rfl hus
  have e8 : KeycloakSetup.set_user_attribute u u0.id
        ⟨s, [], [Req.postToken, Req.getClients CLIENT_ID,
          Req.getRole "PlatformAdmin", Req.getRole "OrgAdmin", Req.getRole "User",
          Req.getScopes, Req.getMappers sc.id, Req.putDefaultScope c0.id sc.id,
          Req.getUsersByEmail adminEmail]⟩ =
      (true, ⟨{ s with users := s.users.map (fun x =>
          if x.id == u0.id then
            { u0 with attributes := setA u0.attributes "organization_id" [u] }
          else x) }, [],
        [Req.postToken, Req.getClients CLIENT_ID,
         Req.getRole "PlatformAdmin", Req.getRole "OrgAdmin", Req.getRole "User",
         Req.getScopes, Req.getMappers sc.id, Req.putDefaultScope c0.id sc.id,
         Req.getUsersByEmail adminEmail, Req.getUser u0.id,
         Req.putUser u0.id
           { u0 with attributes := setA u0.attributes "organization_id" [u] }]⟩) :=
    set_user_attribute_ok _ u u0.id u0 rfl hfind
  have hany7 : (s.users.map (fun x =>
      if x.id == u0.id then
        { u0 with attributes := setA u0.attributes "organization_id" [u] }
      else x)).any (fun x => x.id == u0.id) = true := by
    rw [List.any_eq_true]
    refine ⟨{ u0 with attributes := setA u0.attributes "organization_id" [u] },
      ?_, by simp⟩
    have hmm := List.mem_map_of_mem (fun x : KcUser =>
      if x.id == u0.id then
        { u0 with attributes := setA u0.attributes "organization_id" [u] }
      else x) humem
    simpa using hmm
  have e9 := assign_roles_noFault
    ⟨{ s with users := s.users.map (fun x =>
        if x.id == u0.id then
          { u0 with attributes := setA u0.attributes "organization_id" [u] }
        else x) }, [],
      [Req.postToken, Req.getClients CLIENT_ID,
       Req.getRole "PlatformAdmin", Req.getRole "OrgAdmin", Req.getRole "User",
       Req.getScopes, Req.getMappers sc.id, Req.putDefaultScope c0.id sc.id,
       Req.getUsersByEmail adminEmail, Req.getUser u0.id,
       Req.putUser u0.id
         { u0 with attributes := setA u0.attributes "organization_id" [u] }]⟩
    u0.id r1 r2 r3 rfl h1 h2 h3 hany7
  have hrun : KeycloakSetup.run adminEmail u (initSys s) =
      (true, ⟨{ s with
          users := s.users.map (fun x =>
            if x.id == u0.id then
              { u0 with attributes := setA u0.attributes "organization_id" [u] }
            else x),
          roleMappings :=
            [(r1.id, r1.name), (r2.id, r2.name), (r3.id, r3.name)].foldl
              (fun acc rr =>
                if acc.contains (u0.id, rr.1) then acc else acc ++ [(u0.id, rr.1)])
              s.roleMappings }, [],
        [Req.postToken, Req.getClients CLIENT_ID,
         Req.getRole "PlatformAdmin", Req.getRole "OrgAdmin", Req.getRole "User",
         Req.getScopes, Req.getMappers sc.id, Req.putDefaultScope c0.id sc.id,
         Req.getUsersByEmail adminEmail, Req.getUser u0.id,
         Req.putUser u0.id
           { u0 with attributes := setA u0.attributes "organization_id" [u] },
         Req.getRoles,
         Req.postRoleMappings u0.id
           [(r1.id, r1.name), (r2.id, r2.name), (r3.id, r3.name)]]⟩) := by
    unfold KeycloakSetup.run
    rw [e1]
    simp only [e2, e3, e4, e5, e6, e7, e8, e9, if_true]
    rfl
  have hhd : (s.users.filter (fun x => x.email == adminEmail)).head? = some u0 := by
    rw [hus]; rfl
  have hsas : stateAttrSet adminEmail u s =
      { s with users := s.users.map (fun x =>
          if x.id == u0.id then
            { u0 with attributes := setA u0.attributes "organization_id" [u] }
          else x) } := by
    unfold stateAttrSet
    rw [hhd]
  have hfold : [(r1.id, r1.name), (r2.id, r2.name), (r3.id, r3.name)].foldl
      (fun acc rr =>
        if acc.contains (u0.id, rr.1) then acc else acc ++ [(u0.id, rr.1)])
      s.roleMappings = s.roleMappings := by
    apply foldl_addPairs_id
    intro rr hrr
    have hmemrm : (u0.id, rr.1) ∈ s.roleMappings := by
      apply hrm
      rw [buildRoleObjects_eq s.roles r1 r2 r3 h1 h2 h3]
      exact hrr
    simpa using hmemrm
  refine ⟨by rw [hrun], ?_⟩
  rw [hrun, hsas]
  show ({ s with
      users := s.users.map (fun x =>
        if x.id == u0.id then
          { u0 with attributes := setA u0.attributes "organization_id" [u] }
        else x),
      roleMappings :=
        [(r1.id, r1.name), (r2.id, r2.name), (r3.id, r3.name)].foldl
          (fun acc rr =>
            if acc.contains (u0.id, rr.1) then acc else acc ++ [(u0.id, rr.1)])
          s.roleMappings } : KcState) = _
  rw [hfold]

/-- A fault-free successful run leaves the realm provisioned, keeps user
ids unique, and leaves the admin user's `organization_id` attribute
already holding the minted value — so the attribute step's net effect
fixes the final state. -/
theorem run_success_provisions (adminEmail u : String) (s : KcState)
    (hwf : UsersWF s)
    (hs : (KeycloakSetup.run adminEmail u (initSys s)).1 = true) :
    Provisioned adminEmail ((KeycloakSetup.run adminEmail u (initSys s)).2.state) ∧
    UsersWF ((KeycloakSetup.run adminEmail u (initSys s)).2.state) ∧
    stateAttrSet adminEmail u
        ((KeycloakSetup.run adminEmail u (initSys s)).2.state) =
      (KeycloakSetup.run adminEmail u (initSys s)).2.state := by
  obtain ⟨st6, tr6, cu, sid, c, sc, r1, r2, r3, husers, hrmeq, hgr, hug, hhead, hcid,
    h1, h2, h3, hsc, hscid, hmap, hds, htr, hrun⟩ :=
    run_through_assign_noFault adminEmail u s
  rcases hflt : st6.users.filter (fun x => x.email == adminEmail) with _ | ⟨u0, uss⟩
  · have e7 := find_user_empty ⟨st6, [], tr6⟩ adminEmail rfl hflt
    simp only [e7] at hrun
    rw [hrun] at hs
    simp at hs
  · have hu0mem6 : u0 ∈ st6.users :=
      List.mem_of_mem_filter (by rw [hflt]; exact List.mem_cons_self u0 uss)
    have hnd6 : (st6.users.map (fun x => x.id)).Nodup := by
      rw [husers]; exact hwf
    have hfind6 : st6.users.find? (fun x => x.id == u0.id) = some u0 :=
      find?_id_of_nodup st6.users u0 hnd6 hu0mem6
    have e7 : KeycloakSetup.find_user_by_email adminEmail ⟨st6, [], tr6⟩ =
        (some u0.id, ⟨st6, [], tr6 ++ [Req.getUsersByEmail adminEmail]⟩) :=
      find_user_found _ adminEmail u0 uss rfl hflt
    have e8 : KeycloakSetup.set_user_attribute u u0.id
          ⟨st6, [], tr6 ++ [Req.getUsersByEmail adminEmail]⟩ =
        (true, ⟨{ st6 with users := st6.users.map (fun x =>
            if x.id == u0.id then
              { u0 with attributes := setA u0.attributes "organization_id" [u] }
            else x) }, [],
          (tr6 ++ [Req.getUsersByEmail adminEmail]) ++ [Req.getUser u0.id,
            Req.putUser u0.id
              { u0 with attributes := setA u0.attributes "organization_id" [u] }]⟩) :=
      set_user_attribute_ok _ u u0.id u0 rfl hfind6
    have hany7 : (st6.users.map (fun x =>
        if x.id == u0.id then
          { u0 with attributes := setA u0.attributes "organization_id" [u] }
        else x)).any (fun x => x.id == u0.id) = true := by
      rw [List.any_eq_true]
      refine ⟨{ u0 with attributes := setA u0.attributes "organization_id" [u] },
        ?_, by simp⟩
      have hmm := List.mem_map_of_mem (fun x : KcUser =>
        if x.id == u0.id then
          { u0 with attributes := setA u0.attributes "organization_id" [u] }
        else x) hu0mem6
      simpa using hmm
    have e9 := assign_roles_noFault
      ⟨{ st6 with users := st6.users.map (fun x =>
          if x.id == u0.id then
            { u0 with attributes := setA u0.attributes "organization_id" [u] }
          else x) }, [],
        (tr6 ++ [Req.getUsersByEmail adminEmail]) ++ [Req.getUser u0.id,
          Req.putUser u0.id
            { u0 with attributes := setA u0.attributes "organization_id" [u] }]⟩
      u0.id r1 r2 r3 rfl h1 h2 h3 hany7
    simp only [e7, e8, e9, if_true] at hrun
    have hfin : (KeycloakSetup.run adminEmail u (initSys s)).2.state =
        { st6 with
          users := st6.users.map (fun x =>
            if x.id == u0.id then
              { u0 with attributes := setA u0.attributes "organization_id" [u] }
            else x),
          roleMappings :=
            [(r1.id, r1.name), (r2.id, r2.name), (r3.id, r3.name)].foldl
              (fun acc rr =>
                if acc.contains (u0.id, rr.1) then acc else acc ++ [(u0.id, rr.1)])
              st6.roleMappings } := by
      rw [hrun]
    have hemail : ∀ x ∈ st6.users, ((if x.id == u0.id then
        { u0 with attributes := setA u0.attributes "organization_id" [u] }
      else x).email == adminEmail) = (x.email == adminEmail) := by
      intro x hx
      by_cases hxid : (x.id == u0.id) = true
      · have hx0 : x = u0 := eq_of_id_of_nodup st6.users hnd6 u0 hu0mem6 x hx hxid
        subst hx0
        rw [if_pos hxid]
      · rw [if_neg hxid]
    have hhd8 : ((st6.users.map (fun x =>
        if x.id == u0.id then
          { u0 with attributes := setA u0.attributes "organization_id" [u] }
        else x)).filter (fun x => x.email == adminEmail)).head? =
        some { u0 with attributes := setA u0.attributes "organization_id" [u] } := by
      rw [filter_head_map st6.users _ (fun x => x.email == adminEmail) hemail, hflt]
      simp
    have hmem8 : ({ u0 with
        attributes := setA u0.attributes "organization_id" [u] } : KcUser) ∈
        st6.users.map (fun x =>
          if x.id == u0.id then
            { u0 with attributes := setA u0.attributes "organization_id" [u] }
          else x) := by
      have hmm := List.mem_map_of_mem (fun x : KcUser =>
        if x.id == u0.id then
          { u0 with attributes := setA u0.attributes "organization_id" [u] }
        else x) hu0mem6
      simpa using hmm
    have hwf8 : ((st6.users.map (fun x =>
        if x.id == u0.id then
          { u0 with attributes := setA u0.attributes "organization_id" [u] }
        else x)).map (fun y => y.id)).Nodup := by
      have hcomp : (st6.users.map (fun x =>
          if x.id == u0.id then
            { u0 with attributes := setA u0.attributes "organization_id" [u] }
          else x)).map (fun y => y.id) = st6.users.map (fun y => y.id) := by
        rw [List.map_map]
        apply List.map_congr_left
        intro x hx
        by_cases hxid : (x.id == u0.id) = true
        · simp only [Function.comp, if_pos hxid]
          exact (eq_of_beq hxid).symm
        · simp only [Function.comp, if_neg hxid]
      rw [hcomp]
      exact hnd6
    rw [hfin]
    refine ⟨⟨c, { u0 with attributes := setA u0.attributes "organization_id" [u] },
      sc, ?_, ?_, ?_, ?_, ?_, ?_, ?_⟩, ?_, ?_⟩
    · exact hhead
    · intro n hn
      simp only [KeycloakSetup.rolesList, List.mem_cons, List.not_mem_nil,
        or_false] at hn
      rcases hn with rfl | rfl | rfl
      · exact Option.isSome_iff_exists.2 ⟨r1, h1⟩
      · exact Option.isSome_iff_exists.2 ⟨r2, h2⟩
      · exact Option.isSome_iff_exists.2 ⟨r3, h3⟩
    · exact hsc
    · rw [hscid]
      exact hmap
    · rw [hcid, hscid]
      exact hds
    · exact hhd8
    · intro rr hrr
      have hrr6 : rr ∈ KeycloakSetup.buildRoleObjects KeycloakSetup.rolesList
          st6.roles := hrr
      rw [buildRoleObjects_eq st6.roles r1 r2 r3 h1 h2 h3] at hrr6
      exact mem_foldl_addPairs u0.id
        [(r1.id, r1.name), (r2.id, r2.name), (r3.id, r3.name)]
        st6.roleMappings rr hrr6
    · exact hwf8
    · apply stateAttrSet_fix adminEmail u _
        { u0 with attributes := setA u0.attributes "organization_id" [u] }
      · exact hhd8
      · exact eq_of_id_of_nodup _ hwf8 _ hmem8
      · show setA (setA u0.attributes "organization_id" [u]) "organization_id" [u] =
          setA u0.attributes "organization_id" [u]
        exact setA_setA u0.attributes "organization_id" [u] [u]

/-! ## Claim theorems: simple claims -/

/-- C5: if the initial token request to the master-realm token endpoint
fails, the multitenant run stops immediately — the final trace extends
the initial one by exactly the single token request (zero admin-API
calls, no authentication retry), the run result is `False`, and the
process exit code is 1. -/
theorem C5_auth_failure_aborts_run (adminEmail orgUuid : String) (sys : Sys)
    (h : sys.faults.contains Req.postToken = true) :
    KeycloakSetup.run adminEmail orgUuid sys =
      (false, { sys with faults := sys.faults.erase Req.postToken,
                         trace := sys.trace ++ [Req.postToken] }) ∧
    KeycloakSetup.mainExit adminEmail orgUuid sys = 1 := by
  have hrun : KeycloakSetup.run adminEmail orgUuid sys =
      (false, { sys with faults := sys.faults.erase Req.postToken,
                         trace := sys.trace ++ [Req.postToken] }) := by
    unfold KeycloakSetup.run KeycloakSetup.get_admin_token httpPostToken hit
    rw [if_pos h]
    simp [raiseOk]
  refine ⟨hrun, ?_⟩
  unfold KeycloakSetup.mainExit
  rw [hrun]
  simp

/-- Witness for C5 at a concrete input: an otherwise healthy realm whose
token endpoint fails once. -/
theorem C5_auth_failure_aborts_run_witness :
    KeycloakSetup.run "admin@example.com" "org-A" ⟨demoState, [Req.postToken], []⟩ =
      (false, ⟨demoState, [], [Req.postToken]⟩) ∧
    KeycloakSetup.mainExit "admin@example.com" "org-A" ⟨demoState, [Req.postToken], []⟩ = 1 := by
  have := C5_auth_failure_aborts_run "admin@example.com" "org-A"
    ⟨demoState, [Req.postToken], []⟩ (by decide)
  simpa using this

/-- C1 counterexample: over an empty realm holding only the admin user,
a first run (organization uuid `"org-A"`) succeeds; the second run,
which mints a fresh organization uuid (`"org-B"`), also succeeds, but
the final remote state differs from the state after the first run — the
user's `organization_id` attribute has been overwritten — so the claimed
state equality fails. -/
theorem C1_counterexample :
    (KeycloakSetup.run "admin@example.com" "org-A" (initSys demoState)).1 = true ∧
    (KeycloakSetup.run "admin@example.com" "org-B" (initSys demoProvisioned)).1 = true ∧
    (KeycloakSetup.run "admin@example.com" "org-B"
      (initSys demoProvisioned)).2.state ≠ demoProvisioned := by
  decide

/-- C3 counterexample: in the multitenant script, with the `User` realm
role already present and its existence lookup failing once (a 500), the
role creation POST is issued and answered 409 by the server (the role
exists); `create_roles` then marks the run failed — the run aborts and
the role-assignment request is never issued, contradicting the claimed
conflict normalization. -/
theorem C3_counterexample :
    (KeycloakSetup.run "admin@example.com" "org-A"
        ⟨demoStateWithUserRole, [Req.getRole "User"], []⟩).1 = false ∧
    (KeycloakSetup.run "admin@example.com" "org-A"
        ⟨demoStateWithUserRole, [Req.getRole "User"], []⟩).2.trace.contains
      (Req.postRole "User") = true ∧
    demoStateWithUserRole.roles.any (fun r => r.name == "User") = true ∧
    (KeycloakSetup.run "admin@example.com" "org-A"
        ⟨demoStateWithUserRole, [Req.getRole "User"], []⟩).2.trace.any
      isPostRoleMappings = false := by
  decide

/-- C4 counterexample: in the groups script, a realm-role creation
answered with an unrecoverable 500 only prints a warning — the pipeline
continues (the scope listing of the next step is issued) and the process
exits 0, contradicting the claimed universal fail-fast policy. -/
theorem C4_counterexample :
    (groupsRun "org-A" ⟨demoGroupsState, [Req.postRole "OrgAdmin"], []⟩).1.exitCode = 0 ∧
    (groupsRun "org-A" ⟨demoGroupsState, [Req.postRole "OrgAdmin"], []⟩).1.rolesOk = false ∧
    (groupsRun "org-A" ⟨demoGroupsState, [Req.postRole "OrgAdmin"], []⟩).2.trace.contains
      (Req.postRole "OrgAdmin") = true ∧
    (groupsRun "org-A" ⟨demoGroupsState, [Req.postRole "OrgAdmin"], []⟩).2.trace.contains
      Req.getScopes = true := by
  decide

/-- C7 counterexample: the multitenant `assign_scope_to_client`, issued
for ids the server does not know, receives a 404 — and reports failure
(`False`, which aborts the run), contradicting the claim that the
operation treats 404 as success. -/
theorem C7_counterexample :
    (httpPutDefaultScope (initSys demoState) "c-none" "s-none").1 = 404 ∧
    KeycloakSetup.assign_scope_to_client "c-none" "s-none" (initSys demoState) =
      (false, ⟨demoState, [], [Req.putDefaultScope "c-none" "s-none"]⟩) := by
  decide

/-- C7 amended: only the groups script's scope assignment treats both
204 (both ids exist — the link is ensured) and 404 (client or scope
missing) as success, and any other status (here a 500) as a warned
failure; the multitenant `assign_scope_to_client` treats only non-error
statuses as success, so its 404 outcome is a failure. -/
theorem C7_amended (sys : Sys) (cid sid : String) (hf : sys.faults = []) :
    ((sys.state.clients.any (fun c => c.id == cid) &&
        sys.state.scopes.any (fun s => s.id == sid)) = true →
      (groupsAssignScope cid sid sys).1 = true ∧
      (KeycloakSetup.assign_scope_to_client cid sid sys).1 = true) ∧
    ((sys.state.clients.any (fun c => c.id == cid) &&
        sys.state.scopes.any (fun s => s.id == sid)) = false →
      (groupsAssignScope cid sid sys).1 = true ∧
      (KeycloakSetup.assign_scope_to_client cid sid sys).1 = false) ∧
    (∀ sys2 : Sys, sys2.faults.contains (Req.putDefaultScope cid sid) = true →
      (groupsAssignScope cid sid sys2).1 = false ∧
      (KeycloakSetup.assign_scope_to_client cid sid sys2).1 = false) := by
  refine ⟨?_, ?_, ?_⟩
  · intro h
    constructor <;>
      simp [groupsAssignScope, KeycloakSetup.assign_scope_to_client,
        httpPutDefaultScope, hit, hf, h, raiseOk]
  · intro h
    constructor <;>
      simp [groupsAssignScope, KeycloakSetup.assign_scope_to_client,
        httpPutDefaultScope, hit, hf, h, raiseOk]
  · intro sys2 h
    have hm : Req.putDefaultScope cid sid ∈ sys2.faults := by simpa using h
    constructor <;>
      simp [groupsAssignScope, KeycloakSetup.assign_scope_to_client,
        httpPutDefaultScope, hit, hm, raiseOk]

/-- C2: for every resource kind whose lookup-by-natural-key finds an
existing match (client by clientId, each realm role by name, the client
scope and the protocol mapper by name scan, the group by search), the
ensure operation returns the existing resource and its entire request
trace is the single lookup — zero creation requests are issued. -/
theorem C2_found_means_no_creation (sys : Sys) (orgUuid : String)
    (c : KcClient) (cs : List KcClient) (r1 r2 r3 : KcRole) (sc : KcScope)
    (sid : String) (g : KcGroup) (gs : List KcGroup)
    (hf : sys.faults = [])
    (hc : sys.state.clients.filter (fun x => x.clientId == CLIENT_ID) = c :: cs)
    (h1 : sys.state.roles.find? (fun r => r.name == "PlatformAdmin") = some r1)
    (h2 : sys.state.roles.find? (fun r => r.name == "OrgAdmin") = some r2)
    (h3 : sys.state.roles.find? (fun r => r.name == "User") = some r3)
    (hs : sys.state.scopes.find? (fun x => x.name == "organization") = some sc)
    (hscope : sys.state.scopes.any (fun s => s.id == sid) = true)
    (hm : (sys.state.mappers.filter (fun m => m.scopeId == sid)).any
      (fun m => m.name == "organization-id-mapper") = true)
    (hg : sys.state.groups.filter (fun x => strContains x.name "spooliq-platform") =
      g :: gs) :
    KeycloakSetup.create_client sys =
      (some c.id, { sys with trace := sys.trace ++ [Req.getClients CLIENT_ID] }) ∧
    KeycloakSetup.create_roles sys =
      (true, { sys with trace := sys.trace ++
        [Req.getRole "PlatformAdmin", Req.getRole "OrgAdmin", Req.getRole "User"] }) ∧
    KeycloakSetup.create_client_scope sys =
      (some sc.id, { sys with trace := sys.trace ++ [Req.getScopes] }) ∧
    KeycloakSetup.create_protocol_mapper sid sys =
      (true, { sys with trace := sys.trace ++ [Req.getMappers sid] }) ∧
    groupsEnsureGroup orgUuid sys =
      (some g.id, { sys with trace := sys.trace ++ [Req.getGroups "spooliq-platform"] }) :=
  ⟨create_client_found sys c cs hf hc,
   create_roles_found sys r1 r2 r3 hf h1 h2 h3,
   create_client_scope_found sys sc hf hs,
   create_protocol_mapper_found sys sid hf hscope hm,
   groupsEnsureGroup_found sys orgUuid g gs hg hf⟩

/-- Witness for C2 on the fully provisioned demo realm: each ensure
operation returns the existing resource with a lookup-only trace. -/
theorem C2_found_means_no_creation_witness :
    KeycloakSetup.create_client (initSys demoFullState) =
      (some "kc-0", ⟨demoFullState, [], [Req.getClients CLIENT_ID]⟩) ∧
    KeycloakSetup.create_roles (initSys demoFullState) =
      (true, ⟨demoFullState, [],
        [Req.getRole "PlatformAdmin", Req.getRole "OrgAdmin", Req.getRole "User"]⟩) ∧
    KeycloakSetup.create_client_scope (initSys demoFullState) =
      (some "kc-4", ⟨demoFullState, [], [Req.getScopes]⟩) ∧
    KeycloakSetup.create_protocol_mapper "kc-4" (initSys demoFullState) =
      (true, ⟨demoFullState, [], [Req.getMappers "kc-4"]⟩) ∧
    groupsEnsureGroup "org-A" (initSys demoFullState) =
      (some "g-1", ⟨demoFullState, [], [Req.getGroups "spooliq-platform"]⟩) := by
  have h := C2_found_means_no_creation (initSys demoFullState) "org-A"
    ⟨"kc-0", "spooliq"⟩ []
    ⟨"kc-1", "PlatformAdmin", "PlatformAdmin role for Spooliq multi-tenant system"⟩
    ⟨"kc-2", "OrgAdmin", "OrgAdmin role for Spooliq multi-tenant system"⟩
    ⟨"kc-3", "User", "User role for Spooliq multi-tenant system"⟩
    ⟨"kc-4", "organization"⟩ "kc-4" demoGroup []
    rfl (by decide) (by decide) (by decide) (by decide) (by decide) (by decide)
    (by decide) (by decide)
  exact h

/-- Witness for C7's amended statement at concrete inputs: the real ids
of the provisioned demo realm (204 case) and unknown ids (404 case). -/
theorem C7_amended_witness :
    (groupsAssignScope "kc-0" "kc-4" (initSys demoProvisioned)).1 = true ∧
    (KeycloakSetup.assign_scope_to_client "kc-0" "kc-4" (initSys demoProvisioned)).1 = true ∧
    (groupsAssignScope "c-none" "s-none" (initSys demoProvisioned)).1 = true ∧
    (KeycloakSetup.assign_scope_to_client "c-none" "s-none" (initSys demoProvisioned)).1 = false := by
  have h1 := (C7_amended (initSys demoProvisioned) "kc-0" "kc-4" rfl).1 (by decide)
  have h2 := (C7_amended (initSys demoProvisioned) "c-none" "s-none" rfl).2.1 (by decide)
  exact ⟨h1.1, h1.2, h2.1, h2.2⟩

/-- C9: the user-attribute update (in both scripts) reads the full user
representation, overwrites only the `organization_id` key of the
attribute map, and writes the result back: the stored user keeps its
id, email and every other representation field (`rest`) syntactically,
the trace shows exactly the read and the write, the written attribute
map carries the new `organization_id`, and every other attribute key is
unchanged. -/
theorem C9_attribute_update_frame (sys : Sys) (uuid uid : String) (u0 : KcUser)
    (hf : sys.faults = [])
    (hu : sys.state.users.find? (fun x => x.id == uid) = some u0) :
    KeycloakSetup.set_user_attribute uuid uid sys =
      (true, { sys with
        state := { sys.state with users := sys.state.users.map (fun x =>
          if x.id == uid then
            { u0 with attributes := setA u0.attributes "organization_id" [uuid] }
          else x) },
        trace := sys.trace ++ [Req.getUser uid,
          Req.putUser uid
            { u0 with attributes := setA u0.attributes "organization_id" [uuid] }] }) ∧
    groupsSetUserAttr uuid uid sys =
      { sys with
        state := { sys.state with users := sys.state.users.map (fun x =>
          if x.id == uid then
            { u0 with attributes := setA u0.attributes "organization_id" [uuid] }
          else x) },
        trace := sys.trace ++ [Req.getUser uid,
          Req.putUser uid
            { u0 with attributes := setA u0.attributes "organization_id" [uuid] }] } ∧
    getA (setA u0.attributes "organization_id" [uuid]) "organization_id" = some [uuid] ∧
    (∀ k, k ≠ "organization_id" →
      getA (setA u0.attributes "organization_id" [uuid]) k = getA u0.attributes k) := by
  have hmem : u0 ∈ sys.state.users := List.mem_of_find?_eq_some hu
  have hbeq : (u0.id == uid) = true :=
    List.find?_some (p := fun x : KcUser => x.id == uid) hu
  have hany : sys.state.users.any (fun x => x.id == uid) = true :=
    List.any_eq_true.2 ⟨u0, hmem, hbeq⟩
  refine ⟨?_, ?_, getA_setA_same _ _ _, fun k hk => getA_setA_other _ _ _ _ hk⟩
  · unfold KeycloakSetup.set_user_attribute httpGetUser httpPutUser hit
    simp [hf, hu, hany, raiseOk]
  · unfold groupsSetUserAttr httpGetUser httpPutUser hit
    simp [hf, hu, hany]

/-- Witness for C9 on the demo realm: the update keeps the pre-existing
`locale` attribute and the opaque `firstName` field while overwriting
`organization_id`. -/
theorem C9_attribute_update_frame_witness :
    KeycloakSetup.set_user_attribute "org-Z" "u-1" (initSys demoState) =
      (true, ⟨{ demoState with users :=
          [⟨"u-1", "admin@example.com",
            [("locale", ["en"]), ("organization_id", ["org-Z"])],
            [("firstName", "Ada")]⟩] }, [],
        [Req.getUser "u-1",
         Req.putUser "u-1"
          ⟨"u-1", "admin@example.com",
            [("locale", ["en"]), ("organization_id", ["org-Z"])],
            [("firstName", "Ada")]⟩]⟩) ∧
    getA (setA demoUser.attributes "organization_id" ["org-Z"]) "locale" = some ["en"] := by
  have h := C9_attribute_update_frame (initSys demoState) "org-Z" "u-1" demoUser
    rfl (by decide)
  refine ⟨?_, h.2.2.2 "locale" (by decide)⟩
  have h1 := h.1
  rw [h1]
  decide

/-- C6: when the exact-match user lookup returns no user, the
multitenant run fails: no user-update (PUT) request and no role-mapping
assignment request is ever issued, the user table is left unchanged (no
user-creation fallback), and the process exits 1. -/
theorem C6_missing_user_guard (adminEmail orgUuid : String) (s : KcState)
    (hu : s.users.filter (fun x => x.email == adminEmail) = []) :
    (KeycloakSetup.run adminEmail orgUuid (initSys s)).1 = false ∧
    (KeycloakSetup.run adminEmail orgUuid (initSys s)).2.trace.any isPutUser = false ∧
    (KeycloakSetup.run adminEmail orgUuid (initSys s)).2.trace.any
      isPostRoleMappings = false ∧
    (KeycloakSetup.run adminEmail orgUuid (initSys s)).2.state.users = s.users ∧
    KeycloakSetup.mainExit adminEmail orgUuid (initSys s) = 1 := by
  obtain ⟨st6, tr6, cu, sid, c, sc, r1, r2, r3, husers, hrm, hgr, hug, hhead, hcid,
    h1, h2, h3, hsc, hscid, hm, hds, htr, hrun⟩ :=
    run_through_assign_noFault adminEmail orgUuid s
  have hu6 : st6.users.filter (fun x => x.email == adminEmail) = [] := by
    rw [husers]; exact hu
  have e7 := find_user_empty ⟨st6, [], tr6⟩ adminEmail rfl hu6
  simp only [e7] at hrun
  have htr7 : ∀ r ∈ tr6 ++ [Req.getUsersByEmail adminEmail],
      isPutUser r = false ∧ isPostRoleMappings r = false := by
    intro r hr
    rcases List.mem_append.1 hr with h | h
    · exact isPreUserReq_not_user r (htr r h)
    · simp only [List.mem_singleton] at h
      subst h
      exact ⟨rfl, rfl⟩
  refine ⟨by rw [hrun], ?_, ?_, by rw [hrun]; exact husers, ?_⟩
  · rw [hrun]
    simp only [List.any_eq_false]
    intro r hr
    intro hfalse
    rw [(htr7 r hr).1] at hfalse
    cases hfalse
  · rw [hrun]
    simp only [List.any_eq_false]
    intro r hr
    intro hfalse
    rw [(htr7 r hr).2] at hfalse
    cases hfalse
  · unfold KeycloakSetup.mainExit
    rw [hrun]
    simp

/-- Witness for C6 on a realm with no users at all. -/
theorem C6_missing_user_guard_witness :
    (KeycloakSetup.run "admin@example.com" "org-A" (initSys demoNoUserState)).1 = false ∧
    (KeycloakSetup.run "admin@example.com" "org-A"
      (initSys demoNoUserState)).2.trace.any isPutUser = false ∧
    (KeycloakSetup.run "admin@example.com" "org-A"
      (initSys demoNoUserState)).2.trace.any isPostRoleMappings = false ∧
    (KeycloakSetup.run "admin@example.com" "org-A"
      (initSys demoNoUserState)).2.state.users = demoNoUserState.users ∧
    KeycloakSetup.mainExit "admin@example.com" "org-A" (initSys demoNoUserState) = 1 :=
  C6_missing_user_guard "admin@example.com" "org-A" demoNoUserState (by decide)

/-- C3 amended: 409-normalization holds for the multitenant protocol
mapper (a creation answered 409 — here because the lookup failed once
while the mapper exists — returns success), and for the groups script's
realm roles (the run continues past the 409-answered creation and the
role still appears in the final role-assignment payload); in the
multitenant script itself a realm-role creation answered 409 marks the
run failed (refuted by the counterexample). -/
theorem C3_amended (sys : Sys) (sid : String)
    (hf : sys.faults = [Req.getMappers sid])
    (hscope : sys.state.scopes.any (fun s => s.id == sid) = true)
    (hm : sys.state.mappers.any
      (fun m => m.scopeId == sid && m.name == "organization-id-mapper") = true) :
    KeycloakSetup.create_protocol_mapper sid sys =
      (true, { sys with
        faults := [],
        trace := sys.trace ++
          [Req.getMappers sid, Req.postMapper sid "organization-id-mapper"] }) ∧
    (groupsRun "org-C" ⟨demoGroupsStateWithUserRole, [Req.getRole "User"], []⟩).1.exitCode
      = 0 ∧
    (groupsRun "org-C" ⟨demoGroupsStateWithUserRole, [Req.getRole "User"], []⟩).2.trace.contains
      (Req.postRole "User") = true ∧
    (groupsRun "org-C" ⟨demoGroupsStateWithUserRole, [Req.getRole "User"], []⟩).2.trace.any
      (payloadHasRole "r-u" "User") = true := by
  refine ⟨?_, by decide, by decide, by decide⟩
  unfold KeycloakSetup.create_protocol_mapper httpGetMappers httpPostMapper hit
  simp [hf, hscope, hm, raiseOk]

/-- Witness for C3's amended statement: the provisioned demo realm with
one pending fault on the mapper listing. -/
theorem C3_amended_witness :
    KeycloakSetup.create_protocol_mapper "kc-4"
        ⟨demoProvisioned, [Req.getMappers "kc-4"], []⟩ =
      (true, ⟨demoProvisioned, [],
        [Req.getMappers "kc-4", Req.postMapper "kc-4" "organization-id-mapper"]⟩) := by
  exact (C3_amended ⟨demoProvisioned, [Req.getMappers "kc-4"], []⟩ "kc-4"
    rfl (by decide) (by decide)).1

/-- C4 amended: the multitenant orchestration is fail-fast — whichever
step first fails, the run ends at that step's system (its request trace
is final: no later step issues a request) with result `False` and exit
code 1.  The groups script does not have this property (see the
counterexample): only its aborting steps stop the pipeline. -/
theorem C4_amended (adminEmail orgUuid : String) (sys : Sys) :
    (∀ s1, KeycloakSetup.get_admin_token sys = (false, s1) →
      KeycloakSetup.run adminEmail orgUuid sys = (false, s1)) ∧
    (∀ s1 s2, KeycloakSetup.get_admin_token sys = (true, s1) →
      KeycloakSetup.create_client s1 = (none, s2) →
      KeycloakSetup.run adminEmail orgUuid sys = (false, s2)) ∧
    (∀ s1 s2 cu s3, KeycloakSetup.get_admin_token sys = (true, s1) →
      KeycloakSetup.create_client s1 = (some cu, s2) →
      KeycloakSetup.create_roles s2 = (false, s3) →
      KeycloakSetup.run adminEmail orgUuid sys = (false, s3)) ∧
    (∀ s1 s2 cu s3 s4, KeycloakSetup.get_admin_token sys = (true, s1) →
      KeycloakSetup.create_client s1 = (some cu, s2) →
      KeycloakSetup.create_roles s2 = (true, s3) →
      KeycloakSetup.create_client_scope s3 = (none, s4) →
      KeycloakSetup.run adminEmail orgUuid sys = (false, s4)) ∧
    (∀ s1 s2 cu s3 s4 sc s5, KeycloakSetup.get_admin_token sys = (true, s1) →
      KeycloakSetup.create_client s1 = (some cu, s2) →
      KeycloakSetup.create_roles s2 = (true, s3) →
      KeycloakSetup.create_client_scope s3 = (some sc, s4) →
      KeycloakSetup.create_protocol_mapper sc s4 = (false, s5) →
      KeycloakSetup.run adminEmail orgUuid sys = (false, s5)) ∧
    (∀ s1 s2 cu s3 s4 sc s5 s6, KeycloakSetup.get_admin_token sys = (true, s1) →
      KeycloakSetup.create_client s1 = (some cu, s2) →
      KeycloakSetup.create_roles s2 = (true, s3) →
      KeycloakSetup.create_client_scope s3 = (some sc, s4) →
      KeycloakSetup.create_protocol_mapper sc s4 = (true, s5) →
      KeycloakSetup.assign_scope_to_client cu sc s5 = (false, s6) →
      KeycloakSetup.run adminEmail orgUuid sys = (false, s6)) ∧
    (∀ s1 s2 cu s3 s4 sc s5 s6 s7, KeycloakSetup.get_admin_token sys = (true, s1) →
      KeycloakSetup.create_client s1 = (some cu, s2) →
      KeycloakSetup.create_roles s2 = (true, s3) →
      KeycloakSetup.create_client_scope s3 = (some sc, s4) →
      KeycloakSetup.create_protocol_mapper sc s4 = (true, s5) →
      KeycloakSetup.assign_scope_to_client cu sc s5 = (true, s6) →
      KeycloakSetup.find_user_by_email adminEmail s6 = (none, s7) →
      KeycloakSetup.run adminEmail orgUuid sys = (false, s7)) ∧
    (∀ s1 s2 cu s3 s4 sc s5 s6 s7 uid s8, KeycloakSetup.get_admin_token sys = (true, s1) →
      KeycloakSetup.create_client s1 = (some cu, s2) →
      KeycloakSetup.create_roles s2 = (true, s3) →
      KeycloakSetup.create_client_scope s3 = (some sc, s4) →
      KeycloakSetup.create_protocol_mapper sc s4 = (true, s5) →
      KeycloakSetup.assign_scope_to_client cu sc s5 = (true, s6) →
      KeycloakSetup.find_user_by_email adminEmail s6 = (some uid, s7) →
      KeycloakSetup.set_user_attribute orgUuid uid s7 = (false, s8) →
      KeycloakSetup.run adminEmail orgUuid sys = (false, s8)) ∧
    (∀ s1 s2 cu s3 s4 sc s5 s6 s7 uid s8 s9, KeycloakSetup.get_admin_token sys = (true, s1) →
      KeycloakSetup.create_client s1 = (some cu, s2) →
      KeycloakSetup.create_roles s2 = (true, s3) →
      KeycloakSetup.create_client_scope s3 = (some sc, s4) →
      KeycloakSetup.create_protocol_mapper sc s4 = (true, s5) →
      KeycloakSetup.assign_scope_to_client cu sc s5 = (true, s6) →
      KeycloakSetup.find_user_by_email adminEmail s6 = (some uid, s7) →
      KeycloakSetup.set_user_attribute orgUuid uid s7 = (true, s8) →
      KeycloakSetup.assign_roles_to_user uid s8 = (false, s9) →
      KeycloakSetup.run adminEmail orgUuid sys = (false, s9)) ∧
    ((KeycloakSetup.run adminEmail orgUuid sys).1 = false →
      KeycloakSetup.mainExit adminEmail orgUuid sys = 1) := by
  refine ⟨?_, ?_, ?_, ?_, ?_, ?_, ?_, ?_, ?_, ?_⟩
  · intro s1 h1
    unfold KeycloakSetup.run
    rw [h1]
    simp
  · intro s1 s2 h1 h2
    unfold KeycloakSetup.run
    rw [h1]
    simp [h2]
  · intro s1 s2 cu s3 h1 h2 h3
    unfold KeycloakSetup.run
    rw [h1]
    simp [h2, h3]
  · intro s1 s2 cu s3 s4 h1 h2 h3 h4
    unfold KeycloakSetup.run
    rw [h1]
    simp [h2, h3, h4]
  · intro s1 s2 cu s3 s4 sc s5 h1 h2 h3 h4 h5
    unfold KeycloakSetup.run
    rw [h1]
    simp [h2, h3, h4, h5]
  · intro s1 s2 cu s3 s4 sc s5 s6 h1 h2 h3 h4 h5 h6
    unfold KeycloakSetup.run
    rw [h1]
    simp [h2, h3, h4, h5, h6]
  · intro s1 s2 cu s3 s4 sc s5 s6 s7 h1 h2 h3 h4 h5 h6 h7
    unfold KeycloakSetup.run
    rw [h1]
    simp [h2, h3, h4, h5, h6, h7]
  · intro s1 s2 cu s3 s4 sc s5 s6 s7 uid s8 h1 h2 h3 h4 h5 h6 h7 h8
    unfold KeycloakSetup.run
    rw [h1]
    simp [h2, h3, h4, h5, h6, h7, h8]
  · intro s1 s2 cu s3 s4 sc s5 s6 s7 uid s8 s9 h1 h2 h3 h4 h5 h6 h7 h8 h9
    unfold KeycloakSetup.run
    rw [h1]
    simp [h2, h3, h4, h5, h6, h7, h8, h9]
  · intro hfalse
    unfold KeycloakSetup.mainExit
    rw [hfalse]
    simp

/-- Witness for C4's amended fail-fast statement: the roles step fails
(409 after a faulted lookup) and the run ends exactly at that step's
system — the trace's last request is the failing role creation. -/
theorem C4_amended_witness :
    KeycloakSetup.run "admin@example.com" "org-A"
      ⟨demoStateWithUserRole, [Req.getRole "User"], []⟩ =
      (false,
        ⟨⟨[⟨"kc-0", "spooliq"⟩],
          [⟨"r-u", "User", "demo"⟩,
           ⟨"kc-1", "PlatformAdmin", "PlatformAdmin role for Spooliq multi-tenant system"⟩,
           ⟨"kc-2", "OrgAdmin", "OrgAdmin role for Spooliq multi-tenant system"⟩],
          [], [], [], [demoUser], [], [], [], 3⟩,
         [],
         [Req.postToken, Req.getClients "spooliq", Req.postClient "spooliq",
          Req.getClients "spooliq", Req.getRole "PlatformAdmin",
          Req.postRole "PlatformAdmin", Req.getRole "OrgAdmin",
          Req.postRole "OrgAdmin", Req.getRole "User", Req.postRole "User"]⟩) := by
  exact (C4_amended "admin@example.com" "org-A"
      ⟨demoStateWithUserRole, [Req.getRole "User"], []⟩).2.2.1
    ⟨demoStateWithUserRole, [Req.getRole "User"], [Req.postToken]⟩
    ⟨⟨[⟨"kc-0", "spooliq"⟩], [⟨"r-u", "User", "demo"⟩], [], [], [], [demoUser],
      [], [], [], 1⟩,
     [Req.getRole "User"],
     [Req.postToken, Req.getClients "spooliq", Req.postClient "spooliq",
      Req.getClients "spooliq"]⟩
    "kc-0" _ (by decide) (by decide) (by decide)

/-- **C1 (amended).** Re-running the full multitenant orchestration
against the state left by a successful fault-free run (with unique user
ids) succeeds again and introduces no duplicate resource: the client,
role, scope, mapper, group, default-scope and role-mapping collections
and the id counter are all unchanged.  The final states however differ
in exactly one place — the admin user's `organization_id` attribute is
overwritten with the second run's freshly minted uuid, because the
script regenerates the uuid on every run — so the claimed state equality
holds precisely when the minted value is reused (`u2 = u1`), and is
refuted by the counterexample when it is not. -/
theorem C1_amended (adminEmail u1 u2 : String) (s0 : KcState)
    (hwf : UsersWF s0)
    (h1 : (KeycloakSetup.run adminEmail u1 (initSys s0)).1 = true) :
    (KeycloakSetup.run adminEmail u2
        (initSys (KeycloakSetup.run adminEmail u1 (initSys s0)).2.state)).1 = true ∧
    (KeycloakSetup.run adminEmail u2
        (initSys (KeycloakSetup.run adminEmail u1 (initSys s0)).2.state)).2.state =
      stateAttrSet adminEmail u2
        ((KeycloakSetup.run adminEmail u1 (initSys s0)).2.state) ∧
    (KeycloakSetup.run adminEmail u2
        (initSys (KeycloakSetup.run adminEmail u1 (initSys s0)).2.state)).2.state.clients =
      (KeycloakSetup.run adminEmail u1 (initSys s0)).2.state.clients ∧
    (KeycloakSetup.run adminEmail u2
        (initSys (KeycloakSetup.run adminEmail u1 (initSys s0)).2.state)).2.state.roles =
      (KeycloakSetup.run adminEmail u1 (initSys s0)).2.state.roles ∧
    (KeycloakSetup.run adminEmail u2
        (initSys (KeycloakSetup.run adminEmail u1 (initSys s0)).2.state)).2.state.scopes =
      (KeycloakSetup.run adminEmail u1 (initSys s0)).2.state.scopes ∧
    (KeycloakSetup.run adminEmail u2
        (initSys (KeycloakSetup.run adminEmail u1 (initSys s0)).2.state)).2.state.mappers =
      (KeycloakSetup.run adminEmail u1 (initSys s0)).2.state.mappers ∧
    (KeycloakSetup.run adminEmail u2
        (initSys (KeycloakSetup.run adminEmail u1 (initSys s0)).2.state)).2.state.groups =
      (KeycloakSetup.run adminEmail u1 (initSys s0)).2.state.groups ∧
    (KeycloakSetup.run adminEmail u2
        (initSys (KeycloakSetup.run adminEmail u1 (initSys s0)).2.state)).2.state.defaultScopes =
      (KeycloakSetup.run adminEmail u1 (initSys s0)).2.state.defaultScopes ∧
    (KeycloakSetup.run adminEmail u2
        (initSys (KeycloakSetup.run adminEmail u1 (initSys s0)).2.state)).2.state.roleMappings =
      (KeycloakSetup.run adminEmail u1 (initSys s0)).2.state.roleMappings ∧
    (KeycloakSetup.run adminEmail u2
        (initSys (KeycloakSetup.run adminEmail u1 (initSys s0)).2.state)).2.state.userGroups =
      (KeycloakSetup.run adminEmail u1 (initSys s0)).2.state.userGroups ∧
    (KeycloakSetup.run adminEmail u2
        (initSys (KeycloakSetup.run adminEmail u1 (initSys s0)).2.state)).2.state.nextId =
      (KeycloakSetup.run adminEmail u1 (initSys s0)).2.state.nextId ∧
    (u2 = u1 →
      (KeycloakSetup.run adminEmail u2
          (initSys (KeycloakSetup.run adminEmail u1 (initSys s0)).2.state)).2.state =
        (KeycloakSetup.run adminEmail u1 (initSys s0)).2.state) := by
  obtain ⟨hp1, hwf1, hfix1⟩ := run_success_provisions adminEmail u1 s0 hwf h1
  obtain ⟨hs2, hst2⟩ := run_provisioned adminEmail u2
    ((KeycloakSetup.run adminEmail u1 (initSys s0)).2.state) hwf1 hp1
  obtain ⟨hfc, hfr, hfs, hfm, hfg, hfd, hfrm, hfu, hfn⟩ :=
    stateAttrSet_frame adminEmail u2
      ((KeycloakSetup.run adminEmail u1 (initSys s0)).2.state)
  refine ⟨hs2, hst2, ?_, ?_, ?_, ?_, ?_, ?_, ?_, ?_, ?_, ?_⟩
  · rw [hst2]; exact hfc
  · rw [hst2]; exact hfr
  · rw [hst2]; exact hfs
  · rw [hst2]; exact hfm
  · rw [hst2]; exact hfg
  · rw [hst2]; exact hfd
  · rw [hst2]; exact hfrm
  · rw [hst2]; exact hfu
  · rw [hst2]; exact hfn
  · intro he
    rw [hst2, he, hfix1]

/-- Witness for the amended C1 on the demo realm: a successful first run
(uuid `"org-A"`), a successful second run (freshly minted `"org-B"`),
whose final state is the first run's state with only the user attribute
overwritten. -/
theorem C1_amended_witness :
    UsersWF demoState ∧
    (KeycloakSetup.run "admin@example.com" "org-A" (initSys demoState)).1 = true ∧
    (KeycloakSetup.run "admin@example.com" "org-B"
        (initSys (KeycloakSetup.run "admin@example.com" "org-A"
          (initSys demoState)).2.state)).1 = true ∧
    (KeycloakSetup.run "admin@example.com" "org-B"
        (initSys (KeycloakSetup.run "admin@example.com" "org-A"
          (initSys demoState)).2.state)).2.state =
      stateAttrSet "admin@example.com" "org-B"
        ((KeycloakSetup.run "admin@example.com" "org-A"
          (initSys demoState)).2.state) := by
  have hwf : UsersWF demoState := by unfold UsersWF; decide
  have h1 : (KeycloakSetup.run "admin@example.com" "org-A"
      (initSys demoState)).1 = true := by decide
  have h := C1_amended "admin@example.com" "org-A" "org-B" demoState hwf h1
  exact ⟨hwf, h1, h.1, h.2.1⟩

/-- **C8.** The tenant (organization) identifier is minted exactly once
per run — it is fixed before the first step executes (`organization_uuid`
in `KeycloakSetup.__init__`, `SPOOLIQ_ORG_UUID` at the groups module top)
and is a parameter of the whole run — and every later use of it inside
that run carries that same value: over every starting server state and
every fault injection, each organization identifier occurring anywhere in
the HTTP exchange (the group-creation attributes and the user-attribute
updates, the only requests that carry one) equals the minted value, in
both the multitenant run and the groups run. -/
theorem C8_tenant_identifier_minted_once (adminEmail orgUuid : String)
    (s : KcState) (faults : List Req) :
    OrgOnly orgUuid (KeycloakSetup.run adminEmail orgUuid ⟨s, faults, []⟩).2.trace ∧
    OrgOnly orgUuid (groupsRun orgUuid ⟨s, faults, []⟩).2.trace :=
  ⟨run_org adminEmail orgUuid ⟨s, faults, []⟩
      (fun r hr => absurd hr (List.not_mem_nil r)),
   groupsRun_org orgUuid ⟨s, faults, []⟩
      (fun r hr => absurd hr (List.not_mem_nil r))⟩

end Spooliq
